import Mathlib

/-!
sochain-client: a shallow embedding of the gateway and its upstream client.

The development follows the three Go packages of the repository:

* `pkg/sochain`    : the value objects (`types.go`), the typed client error (`error.go`)
                     and the HTTP client `Sochain` (`client.go`);
* `pkg/util`       : `GetParamNetwork`;
* `pkg/controller` : `HashSHA256Regex`, `FetchTxAsync`, `HandleGetBlock`,
                     `HandleGetTransaction`.

Go values of interface type `error` are modelled by `GoError`, whose constructors are the
dynamic types that occur in the program.  A Go pair `(*T, error)` is modelled by
`Option T × Option GoError` (`none` is `nil`).  A `Connector` is four functions of their
arguments: within one run an operation answers equal arguments equally.  The goroutines
started by `FetchTxAsync` are modelled by an explicit schedule that fixes the order in which
they call upstream and the order in which they send on the result channel.  A handler run
yields a `Trace`: the replies written, the upstream calls made, the log entries, and
whether the run ended in a nil dereference.
-/

set_option autoImplicit false

namespace sochain

/-! ## pkg/sochain/error.go -/

/-- Dynamic types behind Go's `error` interface, as they occur in this program. -/
inductive GoError where
  /-- Outcome of `errors.New`, `fmt.Errorf`, or a transport or JSON failure: no status. -/
  | errorString (s : String)
  /-- Value of type `*strconv.NumError`. -/
  | numError (fn : String) (num : String) (msg : String)
  /-- Value of the struct type `sochain.ClientError`. -/
  | ClientError (err : GoError) (statuscode : Int)
  /-- Value of the pointer type `*sochain.ClientError`. -/
  | ptrClientError (err : GoError) (statuscode : Int)
  deriving DecidableEq, Repr

/-- Method `Error()`; `ClientError` forwards to the wrapped error. -/
def GoError.Error : GoError → String
  | .errorString s => s
  | .numError fn num msg => "strconv." ++ fn ++ ": parsing " ++ num ++ ": " ++ msg
  | .ClientError e _ => e.Error
  | .ptrClientError e _ => e.Error

/-- Method `Code()` of `ClientError`; it is promoted to `*ClientError`, and the other
error types do not have it. -/
def GoError.Code : GoError → Option Int
  | .ClientError _ c => some c
  | .ptrClientError _ c => some c
  | _ => none

/-- `NewClientErr` returns a pointer, `&ClientError{err: e, statuscode: statuscode}`. -/
def NewClientErr (e : GoError) (statuscode : Int) : GoError :=
  GoError.ptrClientError e statuscode

/-- Pointer dereference `*p` of a `*ClientError` (the handler tests build their mock
errors as `*sochain.NewClientErr(...)`). -/
def GoError.deref : GoError → GoError
  | .ptrClientError e c => .ClientError e c
  | e => e

/-- The type assertion `cErr, ok := err.(sochain.ClientError)`: it succeeds exactly when the
dynamic type of `err` is the struct type `ClientError`, and yields `cErr.Code()`. -/
def assertClientError : Option GoError → Option Int
  | some (.ClientError _ c) => some c
  | _ => none

/-! ## pkg/sochain/types.go -/

structure NetworkData where
  Name : String := ""
  Acronym : String := ""
  Network : String := ""
  SymbolHtmlcode : String := ""
  URL : String := ""
  MiningDifficulty : String := ""
  UnconfirmedTxs : Int := 0
  Blocks : Int := 0
  Price : String := ""
  PriceBase : String := ""
  PriceUpdateTime : Int := 0
  Hashrate : String := ""
  deriving DecidableEq, Repr

structure NetworkInfo where
  Status : String := ""
  Data : NetworkData := {}
  deriving DecidableEq, Repr

structure BlockData where
  Network : String := ""
  Blockhash : String := ""
  BlockNo : Int := 0
  MiningDifficulty : String := ""
  Time : Int := 0
  Confirmations : Int := 0
  IsOrphan : Bool := false
  Txs : List String := []
  Merkleroot : String := ""
  PreviousBlockhash : String := ""
  NextBlockhash : String := ""
  Size : Int := 0
  deriving DecidableEq, Repr

structure Block where
  Status : String := ""
  Data : BlockData := {}
  deriving DecidableEq, Repr

/-- The fields of `TransactionData`; the `Inputs` and `Outputs` slices, which no code of the
repository reads, are kept as their raw JSON text. -/
structure TransactionData where
  Network : String := ""
  Txid : String := ""
  Blockhash : String := ""
  BlockNo : Int := 0
  Confirmations : Int := 0
  Time : Int := 0
  Size : Int := 0
  Vsize : Int := 0
  Version : Int := 0
  Locktime : Int := 0
  SentValue : String := ""
  Fee : String := ""
  Inputs : List String := []
  Outputs : List String := []
  TxHex : String := ""
  deriving DecidableEq, Repr

structure Transaction where
  Status : String := ""
  Data : TransactionData := {}
  Code : Int := 0
  Message : String := ""
  deriving DecidableEq, Repr

abbrev Transactions := List Transaction

structure TransactionResponse where
  TxID : String := ""
  Timestamp : String := ""
  Fee : String := ""
  Value : String := ""
  deriving DecidableEq, Repr

abbrev TransactionResponses := List TransactionResponse

structure BlockResponse where
  Blocknumber : Int := 0
  Timestamp : String := ""
  PreviousHash : String := ""
  NextHash : String := ""
  Size : Int := 0
  Transactions : TransactionResponses := []
  deriving DecidableEq, Repr

/-- The standard-library services the program is linked against and whose result depends on
the process, not on the repository: `time.Unix(sec, 0).Format(time.RFC3339)` renders in the
process's local time zone. -/
structure Runtime where
  formatRFC3339 : Int → String

/-- Method `(b *Block) Response()`; the `Transactions` field is left at its zero value. -/
def Block.Response (rt : Runtime) (b : Block) : BlockResponse :=
  { Blocknumber := b.Data.BlockNo
    Timestamp := rt.formatRFC3339 b.Data.Time
    PreviousHash := b.Data.PreviousBlockhash
    NextHash := b.Data.NextBlockhash
    Size := b.Data.Size }

/-- Method `(t Transaction) Response()`. -/
def Transaction.Response (rt : Runtime) (t : Transaction) : TransactionResponse :=
  { TxID := t.Data.Txid
    Timestamp := rt.formatRFC3339 t.Data.Time
    Fee := t.Data.Fee
    Value := t.Data.SentValue }

/-- Method `(t Transactions) Response()`: `r[i] = t[i].Response()` for every index. -/
def Transactions.Response (rt : Runtime) (t : Transactions) : TransactionResponses :=
  t.map (Transaction.Response rt)

/-! ## pkg/sochain/client.go -/

def apiURL : String := "https://sochain.com/api/v2"

/-- An outgoing HTTP request: method and URL (no body, no extra headers are ever set). -/
structure HttpRequest where
  method : String
  url : String
  deriving DecidableEq, Repr

/-- The part of an `*http.Response` the client reads: `StatusCode`, and the outcome of
`ioutil.ReadAll(resp.Body)` (the body, or the message of the read error). -/
structure HttpResponse where
  StatusCode : Int
  Body : Except String String

/-- A call of `net/http` made by a client operation: `http.NewRequest(method, url, nil)`,
`(*http.Client).Do(req)` or `http.Get(url)`. -/
inductive LibCall where
  | NewRequest (method url : String)
  | Do (req : HttpRequest)
  | Get (url : String)
  deriving DecidableEq, Repr

/-- The world the client talks to: `net/http` and `encoding/json`.  A failure of one of
these library calls is an error value of a library type, which never is a `ClientError`;
it is represented by its message and reaches the caller as `GoError.errorString`.
`NewRequest` is the error of `http.NewRequest(method, url, nil)` (`none` is `nil`),
`Do` is `(*http.Client).Do`, `Get` is `http.Get`, and the three decoders are
`json.Unmarshal` into the respective value object.  `SentByDo req` and `SentByGet url` are
the requests that `net/http` puts on the wire while it serves the call `Do(req)` or
`Get(url)`: that is decided by the library and the upstream, not by the client (no request
for a URL the library cannot parse, one more request for every redirect it follows). -/
structure Net where
  NewRequest : String → String → Option String
  Do : HttpRequest → Except String HttpResponse
  Get : String → Except String HttpResponse
  SentByDo : HttpRequest → List HttpRequest
  SentByGet : String → List HttpRequest
  UnmarshalNetworkInfo : String → Except String NetworkInfo
  UnmarshalBlock : String → Except String Block
  UnmarshalTransaction : String → Except String Transaction

structure Sochain where
  Client : Net
  baseUrl : String

/-- Result of a client operation: the Go pair `(*T, error)`, the calls of `net/http` the
operation made, in order (`asked`), and the requests that `net/http` put on the wire while
serving them (`sent`). -/
structure ClientResult (T : Type) where
  value : Option T
  err : Option GoError
  asked : List LibCall
  sent : List HttpRequest

/-- Go pair returned by a client operation. -/
def ClientResult.pair {T : Type} (r : ClientResult T) : Option T × Option GoError :=
  (r.value, r.err)

def Sochain.NetworkInfo (c : Sochain) (networkID : String) : ClientResult NetworkInfo :=
  let url := apiURL ++ "/get_info/" ++ networkID
  match c.Client.NewRequest "GET" url with
  | some msg => ⟨none, some (.errorString msg), [.NewRequest "GET" url], []⟩
  | none =>
    let req : HttpRequest := ⟨"GET", url⟩
    let asked : List LibCall := [.NewRequest "GET" url, .Do req]
    let sent := c.Client.SentByDo req
    match c.Client.Do req with
    | .error msg => ⟨none, some (.errorString msg), asked, sent⟩
    | .ok resp =>
      if resp.StatusCode ≠ 200 then
        ⟨none, some (NewClientErr (.errorString ("sochain response statuscode "
          ++ toString resp.StatusCode ++ ", networkID '" ++ networkID ++ "'")) resp.StatusCode),
          asked, sent⟩
      else
        match resp.Body with
        | .error msg => ⟨none, some (.errorString msg), asked, sent⟩
        | .ok body =>
          match c.Client.UnmarshalNetworkInfo body with
          | .error msg => ⟨none, some (.errorString msg), asked, sent⟩
          | .ok info => ⟨some info, none, asked, sent⟩

def Sochain.BlockHeight (c : Sochain) (networkID : String) (height : Int) : ClientResult Block :=
  let url := apiURL ++ "/get_block/" ++ networkID ++ "/" ++ toString height
  let asked : List LibCall := [.Get url]
  let sent := c.Client.SentByGet url
  match c.Client.Get url with
  | .error msg => ⟨none, some (.errorString msg), asked, sent⟩
  | .ok resp =>
    if resp.StatusCode ≠ 200 then
      ⟨none, some (NewClientErr (.errorString ("sochain response statuscode "
        ++ toString resp.StatusCode ++ ", height '" ++ toString height ++ "'")) resp.StatusCode),
        asked, sent⟩
    else
      match resp.Body with
      | .error msg => ⟨none, some (.errorString msg), asked, sent⟩
      | .ok body =>
        match c.Client.UnmarshalBlock body with
        | .error msg => ⟨none, some (.errorString msg), asked, sent⟩
        | .ok b => ⟨some b, none, asked, sent⟩

def Sochain.BlockHash (c : Sochain) (networkID blockHash : String) : ClientResult Block :=
  let url := apiURL ++ "/get_block/" ++ networkID ++ "/" ++ blockHash
  let asked : List LibCall := [.Get url]
  let sent := c.Client.SentByGet url
  match c.Client.Get url with
  | .error msg => ⟨none, some (.errorString msg), asked, sent⟩
  | .ok resp =>
    if resp.StatusCode ≠ 200 then
      ⟨none, some (NewClientErr (.errorString ("sochain response statuscode "
        ++ toString resp.StatusCode ++ ", blockhash '" ++ blockHash ++ "'")) resp.StatusCode),
        asked, sent⟩
    else
      match resp.Body with
      | .error msg => ⟨none, some (.errorString msg), asked, sent⟩
      | .ok body =>
        match c.Client.UnmarshalBlock body with
        | .error msg => ⟨none, some (.errorString msg), asked, sent⟩
        | .ok b => ⟨some b, none, asked, sent⟩

def Sochain.Transaction (c : Sochain) (networkID txHash : String) : ClientResult Transaction :=
  let url := apiURL ++ "/tx/" ++ networkID ++ "/" ++ txHash
  let asked : List LibCall := [.Get url]
  let sent := c.Client.SentByGet url
  match c.Client.Get url with
  | .error msg => ⟨none, some (.errorString msg), asked, sent⟩
  | .ok resp =>
    if resp.StatusCode ≠ 200 then
      ⟨none, some (NewClientErr (.errorString ("sochain response statuscode "
        ++ toString resp.StatusCode ++ ", txhash '" ++ txHash ++ "'")) resp.StatusCode),
        asked, sent⟩
    else
      match resp.Body with
      | .error msg => ⟨none, some (.errorString msg), asked, sent⟩
      | .ok body =>
        match c.Client.UnmarshalTransaction body with
        | .error msg => ⟨none, some (.errorString msg), asked, sent⟩
        | .ok tx => ⟨some tx, none, asked, sent⟩

/-- Interface `Connector`: the four upstream operations, each a Go pair `(*T, error)`. -/
structure Connector where
  NetworkInfo : String → Option NetworkInfo × Option GoError
  BlockHeight : String → Int → Option Block × Option GoError
  BlockHash : String → String → Option Block × Option GoError
  Transaction : String → String → Option Transaction × Option GoError

/-- The `Connector` that `NewSochain()` returns (`&Sochain{Client: ..., baseUrl: apiURL}`),
for a given behaviour of the network. -/
def NewSochain (net : Net) : Connector :=
  let c : Sochain := { Client := net, baseUrl := apiURL }
  { NetworkInfo := fun n => (c.NetworkInfo n).pair
    BlockHeight := fun n h => (c.BlockHeight n h).pair
    BlockHash := fun n x => (c.BlockHash n x).pair
    Transaction := fun n x => (c.Transaction n x).pair }

end sochain

/-! ## Standard library and framework services used by the handlers -/

namespace strings

/-- Go's `strings.ToLower`, on the ASCII letters (the handlers apply it to a validated
network id only). -/
def ToLower (s : String) : String := ⟨s.data.map Char.toLower⟩

end strings

namespace strconv

/-- Value of a run of ASCII decimal digits. -/
def digitsValue (ds : List Char) : Nat :=
  ds.foldl (fun n ch => n * 10 + (ch.toNat - 48)) 0

/-- Go's `strconv.Atoi` on a 64-bit platform: an optional sign followed by one or more
ASCII digits, with a value in the range of `int64`.  On a syntax error the pair is
`(0, err)`, on a range error it is the nearest bound together with `err`. -/
def Atoi (s : String) : Int × Option sochain.GoError :=
  let syntaxErr := sochain.GoError.numError "Atoi" s "invalid syntax"
  let rangeErr := sochain.GoError.numError "Atoi" s "value out of range"
  let neg := s.data.head? = some '-'
  let ds := if s.data.head? = some '-' ∨ s.data.head? = some '+' then s.data.tail else s.data
  if ds = [] then (0, some syntaxErr)
  else if ds.all Char.isDigit then
    let un := digitsValue ds
    if ¬ neg ∧ un ≥ 2 ^ 63 then (2 ^ 63 - 1, some rangeErr)
    else if neg ∧ un > 2 ^ 63 then (-(2 ^ 63), some rangeErr)
    else (if neg then -(un : Int) else (un : Int), none)
  else (0, some syntaxErr)

end strconv

namespace gin

/-- The part of a `*gin.Context` the handlers read: the path parameters of the matched
route and the query values of the URL, both in order of appearance. -/
structure Context where
  Params : List (String × String)
  QueryValues : List (String × String)

/-- Method `Param(key)`: the value of the first path parameter named `key`, or `""`. -/
def Context.Param (ctx : Context) (key : String) : String :=
  match ctx.Params.find? (fun p => p.1 = key) with
  | some p => p.2
  | none => ""

/-- Method `Query(key)`: the first query value for `key`, or `""` when there is none. -/
def Context.Query (ctx : Context) (key : String) : String :=
  match ctx.QueryValues.find? (fun p => p.1 = key) with
  | some p => p.2
  | none => ""

end gin

/-! ## pkg/util/util.go -/

namespace util

open sochain in
def GetParamNetwork (ctx : gin.Context) (key : String) : String × Option GoError :=
  let v := ctx.Param key
  if v = "" then
    ("", some (.errorString "path param: Network id is missing"))
  else if v ≠ "btc" ∧ v ≠ "ltc" ∧ v ≠ "doge" then
    ("", some (.errorString "path param: Network 'id' can only be 'btc', 'eth' or 'ltc'"))
  else
    (v, none)

end util

/-! ## pkg/controller/controller.go -/

namespace controller

open sochain

/-- Order in which concurrently running goroutines reach a common point.  Each number of
`picks` selects (modulo their count) which of the goroutines still pending goes next; once
`picks` is used up the rest follow in the order in which they were started.  Every order
is the result of some `picks`. -/
def arrival {α : Type} : List Nat → List α → List α
  | [], xs => xs
  | k :: ks, xs =>
    match xs with
    | [] => []
    | x :: rest =>
      ((x :: rest).get? (k % (x :: rest).length)).toList
        ++ arrival ks ((x :: rest).eraseIdx (k % (x :: rest).length))

/-- A run of the Go scheduler, as far as a handler can observe it: the order in which the
goroutines started by `FetchTxAsync` call upstream, and the order in which they send on
the result channel. -/
structure Schedule where
  calls : List Nat
  sends : List Nat

/-- An upstream operation invoked on the `Connector`, with its arguments. -/
inductive Call where
  | NetworkInfo (networkID : String)
  | BlockHeight (networkID : String) (height : Int)
  | BlockHash (networkID : String) (blockHash : String)
  | Transaction (networkID : String) (txHash : String)
  deriving DecidableEq, Repr

inductive Level where
  | Info
  | Warn
  deriving DecidableEq, Repr

/-- Fields of a structured log entry: `zap.Error`, `zap.String` and `zap.Int`. -/
inductive Field where
  | Error (err : Option GoError)
  | String (key : String) (val : String)
  | Int (key : String) (val : Int)
  deriving DecidableEq, Repr

structure LogEntry where
  level : Level
  msg : String
  fields : List Field
  deriving DecidableEq, Repr

/-- The object handed to `ctx.JSON`. -/
inductive Body where
  | text (s : String)
  | block (b : BlockResponse)
  | transaction (t : TransactionResponse)
  deriving DecidableEq, Repr

/-- One invocation `ctx.JSON(code, obj)`. -/
structure Reply where
  code : Int
  obj : Body
  deriving DecidableEq, Repr

/-- Everything a handler run does that is observable from outside: the replies written
with `ctx.JSON`, the upstream operations invoked, the log entries written, and whether the
run ended in a nil-pointer dereference. -/
structure Trace where
  replies : List Reply
  calls : List Call
  logs : List LogEntry
  panicked : Bool
  deriving DecidableEq, Repr

structure Controller where
  client : Connector

def NewController (client : Connector) : Controller := { client := client }

def maxTxPerBlock : Nat := 10

def StatusOK : Int := 200
def StatusBadRequest : Int := 400
def StatusNotFound : Int := 404
def StatusInternalServerError : Int := 500

/-- The character class `[A-Fa-f0-9]`. -/
def hexClass (ch : Char) : Bool :=
  ('A' ≤ ch && ch ≤ 'F') || ('a' ≤ ch && ch ≤ 'f') || ('0' ≤ ch && ch ≤ '9')

/-- The counted repetition `[A-Fa-f0-9]{n}` at the head of the input: the rest of the input
after `n` characters of the class, or `none` when fewer than `n` of them lead the input. -/
def matchHexRepeat : Nat → List Char → Option (List Char)
  | 0, cs => some cs
  | _ + 1, [] => none
  | n + 1, ch :: cs => if hexClass ch then matchHexRepeat n cs else none

/-- `HashSHA256Regex.MatchString` for the pattern `^[A-Fa-f0-9]{64}$`: the repetition is
anchored at the start of the text, and `$` (no multi-line flag) holds only at its end. -/
def HashSHA256Regex (s : String) : Bool :=
  match matchHexRepeat 64 s.data with
  | some [] => true
  | _ => false

structure TxChanResp where
  tx : Option Transaction
  hash : String
  err : Option GoError
  deriving DecidableEq, Repr

/-- One goroutine started by `FetchTxAsync`: the arguments it was started with and the value
it sends on the channel, `TxChanResp{tx: tx, err: err}` (the `hash` field is not set). -/
structure Goroutine where
  networkID : String
  hash : String
  resp : TxChanResp
  deriving DecidableEq, Repr

/-- `FetchTxAsync`: starts one goroutine per element of `txHashList`, in order; each calls
`f(networkID, hash)` and sends the outcome. -/
def FetchTxAsync (f : String → String → Option Transaction × Option GoError)
    (networkID : String) (txHashList : List String) : List Goroutine :=
  txHashList.map fun v =>
    { networkID := networkID
      hash := v
      resp := { tx := (f networkID v).1, hash := "", err := (f networkID v).2 } }

/-- What the loop `for v := range results` leaves behind. -/
structure Collected where
  transactions : Transactions
  logs : List LogEntry
  panicked : Bool
  deriving DecidableEq, Repr

/-- The loop `for v := range results` over the values in the order received.  `err` is the
variable `err` of the enclosing block (the loop asserts its type, not that of `v.err`), and
`lvl` is the level of the entry written for an error that is not a `ClientError`.
Dereferencing a nil `v.tx` ends the run. -/
def rangeResults (lvl : Level) (err : Option GoError) : List TxChanResp → Collected
  | [] => { transactions := [], logs := [], panicked := false }
  | v :: rest =>
    if v.err ≠ none then
      match assertClientError err with
      | some code =>
        let r := rangeResults lvl err rest
        { r with logs := ⟨.Warn, "unable to fetch transaction",
            [.String "txhash" v.hash, .Int "statuscode" code, .Error err]⟩ :: r.logs }
      | none =>
        let r := rangeResults lvl err rest
        { r with logs := ⟨lvl, "unable to fetch transaction",
            [.String "txhash" v.hash, .Error v.err]⟩ :: r.logs }
    else
      match v.tx with
      | none => { transactions := [], logs := [], panicked := true }
      | some tx =>
        let r := rangeResults lvl err rest
        { r with transactions := tx :: r.transactions }

/-- The slice handed to `FetchTxAsync`: `Txs[:maxTxPerBlock]` when
`len(Txs) >= maxTxPerBlock`, else `Txs`. -/
def cappedTxs (txs : List String) : List String :=
  if txs.length ≥ maxTxPerBlock then txs.take maxTxPerBlock else txs

/-- The part of `HandleGetBlock` that follows a successful block lookup, which the source
repeats in each of its three branches: start the lookups, collect the results, and reply
with the block and the transactions collected.  `before` holds the upstream calls already
made, `err` the enclosing `err` variable and `lvl` the log level that differs between the
branches. -/
def enrich (rt : Runtime) (c : Controller) (sched : Schedule) (lvl : Level)
    (err : Option GoError) (before : List Call) (networkID : String) (block : Block) : Trace :=
  let gs := FetchTxAsync c.client.Transaction networkID (cappedTxs block.Data.Txs)
  let calls := before ++ arrival sched.calls (gs.map fun g => Call.Transaction g.networkID g.hash)
  let r := rangeResults lvl err (arrival sched.sends (gs.map fun g => g.resp))
  if r.panicked then
    { replies := [], calls := calls, logs := r.logs, panicked := true }
  else
    { replies := [⟨StatusOK,
        .block { Block.Response rt block with
                 Transactions := Transactions.Response rt r.transactions }⟩]
      calls := calls, logs := r.logs, panicked := false }

/-- Method `(c *Controller) HandleGetBlock`, run under the scheduler behaviour `sched`. -/
def HandleGetBlock (rt : Runtime) (c : Controller) (sched : Schedule) (ctx : gin.Context) :
    Trace :=
  match util.GetParamNetwork ctx "id" with
  | (_, some err) =>
    { replies := [⟨StatusBadRequest,
        .text "path param: network 'id' can only be 'btc', 'eth' or 'ltc'"⟩]
      calls := []
      logs := [⟨.Info, "invalid path param network 'id'", [.Error (some err)]⟩]
      panicked := false }
  | (id, none) =>
    let networkID := strings.ToLower id
    let height := ctx.Query "height"
    let blockHash := ctx.Query "blockhash"
    if height = "" ∧ blockHash = "" then
      match c.client.NetworkInfo networkID with
      | (_, some err) =>
        { replies := [⟨StatusBadRequest,
            .text "one of query params 'height' or 'blockhash' is mandatory"⟩]
          calls := [.NetworkInfo networkID]
          logs := [⟨.Info, "missing query params 'height' or 'blockhash'", [.Error (some err)]⟩]
          panicked := false }
      | (none, none) =>
        { replies := [], calls := [.NetworkInfo networkID], logs := [], panicked := true }
      | (some info, none) =>
        let before : List Call :=
          [.NetworkInfo networkID, .BlockHeight (strings.ToLower networkID) info.Data.Blocks]
        match c.client.BlockHeight (strings.ToLower networkID) info.Data.Blocks with
        | (_, some err) =>
          if assertClientError (some err) = some StatusNotFound then
            { replies := [⟨StatusNotFound, .text "unable to find block for given height"⟩]
              calls := before
              logs := [⟨.Info, "unable to fetch transaction", [.Error (some err)]⟩]
              panicked := false }
          else if assertClientError (some err) = some StatusBadRequest then
            { replies := [⟨StatusBadRequest, .text "bad request"⟩]
              calls := before
              logs := [⟨.Info, "unable to fetch transaction", [.Error (some err)]⟩]
              panicked := false }
          else
            { replies := [⟨StatusInternalServerError,
                .text "unable to fetch block for given height"⟩]
              calls := before
              logs := [⟨.Info, "unable to receive block by height", [.Error (some err)]⟩]
              panicked := false }
        | (none, none) =>
          { replies := [], calls := before, logs := [], panicked := true }
        | (some block, none) =>
          enrich rt c sched .Info none before networkID block
    else if height ≠ "" then
      if (strconv.Atoi height).2 ≠ none ∨ (strconv.Atoi height).1 ≤ 0 then
        { replies := [⟨StatusBadRequest,
            .text "query param 'height' is no integer number, zero or negative"⟩]
          calls := []
          logs := [⟨.Info, "invalid query param 'height'", [.Error (strconv.Atoi height).2]⟩]
          panicked := false }
      else
        let heightInt := (strconv.Atoi height).1
        let before : List Call := [.BlockHeight (strings.ToLower networkID) heightInt]
        match c.client.BlockHeight (strings.ToLower networkID) heightInt with
        | (_, some err) =>
          if assertClientError (some err) = some StatusNotFound then
            { replies := [⟨StatusNotFound, .text "unable to find block for given height"⟩]
              calls := before
              logs := [⟨.Info, "unable to fetch transaction", [.Error (some err)]⟩]
              panicked := false }
          else if assertClientError (some err) = some StatusBadRequest then
            { replies := [⟨StatusBadRequest, .text "bad request"⟩]
              calls := before
              logs := [⟨.Info, "unable to fetch transaction", [.Error (some err)]⟩]
              panicked := false }
          else
            { replies := [⟨StatusInternalServerError,
                .text "unable to fetch block for given height"⟩]
              calls := before
              logs := [⟨.Info, "unable to receive block by height", [.Error (some err)]⟩]
              panicked := false }
        | (none, none) =>
          { replies := [], calls := before, logs := [], panicked := true }
        | (some block, none) =>
          enrich rt c sched .Info none before networkID block
    else if blockHash ≠ "" then
      if ¬ HashSHA256Regex blockHash then
        { replies := [⟨StatusBadRequest,
            .text "provided blockhash is not a valid SHA-256 hash"⟩]
          calls := []
          logs := [⟨.Info, "provided blockhash is not a valid SHA-256 hash",
            [.String "blockhash" blockHash]⟩]
          panicked := false }
      else
        let before : List Call := [.BlockHash networkID blockHash]
        match c.client.BlockHash networkID blockHash with
        | (_, some err) =>
          if assertClientError (some err) = some StatusNotFound then
            { replies := [⟨StatusNotFound, .text "unable to find block for given hash"⟩]
              calls := before
              logs := [⟨.Info, "unable to fetch transaction", [.Error (some err)]⟩]
              panicked := false }
          else if assertClientError (some err) = some StatusBadRequest then
            { replies := [⟨StatusBadRequest, .text "bad request block for given hash"⟩]
              calls := before
              logs := [⟨.Info, "unable to fetch transaction", [.Error (some err)]⟩]
              panicked := false }
          else
            { replies := [⟨StatusInternalServerError, .text "unable to fetch block by hash"⟩]
              calls := before
              logs := [⟨.Info, "unable to fetch block by hash", [.Error (some err)]⟩]
              panicked := false }
        | (none, none) =>
          { replies := [], calls := before, logs := [], panicked := true }
        | (some block, none) =>
          enrich rt c sched .Warn none before networkID block
    else
      { replies := [], calls := [], logs := [], panicked := false }

/-- Method `(c *Controller) HandleGetTransaction`. -/
def HandleGetTransaction (rt : Runtime) (c : Controller) (ctx : gin.Context) : Trace :=
  match util.GetParamNetwork ctx "id" with
  | (_, some err) =>
    { replies := [⟨StatusBadRequest,
        .text "path param: Network 'id' can only be 'btc', 'eth' or 'ltc'"⟩]
      calls := []
      logs := [⟨.Info, "invalid path param network'id'", [.Error (some err)]⟩]
      panicked := false }
  | (networkID, none) =>
    let txHash := ctx.Param "txhash"
    if txHash = "" then
      { replies := [⟨StatusBadRequest, .text "path param: missing 'txhash'"⟩]
        calls := []
        logs := [⟨.Info, "path param 'txhash' missing", []⟩]
        panicked := false }
    else if ¬ HashSHA256Regex txHash then
      { replies := [⟨StatusBadRequest,
          .text "path param: 'txhash' is not a valid SHA-256 hash"⟩]
        calls := []
        logs := [⟨.Info, "path param: 'txhash' is not a valid SHA-256 hash", []⟩]
        panicked := false }
    else
      match c.client.Transaction networkID txHash with
      | (_, some err) =>
        if assertClientError (some err) = some StatusNotFound then
          { replies := [⟨StatusNotFound, .text "unable to find tx for given hash"⟩]
            calls := [.Transaction networkID txHash]
            logs := [⟨.Info, "unable to fetch transaction", [.Error (some err)]⟩]
            panicked := false }
        else if assertClientError (some err) = some StatusBadRequest then
          { replies := [⟨StatusBadRequest, .text "bad request tx for given hash"⟩]
            calls := [.Transaction networkID txHash]
            logs := [⟨.Info, "unable to fetch transaction", [.Error (some err)]⟩]
            panicked := false }
        else
          { replies := [⟨StatusInternalServerError, .text "unable to fetch transaction"⟩]
            calls := [.Transaction networkID txHash]
            logs := [⟨.Info, "unable to fetch transaction", [.Error (some err)]⟩]
            panicked := false }
      | (none, none) =>
        { replies := [], calls := [.Transaction networkID txHash], logs := [], panicked := true }
      | (some tx, none) =>
        { replies := [⟨StatusOK, .transaction (Transaction.Response rt tx)⟩]
          calls := [.Transaction networkID txHash]
          logs := []
          panicked := false }

end controller

/-! ## Vocabulary of the properties -/

namespace sochain

/-- The status code an error carries, if it is an error and has the method `Code()`. -/
def carriedCode (err : Option GoError) : Option Int := err.bind GoError.Code

end sochain

namespace controller

open sochain

/-- The three supported network identifiers. -/
def Supported (n : String) : Prop := n = "btc" ∨ n = "ltc" ∨ n = "doge"

instance (n : String) : Decidable (Supported n) := by unfold Supported; infer_instance

/-- The three-way rule for a failed upstream lookup: a `ClientError` with code 404 gives 404,
one with code 400 gives 400, and every other error gives 500. -/
def statusForFailure : GoError → Int
  | .ClientError _ 404 => 404
  | .ClientError _ 400 => 400
  | _ => 500

/-- Whether an upstream call is a transaction lookup. -/
def isTransactionCall : Call → Bool
  | .Transaction _ _ => true
  | _ => false

/-- The transaction of a lookup that succeeds (nil error), `none` for one that fails. -/
def lookupOk (c : Controller) (networkID txHash : String) : Option Transaction :=
  if (c.client.Transaction networkID txHash).2 = none then
    (c.client.Transaction networkID txHash).1
  else none

/-- Whether a lookup fails, that is, returns a non-nil error. -/
def lookupFails (c : Controller) (networkID txHash : String) : Bool :=
  decide ((c.client.Transaction networkID txHash).2 ≠ none)

/-- The transaction a value received from the channel contributes to the reply. -/
def received (v : TxChanResp) : Option Transaction :=
  if v.err = none then v.tx else none

/-- The request `ctx` is validated and its block lookup succeeds with `block`, in one of the
three modes: implicit latest height, explicit height, explicit block hash. -/
def FetchesBlock (c : Controller) (ctx : gin.Context) (block : Block) : Prop :=
  Supported (ctx.Param "id") ∧
  ((ctx.Query "height" = "" ∧ ctx.Query "blockhash" = "" ∧
      ∃ info, c.client.NetworkInfo (ctx.Param "id") = (some info, none) ∧
        c.client.BlockHeight (ctx.Param "id") info.Data.Blocks = (some block, none))
   ∨ (ctx.Query "height" ≠ "" ∧ (strconv.Atoi (ctx.Query "height")).2 = none ∧
      0 < (strconv.Atoi (ctx.Query "height")).1 ∧
      c.client.BlockHeight (ctx.Param "id") (strconv.Atoi (ctx.Query "height")).1
        = (some block, none))
   ∨ (ctx.Query "height" = "" ∧ ctx.Query "blockhash" ≠ "" ∧
      HashSHA256Regex (ctx.Query "blockhash") = true ∧
      c.client.BlockHash (ctx.Param "id") (ctx.Query "blockhash") = (some block, none)))

/-- The request `ctx` is validated and its block lookup fails with the error `e`, in one of
the three modes. -/
def BlockLookupFails (c : Controller) (ctx : gin.Context) (e : GoError) : Prop :=
  Supported (ctx.Param "id") ∧
  ((ctx.Query "height" = "" ∧ ctx.Query "blockhash" = "" ∧
      ∃ info x, c.client.NetworkInfo (ctx.Param "id") = (some info, none) ∧
        c.client.BlockHeight (ctx.Param "id") info.Data.Blocks = (x, some e))
   ∨ (ctx.Query "height" ≠ "" ∧ (strconv.Atoi (ctx.Query "height")).2 = none ∧
      0 < (strconv.Atoi (ctx.Query "height")).1 ∧
      ∃ x, c.client.BlockHeight (ctx.Param "id") (strconv.Atoi (ctx.Query "height")).1
        = (x, some e))
   ∨ (ctx.Query "height" = "" ∧ ctx.Query "blockhash" ≠ "" ∧
      HashSHA256Regex (ctx.Query "blockhash") = true ∧
      ∃ x, c.client.BlockHash (ctx.Param "id") (ctx.Query "blockhash") = (x, some e)))

/-- The request `ctx` to the transaction endpoint is validated and its lookup fails with
the error `e`. -/
def TxLookupFails (c : Controller) (ctx : gin.Context) (e : GoError) : Prop :=
  Supported (ctx.Param "id") ∧ HashSHA256Regex (ctx.Param "txhash") = true ∧
    ∃ x, c.client.Transaction (ctx.Param "id") (ctx.Param "txhash") = (x, some e)

/-- A hash input is malformed: its length differs from 64, or one of its characters is
outside `0-9`, `a-f`, `A-F`. -/
def Malformed (s : String) : Prop :=
  s.length ≠ 64 ∨ ∃ ch ∈ s.data, hexClass ch = false

/-- Whether a lookup returns neither a transaction nor an error (a nil pointer with a nil
error). -/
def nilLookup (c : Controller) (networkID txHash : String) : Bool :=
  decide ((c.client.Transaction networkID txHash).2 = none
    ∧ (c.client.Transaction networkID txHash).1 = none)

/-- The message `HandleGetBlock` sends with a given status when a `BlockHeight` lookup has
failed (in the implicit-latest and in the explicit-height mode alike). -/
def heightFailureBody (status : Int) : String :=
  if status = 404 then "unable to find block for given height"
  else if status = 400 then "bad request"
  else "unable to fetch block for given height"

/-- The message `HandleGetBlock` sends with a given status when the `BlockHash` lookup has
failed. -/
def hashFailureBody (status : Int) : String :=
  if status = 404 then "unable to find block for given hash"
  else if status = 400 then "bad request block for given hash"
  else "unable to fetch block by hash"

/-- The message `HandleGetTransaction` sends with a given status when its lookup has
failed. -/
def txFailureBody (status : Int) : String :=
  if status = 404 then "unable to find tx for given hash"
  else if status = 400 then "bad request tx for given hash"
  else "unable to fetch transaction"

/-- The string literals that the two handlers pass to `ctx.JSON` as a body. -/
def errorBodies : List String :=
  [ "path param: network 'id' can only be 'btc', 'eth' or 'ltc'",
    "one of query params 'height' or 'blockhash' is mandatory",
    "unable to find block for given height",
    "bad request",
    "unable to fetch block for given height",
    "query param 'height' is no integer number, zero or negative",
    "provided blockhash is not a valid SHA-256 hash",
    "unable to find block for given hash",
    "bad request block for given hash",
    "unable to fetch block by hash",
    "path param: Network 'id' can only be 'btc', 'eth' or 'ltc'",
    "path param: missing 'txhash'",
    "path param: 'txhash' is not a valid SHA-256 hash",
    "unable to find tx for given hash",
    "bad request tx for given hash",
    "unable to fetch transaction" ]

/-- The five block-level fields of two block responses agree. -/
def SameBlockFields (a b : BlockResponse) : Prop :=
  a.Blocknumber = b.Blocknumber ∧ a.Timestamp = b.Timestamp ∧ a.PreviousHash = b.PreviousHash
    ∧ a.NextHash = b.NextHash ∧ a.Size = b.Size

/-- The message `HandleGetBlock` sends with a given status when the block lookup of the
request `ctx` has failed: the lookup is `BlockHash` when only `blockhash` is present and
`BlockHeight` otherwise. -/
def blockFailureBody (ctx : gin.Context) (status : Int) : String :=
  if ctx.Query "height" = "" ∧ ctx.Query "blockhash" ≠ "" then hashFailureBody status
  else heightFailureBody status

/-- A character is one of `0-9`, `a-f`, `A-F`. -/
def IsHexChar (ch : Char) : Prop :=
  ('0' ≤ ch ∧ ch ≤ '9') ∨ ('a' ≤ ch ∧ ch ≤ 'f') ∨ ('A' ≤ ch ∧ ch ≤ 'F')

/-- The network id an upstream call was made with. -/
def Call.networkID : Call → String
  | .NetworkInfo n => n
  | .BlockHeight n _ => n
  | .BlockHash n _ => n
  | .Transaction n _ => n

/-- Every operation of the connector returns either a non-nil result with a nil error or a
non-nil error: never a nil result together with a nil error. -/
def WellFormed (c : Connector) : Prop :=
  (∀ n, c.NetworkInfo n ≠ (none, none))
  ∧ (∀ n h, c.BlockHeight n h ≠ (none, none))
  ∧ (∀ n x, c.BlockHash n x ≠ (none, none))
  ∧ (∀ n x, c.Transaction n x ≠ (none, none))

/-- The log entry that the receive loop writes, at level `lvl`, for a received value whose
error is not recognised as a `ClientError`. -/
def failureEntry (lvl : Level) (v : TxChanResp) : LogEntry :=
  ⟨lvl, "unable to fetch transaction", [.String "txhash" v.hash, .Error v.err]⟩

/-- Whether a log entry has a field with the key `statuscode`. -/
def hasStatuscode (entry : LogEntry) : Bool :=
  entry.fields.any fun f =>
    match f with
    | .Int key _ => key == "statuscode"
    | _ => false

/-- Two replies agree up to the order of the transactions list: same status, and either
the same body, or block bodies with the same block-level fields and transactions lists
that are permutations of each other. -/
def ReplyAgrees (r₁ r₂ : Reply) : Prop :=
  r₁.code = r₂.code ∧
    match r₁.obj, r₂.obj with
    | .block a, .block b => SameBlockFields a b ∧ a.Transactions.Perm b.Transactions
    | x, y => x = y

/-- The shapes of the log entries of `HandleGetBlock`: an entry with the one field
`zap.Error`, the entry for a malformed `blockhash`, or the entry for a failed transaction
lookup, whose `txhash` is empty and which has no `statuscode`. -/
def EntryShape (entry : LogEntry) : Prop :=
  (∃ oe, entry.fields = [.Error oe])
  ∨ (∃ v, entry.fields = [.String "blockhash" v])
  ∨ (∃ lvl e, entry = ⟨lvl, "unable to fetch transaction",
      [.String "txhash" "", .Error (some e)]⟩)

end controller

/-! ## Example upstreams and requests -/

namespace fixtures

open sochain controller

/-- A runtime that renders an instant as its number of seconds. -/
def rt : Runtime := ⟨fun sec => toString sec⟩

/-- A transaction that carries the id it was looked up by. -/
def tx (id : String) : Transaction := { Data := { Txid := id } }

def blockOf (no : Int) (txs : List String) : Block := { Data := { BlockNo := no, Txs := txs } }

def fifteen : List String :=
  ["a1", "a2", "a3", "a4", "a5", "a6", "a7", "a8", "a9", "a10", "a11", "a12", "a13", "a14", "a15"]

def goodHash : String := "eb6f76a4390f4e3cdcf8d2a73fc99d401965abca0372f350bf9317a34a1aa876"

/-- An upstream in the manner of the handler tests: blocks at heights 1 and 7, a block at
height 2 that is not found, and four transaction ids of which `3` and `4` fail. -/
def upstream : Connector :=
  { NetworkInfo := fun _ => (some { Data := { Blocks := 7 } }, none)
    BlockHeight := fun _ h =>
      if h = 1 then (some (blockOf 1 ["1", "2", "3", "4"]), none)
      else if h = 7 then (some (blockOf 7 fifteen), none)
      else if h = 2 then (none, some (.ClientError (.errorString "some") 404))
      else (none, some (.errorString "some"))
    BlockHash := fun _ _ => (none, some (.ClientError (.errorString "some") 400))
    Transaction := fun _ x =>
      if x = "3" then (none, some (.errorString "some"))
      else if x = "4" then (none, some (NewClientErr (.errorString "some") 500))
      else if x = goodHash then (none, some (.ClientError (.errorString "some") 404))
      else (some (tx x), none) }

/-- The same upstream with `NetworkInfo` failing. -/
def infoDown : Connector :=
  { upstream with NetworkInfo := fun _ => (none, some (.errorString "some")) }

/-- The same upstream with `NetworkInfo` reporting status 404. -/
def infoNotFound : Connector :=
  { upstream with NetworkInfo := fun _ => (none, some (.ClientError (.errorString "some") 404)) }

/-- A network on which every request is answered with status `s` and an empty body. -/
def netStatus (s : Int) : Net :=
  { NewRequest := fun _ _ => none
    Do := fun _ => .ok ⟨s, .ok ""⟩
    Get := fun _ => .ok ⟨s, .ok ""⟩
    SentByDo := fun req => [req]
    SentByGet := fun url => [⟨"GET", url⟩]
    UnmarshalNetworkInfo := fun _ => .error "unexpected end of JSON input"
    UnmarshalBlock := fun _ => .error "unexpected end of JSON input"
    UnmarshalTransaction := fun _ => .error "unexpected end of JSON input" }

/-- The client of `NewSochain` as a struct, on the network `net`. -/
def client (net : Net) : Sochain := { Client := net, baseUrl := apiURL }

def ctl : Controller := NewController upstream

/-- The schedule in which the goroutines run in the order they were started. -/
def inOrder : Schedule := ⟨[], []⟩

def request (id : String) (query : List (String × String)) : gin.Context :=
  { Params := [("id", id)], QueryValues := query }

def txRequest (id txhash : String) : gin.Context :=
  { Params := [("id", id), ("txhash", txhash)], QueryValues := [] }

/-- The upstream of the handler test "Success: no transaction fetching errors": the chain
is at height 1, the block lists the ids `1` and `2`, and both lookups succeed. -/
def twoTx : Connector :=
  { NetworkInfo := fun _ => (some { Data := { Blocks := 1 } }, none)
    BlockHeight := fun _ _ => (some (blockOf 1 ["1", "2"]), none)
    BlockHash := fun _ _ => (some (blockOf 1 ["1", "2"]), none)
    Transaction := fun _ x => (some (tx x), none) }

/-- The schedule in which the goroutine started second sends first. -/
def secondFirst : Schedule := ⟨[], [1]⟩

/-- A well-formed hash for which the lookup of `upstream` succeeds. -/
def otherHash : String := "00000000000000000000000000000000000000000000000000000000000000ff"

/-- The URLs with the invalid escape `%zz`, which `net/http` cannot parse. -/
def invalidURLs : List String :=
  [apiURL ++ "/get_info/%zz", apiURL ++ "/get_block/btc/%zz", apiURL ++ "/tx/btc/%zz"]

/-- A network on which `net/http` rejects the URLs with the invalid escape `%zz` before
anything is sent, in `http.NewRequest` as in `http.Get`, and on which every other request
is sent once and answered with status 200 and an empty body. -/
def netStrict : Net :=
  { netStatus 200 with
    NewRequest := fun _ url =>
      if url ∈ invalidURLs then some "invalid URL escape %zz" else none
    Get := fun url =>
      if url ∈ invalidURLs then .error "invalid URL escape %zz" else .ok ⟨200, .ok ""⟩
    SentByDo := fun req => if req.url ∈ invalidURLs then [] else [req]
    SentByGet := fun url => if url ∈ invalidURLs then [] else [⟨"GET", url⟩] }

/-- A network on which the upstream redirects every request once, to `https://chain.so/`,
and `net/http` follows the redirect: every call sends two requests. -/
def netRedirect : Net :=
  { netStatus 200 with
    SentByDo := fun req => [req, ⟨"GET", "https://chain.so/"⟩]
    SentByGet := fun url => [⟨"GET", url⟩, ⟨"GET", "https://chain.so/"⟩] }

/-- A network on which `get_info` is answered with the chain height 7 and every block or
transaction lookup with status `s` and an empty body. -/
def netLookup (s : Int) : Net :=
  { netStatus s with
    Do := fun _ => .ok ⟨200, .ok "info"⟩
    UnmarshalNetworkInfo := fun _ => .ok { Data := { Blocks := 7 } } }

/-- An upstream whose `NetworkInfo` reports the chain height 0 and that has no block at
any height. -/
def emptyChain : Connector :=
  { upstream with
    NetworkInfo := fun _ => (some { Data := { Blocks := 0 } }, none)
    BlockHeight := fun _ _ => (none, some (.ClientError (.errorString "some") 404)) }

/-- An upstream with one block, listing the ids `1` and `2`, where the lookup of `2` fails
with a `ClientError` value that carries the status 503. -/
def txUnavailable : Connector :=
  { twoTx with
    Transaction := fun _ x =>
      if x = "2" then (none, some (.ClientError (.errorString "some") 503))
      else (some (tx x), none) }

end fixtures

/-! ## Lemmas on the handlers, branch by branch -/

namespace controller

open sochain

theorem GetParamNetwork_reject (ctx : gin.Context) (key : String)
    (h : ¬ Supported (ctx.Param key)) :
    ∃ e, util.GetParamNetwork ctx key = ("", some e) := by
  unfold Supported at h
  unfold util.GetParamNetwork
  by_cases h0 : ctx.Param key = ""
  · simp [h0]
  · simp only [not_or] at h
    simp [h0, h]

theorem GetParamNetwork_accept (ctx : gin.Context) (key : String)
    (h : Supported (ctx.Param key)) :
    util.GetParamNetwork ctx key = (ctx.Param key, none) := by
  unfold util.GetParamNetwork
  rcases h with h | h | h <;> simp [h]

theorem ToLower_supported (s : String) (h : Supported s) : strings.ToLower s = s := by
  rcases h with h | h | h <;> subst h <;> decide

theorem statusForFailure_eq (e : GoError) :
    statusForFailure e =
      if assertClientError (some e) = some StatusNotFound then StatusNotFound
      else if assertClientError (some e) = some StatusBadRequest then StatusBadRequest
      else StatusInternalServerError := by
  cases e with
  | ClientError e c =>
    simp only [assertClientError, StatusNotFound, StatusBadRequest, StatusInternalServerError,
      Option.some.injEq]
    by_cases h1 : c = 404
    · subst h1; simp [statusForFailure]
    · by_cases h2 : c = 400
      · subst h2; simp [statusForFailure]
      · simp [h1, h2]
        unfold statusForFailure
        split <;> simp_all
  | _ => simp [assertClientError, statusForFailure, StatusInternalServerError]

theorem HandleGetBlock_latest_infoFail (rt : Runtime) (c : Controller) (sched : Schedule)
    (ctx : gin.Context) (hn : Supported (ctx.Param "id"))
    (hh : ctx.Query "height" = "") (hb : ctx.Query "blockhash" = "")
    (x : Option NetworkInfo) (e : GoError)
    (hi : c.client.NetworkInfo (ctx.Param "id") = (x, some e)) :
    HandleGetBlock rt c sched ctx =
      { replies := [⟨400, .text "one of query params 'height' or 'blockhash' is mandatory"⟩]
        calls := [.NetworkInfo (ctx.Param "id")]
        logs := [⟨.Info, "missing query params 'height' or 'blockhash'", [.Error (some e)]⟩]
        panicked := false } := by
  simp [HandleGetBlock, GetParamNetwork_accept ctx "id" hn, ToLower_supported _ hn, hh, hb, hi,
    StatusBadRequest]

theorem HandleGetBlock_latest_blockFail (rt : Runtime) (c : Controller) (sched : Schedule)
    (ctx : gin.Context) (hn : Supported (ctx.Param "id"))
    (hh : ctx.Query "height" = "") (hb : ctx.Query "blockhash" = "")
    (info : NetworkInfo) (hi : c.client.NetworkInfo (ctx.Param "id") = (some info, none))
    (x : Option Block) (e : GoError)
    (hblk : c.client.BlockHeight (ctx.Param "id") info.Data.Blocks = (x, some e)) :
    (HandleGetBlock rt c sched ctx).replies.map Reply.code = [statusForFailure e]
    ∧ (HandleGetBlock rt c sched ctx).calls =
        [.NetworkInfo (ctx.Param "id"), .BlockHeight (ctx.Param "id") info.Data.Blocks]
    ∧ (HandleGetBlock rt c sched ctx).panicked = false := by
  rw [statusForFailure_eq]
  simp only [HandleGetBlock, GetParamNetwork_accept ctx "id" hn, ToLower_supported _ hn, hh, hb, hi,
    hblk, and_self, if_true]
  split_ifs <;> simp

theorem HandleGetBlock_latest_ok (rt : Runtime) (c : Controller) (sched : Schedule)
    (ctx : gin.Context) (hn : Supported (ctx.Param "id"))
    (hh : ctx.Query "height" = "") (hb : ctx.Query "blockhash" = "")
    (info : NetworkInfo) (hi : c.client.NetworkInfo (ctx.Param "id") = (some info, none))
    (block : Block)
    (hblk : c.client.BlockHeight (ctx.Param "id") info.Data.Blocks = (some block, none)) :
    HandleGetBlock rt c sched ctx =
      enrich rt c sched .Info none
        [.NetworkInfo (ctx.Param "id"), .BlockHeight (ctx.Param "id") info.Data.Blocks]
        (ctx.Param "id") block := by
  simp [HandleGetBlock, GetParamNetwork_accept ctx "id" hn, ToLower_supported _ hn, hh, hb, hi,
    hblk]

theorem HandleGetBlock_height_invalid (rt : Runtime) (c : Controller) (sched : Schedule)
    (ctx : gin.Context) (hn : Supported (ctx.Param "id"))
    (hh : ctx.Query "height" ≠ "")
    (hbad : (strconv.Atoi (ctx.Query "height")).2 ≠ none
      ∨ (strconv.Atoi (ctx.Query "height")).1 ≤ 0) :
    HandleGetBlock rt c sched ctx =
      { replies := [⟨400, .text "query param 'height' is no integer number, zero or negative"⟩]
        calls := []
        logs := [⟨.Info, "invalid query param 'height'",
          [.Error (strconv.Atoi (ctx.Query "height")).2]⟩]
        panicked := false } := by
  simp only [HandleGetBlock, GetParamNetwork_accept ctx "id" hn, hh, false_and, if_false,
    ne_eq, not_false_eq_true, if_true, hbad, StatusBadRequest]

theorem HandleGetBlock_height_blockFail (rt : Runtime) (c : Controller) (sched : Schedule)
    (ctx : gin.Context) (hn : Supported (ctx.Param "id"))
    (hh : ctx.Query "height" ≠ "")
    (hok : (strconv.Atoi (ctx.Query "height")).2 = none)
    (hpos : 0 < (strconv.Atoi (ctx.Query "height")).1)
    (x : Option Block) (e : GoError)
    (hblk : c.client.BlockHeight (ctx.Param "id") (strconv.Atoi (ctx.Query "height")).1
      = (x, some e)) :
    (HandleGetBlock rt c sched ctx).replies.map Reply.code = [statusForFailure e]
    ∧ (HandleGetBlock rt c sched ctx).calls =
        [.BlockHeight (ctx.Param "id") (strconv.Atoi (ctx.Query "height")).1]
    ∧ (HandleGetBlock rt c sched ctx).panicked = false := by
  have hbad : ¬ ((strconv.Atoi (ctx.Query "height")).2 ≠ none
      ∨ (strconv.Atoi (ctx.Query "height")).1 ≤ 0) := by
    simp [hok, hpos]
  rw [statusForFailure_eq]
  simp only [HandleGetBlock, GetParamNetwork_accept ctx "id" hn, ToLower_supported _ hn, hh,
    false_and, if_false, ne_eq, not_false_eq_true, if_true, hbad, hblk]
  split_ifs <;> simp

theorem HandleGetBlock_height_ok (rt : Runtime) (c : Controller) (sched : Schedule)
    (ctx : gin.Context) (hn : Supported (ctx.Param "id"))
    (hh : ctx.Query "height" ≠ "")
    (hok : (strconv.Atoi (ctx.Query "height")).2 = none)
    (hpos : 0 < (strconv.Atoi (ctx.Query "height")).1)
    (block : Block)
    (hblk : c.client.BlockHeight (ctx.Param "id") (strconv.Atoi (ctx.Query "height")).1
      = (some block, none)) :
    HandleGetBlock rt c sched ctx =
      enrich rt c sched .Info none
        [.BlockHeight (ctx.Param "id") (strconv.Atoi (ctx.Query "height")).1]
        (ctx.Param "id") block := by
  have hbad : ¬ ((strconv.Atoi (ctx.Query "height")).2 ≠ none
      ∨ (strconv.Atoi (ctx.Query "height")).1 ≤ 0) := by
    simp [hok, hpos]
  simp only [HandleGetBlock, GetParamNetwork_accept ctx "id" hn, ToLower_supported _ hn, hh,
    false_and, if_false, ne_eq, not_false_eq_true, if_true, hbad, hblk]

theorem HandleGetBlock_hash_invalid (rt : Runtime) (c : Controller) (sched : Schedule)
    (ctx : gin.Context) (hn : Supported (ctx.Param "id"))
    (hh : ctx.Query "height" = "") (hb : ctx.Query "blockhash" ≠ "")
    (hbad : HashSHA256Regex (ctx.Query "blockhash") = false) :
    HandleGetBlock rt c sched ctx =
      { replies := [⟨400, .text "provided blockhash is not a valid SHA-256 hash"⟩]
        calls := []
        logs := [⟨.Info, "provided blockhash is not a valid SHA-256 hash",
          [.String "blockhash" (ctx.Query "blockhash")]⟩]
        panicked := false } := by
  simp [HandleGetBlock, GetParamNetwork_accept ctx "id" hn, hh, hb, hbad, StatusBadRequest]

theorem HandleGetBlock_hash_blockFail (rt : Runtime) (c : Controller) (sched : Schedule)
    (ctx : gin.Context) (hn : Supported (ctx.Param "id"))
    (hh : ctx.Query "height" = "") (hb : ctx.Query "blockhash" ≠ "")
    (hgood : HashSHA256Regex (ctx.Query "blockhash") = true)
    (x : Option Block) (e : GoError)
    (hblk : c.client.BlockHash (ctx.Param "id") (ctx.Query "blockhash") = (x, some e)) :
    (HandleGetBlock rt c sched ctx).replies.map Reply.code = [statusForFailure e]
    ∧ (HandleGetBlock rt c sched ctx).calls =
        [.BlockHash (ctx.Param "id") (ctx.Query "blockhash")]
    ∧ (HandleGetBlock rt c sched ctx).panicked = false := by
  rw [statusForFailure_eq]
  simp only [HandleGetBlock, GetParamNetwork_accept ctx "id" hn, ToLower_supported _ hn, hh, hb,
    false_and, and_false, if_false, ne_eq, not_false_eq_true, if_true, hgood, hblk,
    not_true_eq_false]
  split_ifs <;> simp

theorem HandleGetBlock_hash_ok (rt : Runtime) (c : Controller) (sched : Schedule)
    (ctx : gin.Context) (hn : Supported (ctx.Param "id"))
    (hh : ctx.Query "height" = "") (hb : ctx.Query "blockhash" ≠ "")
    (hgood : HashSHA256Regex (ctx.Query "blockhash") = true)
    (block : Block)
    (hblk : c.client.BlockHash (ctx.Param "id") (ctx.Query "blockhash") = (some block, none)) :
    HandleGetBlock rt c sched ctx =
      enrich rt c sched .Warn none [.BlockHash (ctx.Param "id") (ctx.Query "blockhash")]
        (ctx.Param "id") block := by
  simp only [HandleGetBlock, GetParamNetwork_accept ctx "id" hn, ToLower_supported _ hn, hh, hb,
    false_and, and_false, if_false, ne_eq, not_false_eq_true, if_true, hgood, hblk,
    not_true_eq_false]

theorem HandleGetTransaction_invalid (rt : Runtime) (c : Controller)
    (ctx : gin.Context) (hn : Supported (ctx.Param "id"))
    (hbad : HashSHA256Regex (ctx.Param "txhash") = false) :
    (HandleGetTransaction rt c ctx).replies.map Reply.code = [400]
    ∧ (HandleGetTransaction rt c ctx).calls = []
    ∧ (HandleGetTransaction rt c ctx).panicked = false := by
  by_cases h0 : ctx.Param "txhash" = ""
  · simp [HandleGetTransaction, GetParamNetwork_accept ctx "id" hn, h0, StatusBadRequest]
  · simp [HandleGetTransaction, GetParamNetwork_accept ctx "id" hn, h0, hbad, StatusBadRequest]

theorem HandleGetTransaction_fail (rt : Runtime) (c : Controller)
    (ctx : gin.Context) (hn : Supported (ctx.Param "id"))
    (hgood : HashSHA256Regex (ctx.Param "txhash") = true)
    (x : Option Transaction) (e : GoError)
    (htx : c.client.Transaction (ctx.Param "id") (ctx.Param "txhash") = (x, some e)) :
    (HandleGetTransaction rt c ctx).replies.map Reply.code = [statusForFailure e]
    ∧ (HandleGetTransaction rt c ctx).calls =
        [.Transaction (ctx.Param "id") (ctx.Param "txhash")]
    ∧ (HandleGetTransaction rt c ctx).panicked = false := by
  have hne : ctx.Param "txhash" ≠ "" := by
    intro h0
    rw [h0] at hgood
    exact absurd hgood (by decide)
  rw [statusForFailure_eq]
  simp only [HandleGetTransaction, GetParamNetwork_accept ctx "id" hn, hne, if_false, hgood,
    not_true_eq_false, htx]
  split_ifs <;> simp

theorem HandleGetTransaction_ok (rt : Runtime) (c : Controller)
    (ctx : gin.Context) (hn : Supported (ctx.Param "id"))
    (hgood : HashSHA256Regex (ctx.Param "txhash") = true)
    (tx : Transaction)
    (htx : c.client.Transaction (ctx.Param "id") (ctx.Param "txhash") = (some tx, none)) :
    HandleGetTransaction rt c ctx =
      { replies := [⟨200, .transaction (Transaction.Response rt tx)⟩]
        calls := [.Transaction (ctx.Param "id") (ctx.Param "txhash")]
        logs := []
        panicked := false } := by
  have hne : ctx.Param "txhash" ≠ "" := by
    intro h0
    rw [h0] at hgood
    exact absurd hgood (by decide)
  simp only [HandleGetTransaction, GetParamNetwork_accept ctx "id" hn, hne, if_false, hgood,
    not_true_eq_false, htx, StatusOK]

theorem pick_append_eraseIdx_perm {α : Type} (xs : List α) (i : Nat) (h : i < xs.length) :
    ((xs.get? i).toList ++ xs.eraseIdx i).Perm xs := by
  induction xs generalizing i with
  | nil => simp at h
  | cons x rest ih =>
    cases i with
    | zero => simp
    | succ j =>
      have hj : j < rest.length := by simpa using h
      have := ih j hj
      simp only [List.get?_cons_succ, List.eraseIdx_cons_succ]
      exact List.perm_middle.trans (this.cons x)

theorem arrival_perm {α : Type} (ks : List Nat) (xs : List α) : (arrival ks xs).Perm xs := by
  induction ks generalizing xs with
  | nil => simp [arrival]
  | cons k ks ih =>
    cases xs with
    | nil => simp [arrival]
    | cons x rest =>
      simp only [arrival]
      have hlt : k % (x :: rest).length < (x :: rest).length :=
        Nat.mod_lt _ (by simp)
      exact ((ih _).append_left _).trans (pick_append_eraseIdx_perm _ _ hlt)

theorem cappedTxs_eq_take (txs : List String) : cappedTxs txs = txs.take 10 := by
  unfold cappedTxs maxTxPerBlock
  split_ifs with h
  · rfl
  · rw [List.take_of_length_le (by omega)]

theorem cappedTxs_length (txs : List String) : (cappedTxs txs).length = min txs.length 10 := by
  rw [cappedTxs_eq_take, List.length_take, Nat.min_comm]

theorem rangeResults_none (lvl : Level) (rs : List TxChanResp)
    (hwf : ∀ v ∈ rs, v.err = none → v.tx ≠ none) :
    (rangeResults lvl none rs).panicked = false
    ∧ (rangeResults lvl none rs).transactions = rs.filterMap received := by
  induction rs with
  | nil => simp [rangeResults]
  | cons v rest ih =>
    have ih := ih (fun w hw => hwf w (List.mem_cons_of_mem _ hw))
    by_cases he : v.err = none
    · have hv := hwf v (List.mem_cons_self _ _) he
      obtain ⟨tx, htx⟩ := Option.ne_none_iff_exists'.mp hv
      simp [rangeResults, he, htx, ih, received, List.filterMap_cons]
    · simp [rangeResults, he, ih, received, assertClientError, List.filterMap_cons]

theorem FetchesBlock_enrich (rt : Runtime) (c : Controller) (sched : Schedule)
    (ctx : gin.Context) (block : Block) (h : FetchesBlock c ctx block) :
    ∃ lvl before, HandleGetBlock rt c sched ctx
        = enrich rt c sched lvl none before (ctx.Param "id") block
      ∧ before.filter isTransactionCall = [] := by
  obtain ⟨hn, hmode⟩ := h
  rcases hmode with ⟨hh, hb, info, hi, hblk⟩ | ⟨hh, hok, hpos, hblk⟩ | ⟨hh, hb, hgood, hblk⟩
  · exact ⟨_, _, HandleGetBlock_latest_ok rt c sched ctx hn hh hb info hi block hblk, rfl⟩
  · exact ⟨_, _, HandleGetBlock_height_ok rt c sched ctx hn hh hok hpos block hblk, rfl⟩
  · exact ⟨_, _, HandleGetBlock_hash_ok rt c sched ctx hn hh hb hgood block hblk, rfl⟩

theorem enrich_calls (rt : Runtime) (c : Controller) (sched : Schedule) (lvl : Level)
    (err : Option GoError) (before : List Call) (n : String) (block : Block) :
    (enrich rt c sched lvl err before n block).calls
      = before ++ arrival sched.calls ((block.Data.Txs.take 10).map (Call.Transaction n)) := by
  unfold enrich
  simp only [FetchTxAsync, List.map_map, cappedTxs_eq_take]
  split_ifs <;> rfl

theorem enrich_transactionCalls (rt : Runtime) (c : Controller) (sched : Schedule) (lvl : Level)
    (err : Option GoError) (before : List Call) (n : String) (block : Block)
    (hb : before.filter isTransactionCall = []) :
    ((enrich rt c sched lvl err before n block).calls.filter isTransactionCall).Perm
      ((block.Data.Txs.take 10).map (Call.Transaction n)) := by
  rw [enrich_calls, List.filter_append, hb, List.nil_append]
  have hall : ∀ a ∈ arrival sched.calls ((block.Data.Txs.take 10).map (Call.Transaction n)),
      isTransactionCall a = true := by
    intro a ha
    have := (arrival_perm _ _).mem_iff.mp ha
    obtain ⟨id, _, rfl⟩ := List.mem_map.mp this
    rfl
  rw [List.filter_eq_self.mpr hall]
  exact arrival_perm _ _

theorem enrich_reply (rt : Runtime) (c : Controller) (sched : Schedule) (lvl : Level)
    (before : List Call) (n : String) (block : Block)
    (hwf : ∀ id ∈ block.Data.Txs.take 10,
      (c.client.Transaction n id).2 = none → (c.client.Transaction n id).1 ≠ none) :
    ∃ txs : Transactions,
      enrich rt c sched lvl none before n block =
        { replies := [⟨200, .block { Block.Response rt block with
                                      Transactions := Transactions.Response rt txs }⟩]
          calls := (enrich rt c sched lvl none before n block).calls
          logs := (enrich rt c sched lvl none before n block).logs
          panicked := false }
      ∧ txs.Perm ((block.Data.Txs.take 10).filterMap (lookupOk c n)) := by
  let rs := arrival sched.sends
    ((FetchTxAsync c.client.Transaction n (cappedTxs block.Data.Txs)).map fun g => g.resp)
  have hperm : rs.Perm
      ((FetchTxAsync c.client.Transaction n (cappedTxs block.Data.Txs)).map fun g => g.resp) :=
    arrival_perm _ _
  have hrs : ∀ v ∈ rs, v.err = none → v.tx ≠ none := by
    intro v hv
    have hv := hperm.mem_iff.mp hv
    simp only [FetchTxAsync, List.map_map, List.mem_map, cappedTxs_eq_take] at hv
    obtain ⟨id, hid, rfl⟩ := hv
    exact hwf id hid
  obtain ⟨hp, ht⟩ := rangeResults_none lvl rs hrs
  refine ⟨(rangeResults lvl none rs).transactions, ?_, ?_⟩
  · simp only [enrich]
    simp only [rs] at hp
    simp [hp, StatusOK]
  · rw [ht]
    have := hperm.filterMap received
    refine this.trans ?_
    simp only [FetchTxAsync, List.map_map, cappedTxs_eq_take, List.filterMap_map]
    apply List.Perm.of_eq
    apply List.filterMap_congr
    intro id _
    simp [received, lookupOk]

theorem filterMap_lookupOk_length (c : Controller) (n : String) (ids : List String)
    (hwf : ∀ id ∈ ids,
      (c.client.Transaction n id).2 = none → (c.client.Transaction n id).1 ≠ none) :
    (ids.filterMap (lookupOk c n)).length + ids.countP (lookupFails c n) = ids.length := by
  induction ids with
  | nil => simp
  | cons id rest ih =>
    have ih := ih (fun w hw => hwf w (List.mem_cons_of_mem _ hw))
    by_cases he : (c.client.Transaction n id).2 = none
    · have hv := hwf id (List.mem_cons_self _ _) he
      obtain ⟨tx, htx⟩ := Option.ne_none_iff_exists'.mp hv
      have h1 : lookupOk c n id = some tx := by simp [lookupOk, he, htx]
      have h2 : lookupFails c n id = false := by simp [lookupFails, he]
      simp [List.filterMap_cons, h1, h2]
      omega
    · have h1 : lookupOk c n id = none := by simp [lookupOk, he]
      have h2 : lookupFails c n id = true := by simp [lookupFails, he]
      simp [List.filterMap_cons, h1, h2]
      omega

end controller

/-! ## The hash pattern -/

namespace controller

open sochain

theorem matchHexRepeat_nil_iff (n : Nat) (cs : List Char) :
    matchHexRepeat n cs = some [] ↔ cs.length = n ∧ ∀ ch ∈ cs, hexClass ch = true := by
  induction n generalizing cs with
  | zero =>
    cases cs with
    | nil => simp [matchHexRepeat]
    | cons a as => simp [matchHexRepeat]
  | succ n ih =>
    cases cs with
    | nil => simp [matchHexRepeat]
    | cons a as =>
      by_cases ha : hexClass a = true
      · simp [matchHexRepeat, ha, ih]
      · simp [matchHexRepeat, ha]

theorem HashSHA256Regex_iff (s : String) :
    HashSHA256Regex s = true ↔ s.length = 64 ∧ ∀ ch ∈ s.data, hexClass ch = true := by
  unfold HashSHA256Regex
  have hlen : s.length = s.data.length := by cases s; rfl
  rw [hlen, ← matchHexRepeat_nil_iff]
  split
  · next h => simp [h]
  · next h =>
    simp only [Bool.false_eq_true, false_iff]
    exact fun h2 => h h2

theorem HashSHA256Regex_of_malformed (s : String) (h : Malformed s) :
    HashSHA256Regex s = false := by
  rw [← Bool.not_eq_true, HashSHA256Regex_iff]
  rintro ⟨hl, hall⟩
  rcases h with h | ⟨ch, hch, hbad⟩
  · exact h hl
  · rw [hall ch hch] at hbad
    exact absurd hbad (by decide)

end controller

/-! ## Request validation -/

namespace controller

open sochain

/-- C1: a request whose path parameter `id` is missing, empty or anything other than
`btc`, `ltc`, `doge` is answered with HTTP 400 by both handlers, and no `Connector`
operation is called. -/
theorem unsupported_network_rejected (rt : Runtime) (c : Controller) (sched : Schedule)
    (ctx : gin.Context) (h : ¬ Supported (ctx.Param "id")) :
    ((HandleGetBlock rt c sched ctx).replies.map Reply.code = [400]
      ∧ (HandleGetBlock rt c sched ctx).calls = [])
    ∧ ((HandleGetTransaction rt c ctx).replies.map Reply.code = [400]
      ∧ (HandleGetTransaction rt c ctx).calls = []) := by
  obtain ⟨e, he⟩ := GetParamNetwork_reject ctx "id" h
  simp [HandleGetBlock, HandleGetTransaction, he, StatusBadRequest]

theorem unsupported_network_rejected_witness :
    ¬ Supported ((fixtures.request "eth" [("height", "1")]).Param "id")
    ∧ ((HandleGetBlock fixtures.rt fixtures.ctl fixtures.inOrder
          (fixtures.request "eth" [("height", "1")])).replies.map Reply.code = [400]
      ∧ (HandleGetBlock fixtures.rt fixtures.ctl fixtures.inOrder
          (fixtures.request "eth" [("height", "1")])).calls = [])
    ∧ ((HandleGetTransaction fixtures.rt fixtures.ctl
          (fixtures.request "eth" [("height", "1")])).replies.map Reply.code = [400]
      ∧ (HandleGetTransaction fixtures.rt fixtures.ctl
          (fixtures.request "eth" [("height", "1")])).calls = []) :=
  ⟨by decide, unsupported_network_rejected _ _ _ _ (by decide)⟩

/-- C2, as stated, fails: with a supported network, a `height` of `1` and the malformed
`blockhash` value `zz`, `HandleGetBlock` does not answer 400; it calls `BlockHeight` and the
transaction lookups and answers 200. -/
theorem malformed_blockhash_with_height_counterexample :
    Supported ((fixtures.request "btc" [("height", "1"), ("blockhash", "zz")]).Param "id")
    ∧ (fixtures.request "btc" [("height", "1"), ("blockhash", "zz")]).Query "blockhash" = "zz"
    ∧ Malformed "zz"
    ∧ (HandleGetBlock fixtures.rt fixtures.ctl fixtures.inOrder
        (fixtures.request "btc" [("height", "1"), ("blockhash", "zz")])).replies.map Reply.code
        = [200]
    ∧ (HandleGetBlock fixtures.rt fixtures.ctl fixtures.inOrder
        (fixtures.request "btc" [("height", "1"), ("blockhash", "zz")])).calls
        = [.BlockHeight "btc" 1, .Transaction "btc" "1", .Transaction "btc" "2",
           .Transaction "btc" "3", .Transaction "btc" "4"] :=
  ⟨by decide, by decide, Or.inl (by decide), by decide, by decide⟩

/-- C2, amended: with a supported network, `HandleGetBlock` answers 400 without an upstream
call when `height` is empty and `blockhash` is non-empty and malformed, and
`HandleGetTransaction` answers 400 without an upstream call when `txhash` is malformed
(the empty `txhash` included). -/
theorem malformed_hash_rejected (rt : Runtime) (c : Controller) (sched : Schedule)
    (ctx : gin.Context) (hn : Supported (ctx.Param "id")) :
    (ctx.Query "height" = "" → ctx.Query "blockhash" ≠ "" → Malformed (ctx.Query "blockhash") →
      (HandleGetBlock rt c sched ctx).replies.map Reply.code = [400]
        ∧ (HandleGetBlock rt c sched ctx).calls = [])
    ∧ (Malformed (ctx.Param "txhash") →
      (HandleGetTransaction rt c ctx).replies.map Reply.code = [400]
        ∧ (HandleGetTransaction rt c ctx).calls = []) := by
  refine ⟨fun hh hb hm => ?_, fun hm => ?_⟩
  · rw [HandleGetBlock_hash_invalid rt c sched ctx hn hh hb (HashSHA256Regex_of_malformed _ hm)]
    exact ⟨rfl, rfl⟩
  · have := HandleGetTransaction_invalid rt c ctx hn (HashSHA256Regex_of_malformed _ hm)
    exact ⟨this.1, this.2.1⟩

theorem malformed_hash_rejected_witness :
    (Supported ((fixtures.request "btc" [("blockhash", "zz")]).Param "id")
      ∧ (fixtures.request "btc" [("blockhash", "zz")]).Query "height" = ""
      ∧ (fixtures.request "btc" [("blockhash", "zz")]).Query "blockhash" ≠ ""
      ∧ Malformed ((fixtures.request "btc" [("blockhash", "zz")]).Query "blockhash")
      ∧ (HandleGetBlock fixtures.rt fixtures.ctl fixtures.inOrder
          (fixtures.request "btc" [("blockhash", "zz")])).replies.map Reply.code = [400]
      ∧ (HandleGetBlock fixtures.rt fixtures.ctl fixtures.inOrder
          (fixtures.request "btc" [("blockhash", "zz")])).calls = [])
    ∧ (Supported ((fixtures.txRequest "btc" "zz").Param "id")
      ∧ Malformed ((fixtures.txRequest "btc" "zz").Param "txhash")
      ∧ (HandleGetTransaction fixtures.rt fixtures.ctl
          (fixtures.txRequest "btc" "zz")).replies.map Reply.code = [400]
      ∧ (HandleGetTransaction fixtures.rt fixtures.ctl
          (fixtures.txRequest "btc" "zz")).calls = []) :=
  ⟨⟨by decide, by decide, by decide, Or.inl (by decide),
      (malformed_hash_rejected fixtures.rt fixtures.ctl fixtures.inOrder
        (fixtures.request "btc" [("blockhash", "zz")]) (by decide)).1
        (by decide) (by decide) (Or.inl (by decide))⟩,
    ⟨by decide, Or.inl (by decide),
      (malformed_hash_rejected fixtures.rt fixtures.ctl fixtures.inOrder
        (fixtures.txRequest "btc" "zz") (by decide)).2 (Or.inl (by decide))⟩⟩

/-- C3, as stated, fails: with a supported network and the `height` query value present but
empty, which does not parse as a decimal integer, `HandleGetBlock` does not answer 400
without an upstream call; it takes the latest-block path, calls `NetworkInfo` and
`BlockHeight` and answers 200. -/
theorem empty_height_counterexample :
    Supported ((fixtures.request "btc" [("height", "")]).Param "id")
    ∧ (fixtures.request "btc" [("height", "")]).Query "height" = ""
    ∧ (strconv.Atoi "").2 ≠ none
    ∧ (HandleGetBlock fixtures.rt fixtures.ctl fixtures.inOrder
        (fixtures.request "btc" [("height", "")])).replies.map Reply.code = [200]
    ∧ (HandleGetBlock fixtures.rt fixtures.ctl fixtures.inOrder
        (fixtures.request "btc" [("height", "")])).calls.take 2
        = [.NetworkInfo "btc", .BlockHeight "btc" 7] :=
  ⟨by decide, by decide, by decide, by decide, by decide⟩

/-- C3, amended: with a supported network and a non-empty `height` query value that
`strconv.Atoi` rejects or parses to an integer `<= 0`, `HandleGetBlock` answers 400 and
makes no upstream call. -/
theorem invalid_height_rejected (rt : Runtime) (c : Controller) (sched : Schedule)
    (ctx : gin.Context) (hn : Supported (ctx.Param "id"))
    (hh : ctx.Query "height" ≠ "")
    (hbad : (strconv.Atoi (ctx.Query "height")).2 ≠ none
      ∨ (strconv.Atoi (ctx.Query "height")).1 ≤ 0) :
    (HandleGetBlock rt c sched ctx).replies.map Reply.code = [400]
    ∧ (HandleGetBlock rt c sched ctx).calls = [] := by
  rw [HandleGetBlock_height_invalid rt c sched ctx hn hh hbad]
  exact ⟨rfl, rfl⟩

theorem invalid_height_rejected_witness :
    (Supported ((fixtures.request "btc" [("height", "noInt")]).Param "id")
      ∧ (strconv.Atoi ((fixtures.request "btc" [("height", "noInt")]).Query "height")).2 ≠ none
      ∧ (HandleGetBlock fixtures.rt fixtures.ctl fixtures.inOrder
          (fixtures.request "btc" [("height", "noInt")])).replies.map Reply.code = [400]
      ∧ (HandleGetBlock fixtures.rt fixtures.ctl fixtures.inOrder
          (fixtures.request "btc" [("height", "noInt")])).calls = [])
    ∧ (strconv.Atoi ((fixtures.request "btc" [("height", "-1")]).Query "height")) = (-1, none)
      ∧ (HandleGetBlock fixtures.rt fixtures.ctl fixtures.inOrder
          (fixtures.request "btc" [("height", "-1")])).replies.map Reply.code = [400]
      ∧ (HandleGetBlock fixtures.rt fixtures.ctl fixtures.inOrder
          (fixtures.request "btc" [("height", "-1")])).calls = [] :=
  ⟨⟨by decide, by decide,
      invalid_height_rejected fixtures.rt fixtures.ctl fixtures.inOrder
        (fixtures.request "btc" [("height", "noInt")]) (by decide) (by decide)
        (Or.inl (by decide))⟩,
    by decide,
    invalid_height_rejected fixtures.rt fixtures.ctl fixtures.inOrder
      (fixtures.request "btc" [("height", "-1")]) (by decide) (by decide)
      (Or.inr (by decide))⟩

end controller

/-! ## Upstream failures at the request level -/

namespace controller

open sochain

theorem BlockLookupFails_status (rt : Runtime) (c : Controller) (sched : Schedule)
    (ctx : gin.Context) (e : GoError) (h : BlockLookupFails c ctx e) :
    (HandleGetBlock rt c sched ctx).replies.map Reply.code = [statusForFailure e]
    ∧ (HandleGetBlock rt c sched ctx).panicked = false := by
  obtain ⟨hn, hmode⟩ := h
  rcases hmode with ⟨hh, hb, info, x, hi, hblk⟩ | ⟨hh, hok, hpos, x, hblk⟩ | ⟨hh, hb, hgood, x, hblk⟩
  · have := HandleGetBlock_latest_blockFail rt c sched ctx hn hh hb info hi x e hblk
    exact ⟨this.1, this.2.2⟩
  · have := HandleGetBlock_height_blockFail rt c sched ctx hn hh hok hpos x e hblk
    exact ⟨this.1, this.2.2⟩
  · have := HandleGetBlock_hash_blockFail rt c sched ctx hn hh hb hgood x e hblk
    exact ⟨this.1, this.2.2⟩

theorem TxLookupFails_status (rt : Runtime) (c : Controller)
    (ctx : gin.Context) (e : GoError) (h : TxLookupFails c ctx e) :
    (HandleGetTransaction rt c ctx).replies.map Reply.code = [statusForFailure e]
    ∧ (HandleGetTransaction rt c ctx).panicked = false := by
  obtain ⟨hn, hgood, x, htx⟩ := h
  have := HandleGetTransaction_fail rt c ctx hn hgood x e htx
  exact ⟨this.1, this.2.2⟩

theorem statusForFailure_of_code_ne (e0 : GoError) (code : Int) (h4 : code ≠ 404)
    (h0 : code ≠ 400) : statusForFailure (.ClientError e0 code) = 500 := by
  unfold statusForFailure
  split <;> simp_all

theorem statusForFailure_of_not_value (e : GoError) (h : ∀ e0 code, e ≠ .ClientError e0 code) :
    statusForFailure e = 500 := by
  cases e with
  | ClientError e0 code => exact absurd rfl (h e0 code)
  | _ => rfl

/-- The status the handlers choose for a failed lookup: for a validated request whose block
lookup (in any of the three modes) or whose single transaction lookup fails with the error
`e`, the one reply has the status `statusForFailure e`: 404 for a `ClientError` value with
code 404, 400 for a `ClientError` value with code 400, and 500 for an error of any other
type, among them the pointer built by `NewClientErr`, whatever code it carries. -/
theorem lookup_failure_status (rt : Runtime) (c : Controller) (sched : Schedule)
    (ctx : gin.Context) (e : GoError) :
    ((BlockLookupFails c ctx e →
        (HandleGetBlock rt c sched ctx).replies.map Reply.code = [statusForFailure e])
      ∧ (TxLookupFails c ctx e →
        (HandleGetTransaction rt c ctx).replies.map Reply.code = [statusForFailure e]))
    ∧ (∀ e0, statusForFailure (.ClientError e0 404) = 404)
    ∧ (∀ e0, statusForFailure (.ClientError e0 400) = 400)
    ∧ (∀ e0 code, code ≠ 404 → code ≠ 400 → statusForFailure (.ClientError e0 code) = 500)
    ∧ (∀ e' : GoError, (∀ e0 code, e' ≠ .ClientError e0 code) → statusForFailure e' = 500) := by
  refine ⟨⟨fun h => (BlockLookupFails_status rt c sched ctx e h).1,
    fun h => (TxLookupFails_status rt c ctx e h).1⟩, fun _ => rfl, fun _ => rfl,
    fun e0 code h4 h0 => statusForFailure_of_code_ne e0 code h4 h0,
    fun e' h => statusForFailure_of_not_value e' h⟩

theorem lookup_failure_status_witness :
    (BlockLookupFails fixtures.ctl (fixtures.request "btc" [("height", "2")])
        (.ClientError (.errorString "some") 404)
      ∧ (HandleGetBlock fixtures.rt fixtures.ctl fixtures.inOrder
          (fixtures.request "btc" [("height", "2")])).replies.map Reply.code = [404])
    ∧ (TxLookupFails fixtures.ctl (fixtures.txRequest "btc" fixtures.goodHash)
        (.ClientError (.errorString "some") 404)
      ∧ (HandleGetTransaction fixtures.rt fixtures.ctl
          (fixtures.txRequest "btc" fixtures.goodHash)).replies.map Reply.code = [404]) :=
  ⟨⟨⟨by decide, Or.inr (Or.inl ⟨by decide, by decide, by decide, none, by decide⟩)⟩,
      (lookup_failure_status fixtures.rt fixtures.ctl fixtures.inOrder
        (fixtures.request "btc" [("height", "2")]) (.ClientError (.errorString "some") 404)).1.1
        ⟨by decide, Or.inr (Or.inl ⟨by decide, by decide, by decide, none, by decide⟩)⟩⟩,
    ⟨⟨by decide, by decide, none, by decide⟩,
      (lookup_failure_status fixtures.rt fixtures.ctl fixtures.inOrder
        (fixtures.txRequest "btc" fixtures.goodHash)
        (.ClientError (.errorString "some") 404)).1.2
        ⟨by decide, by decide, none, by decide⟩⟩⟩

/-- C4 on the code: a lookup failure that carries the status 404 or 400 is answered with
500 when it is the error that the client of `NewSochain` returns, the pointer built by
`NewClientErr`.  With a chain at height 7 and an upstream that answers the block lookup
with status 404, the request for the latest block is a validated request whose block lookup
fails with an error carrying 404, and the reply is 500; a block lookup by height answered
with status 400 gets 500; and on the transaction endpoint an upstream 404 and an upstream
400 both get 500. -/
theorem carried_status_answered_500 :
    (BlockLookupFails (NewController (NewSochain (fixtures.netLookup 404)))
        (fixtures.request "btc" [])
        (NewClientErr (.errorString "sochain response statuscode 404, height '7'") 404)
      ∧ carriedCode ((NewSochain (fixtures.netLookup 404)).BlockHeight "btc" 7).2 = some 404
      ∧ (HandleGetBlock fixtures.rt (NewController (NewSochain (fixtures.netLookup 404)))
          fixtures.inOrder (fixtures.request "btc" [])).replies
          = [⟨500, .text "unable to fetch block for given height"⟩])
    ∧ (BlockLookupFails (NewController (NewSochain (fixtures.netStatus 400)))
        (fixtures.request "btc" [("height", "1")])
        (NewClientErr (.errorString "sochain response statuscode 400, height '1'") 400)
      ∧ carriedCode ((NewSochain (fixtures.netStatus 400)).BlockHeight "btc" 1).2 = some 400
      ∧ (HandleGetBlock fixtures.rt (NewController (NewSochain (fixtures.netStatus 400)))
          fixtures.inOrder (fixtures.request "btc" [("height", "1")])).replies
          = [⟨500, .text "unable to fetch block for given height"⟩])
    ∧ (TxLookupFails (NewController (NewSochain (fixtures.netStatus 404)))
        (fixtures.txRequest "btc" fixtures.goodHash)
        (NewClientErr (.errorString ("sochain response statuscode 404, txhash '"
          ++ fixtures.goodHash ++ "'")) 404)
      ∧ carriedCode ((NewSochain (fixtures.netStatus 404)).Transaction "btc"
          fixtures.goodHash).2 = some 404
      ∧ (HandleGetTransaction fixtures.rt (NewController (NewSochain (fixtures.netStatus 404)))
          (fixtures.txRequest "btc" fixtures.goodHash)).replies
          = [⟨500, .text "unable to fetch transaction"⟩])
    ∧ (TxLookupFails (NewController (NewSochain (fixtures.netStatus 400)))
        (fixtures.txRequest "btc" fixtures.goodHash)
        (NewClientErr (.errorString ("sochain response statuscode 400, txhash '"
          ++ fixtures.goodHash ++ "'")) 400)
      ∧ carriedCode ((NewSochain (fixtures.netStatus 400)).Transaction "btc"
          fixtures.goodHash).2 = some 400
      ∧ (HandleGetTransaction fixtures.rt (NewController (NewSochain (fixtures.netStatus 400)))
          (fixtures.txRequest "btc" fixtures.goodHash)).replies
          = [⟨500, .text "unable to fetch transaction"⟩]) :=
  ⟨⟨⟨by decide, Or.inl ⟨by decide, by decide, { Data := { Blocks := 7 } }, none,
        by decide, by decide⟩⟩, by decide, by decide⟩,
    ⟨⟨by decide, Or.inr (Or.inl ⟨by decide, by decide, by decide, none, by decide⟩)⟩,
      by decide, by decide⟩,
    ⟨⟨by decide, by decide, none, by decide⟩, by decide, by decide⟩,
    ⟨⟨by decide, by decide, none, by decide⟩, by decide, by decide⟩⟩

/-- C9: with a supported network and neither `height` nor `blockhash` present, any failure
of `NetworkInfo` (whatever its type or status code) makes `HandleGetBlock` answer 400, and
`NetworkInfo` is the only upstream call. -/
theorem networkinfo_failure_is_bad_request (rt : Runtime) (c : Controller) (sched : Schedule)
    (ctx : gin.Context) (hn : Supported (ctx.Param "id"))
    (hh : ctx.Query "height" = "") (hb : ctx.Query "blockhash" = "")
    (x : Option NetworkInfo) (e : GoError)
    (hi : c.client.NetworkInfo (ctx.Param "id") = (x, some e)) :
    (HandleGetBlock rt c sched ctx).replies.map Reply.code = [400]
    ∧ (HandleGetBlock rt c sched ctx).calls = [.NetworkInfo (ctx.Param "id")] := by
  rw [HandleGetBlock_latest_infoFail rt c sched ctx hn hh hb x e hi]
  exact ⟨rfl, rfl⟩

theorem networkinfo_failure_is_bad_request_witness :
    fixtures.infoDown.NetworkInfo "btc" = (none, some (.errorString "some"))
    ∧ (HandleGetBlock fixtures.rt (NewController fixtures.infoDown) fixtures.inOrder
        (fixtures.request "btc" [])).replies.map Reply.code = [400]
    ∧ (HandleGetBlock fixtures.rt (NewController fixtures.infoDown) fixtures.inOrder
        (fixtures.request "btc" [])).calls = [.NetworkInfo "btc"] :=
  ⟨by decide,
    networkinfo_failure_is_bad_request fixtures.rt (NewController fixtures.infoDown)
      fixtures.inOrder (fixtures.request "btc" []) (by decide) (by decide) (by decide)
      none (.errorString "some") (by decide)⟩

end controller

/-! ## The upstream client and its status codes -/

namespace sochain

theorem NetworkInfo_carriedCode (c : Sochain) (networkID : String) (resp : HttpResponse)
    (hreq : c.Client.NewRequest "GET" (apiURL ++ "/get_info/" ++ networkID) = none)
    (hdo : c.Client.Do ⟨"GET", apiURL ++ "/get_info/" ++ networkID⟩ = .ok resp) :
    carriedCode (c.NetworkInfo networkID).err
      = if resp.StatusCode ≠ 200 then some resp.StatusCode else none := by
  unfold Sochain.NetworkInfo
  simp only [hreq, hdo]
  split_ifs with hs
  · rfl
  · cases resp.Body with
    | error msg => rfl
    | ok body =>
      simp only []
      cases c.Client.UnmarshalNetworkInfo body <;> rfl

theorem BlockHeight_carriedCode (c : Sochain) (networkID : String) (height : Int)
    (resp : HttpResponse)
    (hget : c.Client.Get (apiURL ++ "/get_block/" ++ networkID ++ "/" ++ toString height)
      = .ok resp) :
    carriedCode (c.BlockHeight networkID height).err
      = if resp.StatusCode ≠ 200 then some resp.StatusCode else none := by
  unfold Sochain.BlockHeight
  simp only [hget]
  split_ifs with hs
  · rfl
  · cases resp.Body with
    | error msg => rfl
    | ok body =>
      simp only []
      cases c.Client.UnmarshalBlock body <;> rfl

theorem BlockHash_carriedCode (c : Sochain) (networkID blockHash : String)
    (resp : HttpResponse)
    (hget : c.Client.Get (apiURL ++ "/get_block/" ++ networkID ++ "/" ++ blockHash)
      = .ok resp) :
    carriedCode (c.BlockHash networkID blockHash).err
      = if resp.StatusCode ≠ 200 then some resp.StatusCode else none := by
  unfold Sochain.BlockHash
  simp only [hget]
  split_ifs with hs
  · rfl
  · cases resp.Body with
    | error msg => rfl
    | ok body =>
      simp only []
      cases c.Client.UnmarshalBlock body <;> rfl

theorem Transaction_carriedCode (c : Sochain) (networkID txHash : String)
    (resp : HttpResponse)
    (hget : c.Client.Get (apiURL ++ "/tx/" ++ networkID ++ "/" ++ txHash) = .ok resp) :
    carriedCode (c.Transaction networkID txHash).err
      = if resp.StatusCode ≠ 200 then some resp.StatusCode else none := by
  unfold Sochain.Transaction
  simp only [hget]
  split_ifs with hs
  · rfl
  · cases resp.Body with
    | error msg => rfl
    | ok body =>
      simp only []
      cases c.Client.UnmarshalTransaction body <;> rfl

theorem ite_code_iff (s : Int) (o : Option Int)
    (h : o = if s ≠ 200 then some s else none) :
    (o.isSome = true ↔ s ≠ 200) ∧ (s ≠ 200 → o = some s) := by
  subst h
  by_cases hs : s = 200 <;> simp [hs]

/-- C6, as stated, fails: on an upstream that answers 204, a 2xx status, `BlockHeight`
returns a failure that carries the status code 204. -/
theorem status_204_counterexample :
    (200 ≤ (204 : Int) ∧ (204 : Int) ≤ 299)
    ∧ (fixtures.netStatus 204).Get (apiURL ++ "/get_block/btc/1") = .ok ⟨204, .ok ""⟩
    ∧ (Sochain.BlockHeight (fixtures.client (fixtures.netStatus 204)) "btc" 1).err
        = some (NewClientErr (.errorString "sochain response statuscode 204, height '1'") 204)
    ∧ carriedCode (Sochain.BlockHeight (fixtures.client (fixtures.netStatus 204)) "btc" 1).err
        = some 204 :=
  ⟨by decide, rfl, by decide, by decide⟩

/-- C6, amended: for each of the four client operations and every upstream response with
status code `s`, the operation returns a failure carrying a status code if and only if
`s` differs from 200, and in that case the carried code equals `s`. -/
theorem failure_carries_status_iff_not_200 (c : Sochain) (networkID : String)
    (resp : HttpResponse) :
    (c.Client.NewRequest "GET" (apiURL ++ "/get_info/" ++ networkID) = none →
      c.Client.Do ⟨"GET", apiURL ++ "/get_info/" ++ networkID⟩ = .ok resp →
        ((carriedCode (c.NetworkInfo networkID).err).isSome = true ↔ resp.StatusCode ≠ 200)
        ∧ (resp.StatusCode ≠ 200 →
            carriedCode (c.NetworkInfo networkID).err = some resp.StatusCode))
    ∧ (∀ height : Int,
      c.Client.Get (apiURL ++ "/get_block/" ++ networkID ++ "/" ++ toString height) = .ok resp →
        ((carriedCode (c.BlockHeight networkID height).err).isSome = true
            ↔ resp.StatusCode ≠ 200)
        ∧ (resp.StatusCode ≠ 200 →
            carriedCode (c.BlockHeight networkID height).err = some resp.StatusCode))
    ∧ (∀ blockHash : String,
      c.Client.Get (apiURL ++ "/get_block/" ++ networkID ++ "/" ++ blockHash) = .ok resp →
        ((carriedCode (c.BlockHash networkID blockHash).err).isSome = true
            ↔ resp.StatusCode ≠ 200)
        ∧ (resp.StatusCode ≠ 200 →
            carriedCode (c.BlockHash networkID blockHash).err = some resp.StatusCode))
    ∧ (∀ txHash : String,
      c.Client.Get (apiURL ++ "/tx/" ++ networkID ++ "/" ++ txHash) = .ok resp →
        ((carriedCode (c.Transaction networkID txHash).err).isSome = true
            ↔ resp.StatusCode ≠ 200)
        ∧ (resp.StatusCode ≠ 200 →
            carriedCode (c.Transaction networkID txHash).err = some resp.StatusCode)) :=
  ⟨fun hreq hdo => ite_code_iff _ _ (NetworkInfo_carriedCode c networkID resp hreq hdo),
    fun height hget => ite_code_iff _ _ (BlockHeight_carriedCode c networkID height resp hget),
    fun blockHash hget => ite_code_iff _ _ (BlockHash_carriedCode c networkID blockHash resp hget),
    fun txHash hget => ite_code_iff _ _ (Transaction_carriedCode c networkID txHash resp hget)⟩

theorem failure_carries_status_iff_not_200_witness :
    (fixtures.netStatus 500).Get (apiURL ++ "/tx/" ++ "btc" ++ "/" ++ "1")
        = .ok ⟨500, .ok ""⟩
    ∧ ((carriedCode ((fixtures.client (fixtures.netStatus 500)).Transaction "btc" "1").err).isSome
          = true ↔ (500 : Int) ≠ 200)
    ∧ ((500 : Int) ≠ 200 →
        carriedCode ((fixtures.client (fixtures.netStatus 500)).Transaction "btc" "1").err
          = some 500) :=
  ⟨rfl, (failure_carries_status_iff_not_200 (fixtures.client (fixtures.netStatus 500)) "btc"
      ⟨500, .ok ""⟩).2.2.2 "1" rfl⟩

end sochain


namespace controller

open sochain

/-- C5 on the code: with the client of `NewSochain` and an upstream that answers the block
lookup with status 404, the error that `BlockHeight` and `BlockHash` return is the pointer
built by `NewClientErr` and carries the code 404, but the type assertion of
`HandleGetBlock` does not match it: the reply is 500 with the internal-error message, in
the explicit-height and in the block-hash mode. -/
theorem sochain_404_answered_500 :
    ((NewSochain (fixtures.netStatus 404)).BlockHeight "btc" 1).2
        = some (NewClientErr (.errorString "sochain response statuscode 404, height '1'") 404)
    ∧ carriedCode ((NewSochain (fixtures.netStatus 404)).BlockHeight "btc" 1).2 = some 404
    ∧ assertClientError ((NewSochain (fixtures.netStatus 404)).BlockHeight "btc" 1).2 = none
    ∧ (HandleGetBlock fixtures.rt (NewController (NewSochain (fixtures.netStatus 404)))
        fixtures.inOrder (fixtures.request "btc" [("height", "1")])).replies
        = [⟨500, .text "unable to fetch block for given height"⟩]
    ∧ (HandleGetBlock fixtures.rt (NewController (NewSochain (fixtures.netStatus 404)))
        fixtures.inOrder (fixtures.request "btc" [("blockhash", fixtures.goodHash)])).replies
        = [⟨500, .text "unable to fetch block by hash"⟩]
    ∧ (HandleGetBlock fixtures.rt
        (NewController { fixtures.upstream with
          BlockHeight := fun _ _ => (none, some (GoError.deref
            (NewClientErr (.errorString "some") 404))) })
        fixtures.inOrder (fixtures.request "btc" [("height", "1")])).replies
        = [⟨404, .text "unable to find block for given height"⟩] :=
  ⟨by decide, by decide, by decide, by decide, by decide, by decide⟩

end controller

/-! ## Enrichment: the cap and partial failures -/

namespace controller

open sochain

/-- C7: after a successful block lookup, in any of the three modes and under every
schedule, the transaction lookups that `HandleGetBlock` issues are, as a multiset, one
lookup with the request's network id per element of the first `min (len L) 10` ids of the
block's list `L`; so their number is `min (len L) 10` and every id looked up is among the
first ten. -/
theorem lookups_are_first_ten (rt : Runtime) (c : Controller) (sched : Schedule)
    (ctx : gin.Context) (block : Block) (h : FetchesBlock c ctx block) :
    ((HandleGetBlock rt c sched ctx).calls.filter isTransactionCall).Perm
        ((block.Data.Txs.take (min block.Data.Txs.length 10)).map
          (Call.Transaction (ctx.Param "id")))
    ∧ ((HandleGetBlock rt c sched ctx).calls.filter isTransactionCall).length
        = min block.Data.Txs.length 10
    ∧ ∀ n id, Call.Transaction n id ∈ (HandleGetBlock rt c sched ctx).calls →
        n = ctx.Param "id" ∧ id ∈ block.Data.Txs.take 10 := by
  obtain ⟨lvl, before, heq, hbefore⟩ := FetchesBlock_enrich rt c sched ctx block h
  have hperm := enrich_transactionCalls rt c sched lvl none before (ctx.Param "id") block hbefore
  have htake : block.Data.Txs.take (min block.Data.Txs.length 10) = block.Data.Txs.take 10 := by
    rcases Nat.le_total block.Data.Txs.length 10 with hle | hle
    · rw [Nat.min_eq_left hle, List.take_of_length_le hle, List.take_of_length_le (le_refl _)]
    · rw [Nat.min_eq_right hle]
  rw [heq, htake]
  refine ⟨hperm, ?_, ?_⟩
  · rw [hperm.length_eq, List.length_map, List.length_take, Nat.min_comm]
  · intro n id hmem
    have hf : Call.Transaction n id ∈
        (enrich rt c sched lvl none before (ctx.Param "id") block).calls.filter
          isTransactionCall :=
      List.mem_filter.mpr ⟨hmem, rfl⟩
    obtain ⟨id', hid', heq'⟩ := List.mem_map.mp (hperm.mem_iff.mp hf)
    injection heq' with h1 h2
    subst h1 h2
    exact ⟨rfl, hid'⟩

theorem lookups_are_first_ten_witness :
    FetchesBlock fixtures.ctl (fixtures.request "btc" [("height", "7")])
      (fixtures.blockOf 7 fixtures.fifteen)
    ∧ ((HandleGetBlock fixtures.rt fixtures.ctl ⟨[9, 3, 3], [1]⟩
          (fixtures.request "btc" [("height", "7")])).calls.filter isTransactionCall).Perm
        (["a1", "a2", "a3", "a4", "a5", "a6", "a7", "a8", "a9", "a10"].map
          (Call.Transaction "btc"))
    ∧ ((HandleGetBlock fixtures.rt fixtures.ctl ⟨[9, 3, 3], [1]⟩
          (fixtures.request "btc" [("height", "7")])).calls.filter isTransactionCall).length
        = 10 :=
  ⟨⟨by decide, Or.inr (Or.inl ⟨by decide, by decide, by decide, by decide⟩)⟩,
    (lookups_are_first_ten fixtures.rt fixtures.ctl ⟨[9, 3, 3], [1]⟩
      (fixtures.request "btc" [("height", "7")]) (fixtures.blockOf 7 fixtures.fifteen)
      ⟨by decide, Or.inr (Or.inl ⟨by decide, by decide, by decide, by decide⟩)⟩).1,
    (lookups_are_first_ten fixtures.rt fixtures.ctl ⟨[9, 3, 3], [1]⟩
      (fixtures.request "btc" [("height", "7")]) (fixtures.blockOf 7 fixtures.fifteen)
      ⟨by decide, Or.inr (Or.inl ⟨by decide, by decide, by decide, by decide⟩)⟩).2.1⟩

/-- C8: after a successful block lookup whose capped id list has `N` entries of which `K`
lookups fail (with any error) and the others return a transaction, `HandleGetBlock`
answers 200 under every schedule; the block-level fields are those of `Block.Response`, and
the `transactions` list has `N - K` entries and is a permutation of the `Response()` of the
successful lookups; when every lookup fails it is empty. -/
theorem partial_failures_are_dropped (rt : Runtime) (c : Controller) (sched : Schedule)
    (ctx : gin.Context) (block : Block) (h : FetchesBlock c ctx block)
    (hwf : ∀ id ∈ block.Data.Txs.take 10,
      (c.client.Transaction (ctx.Param "id") id).2 = none →
        (c.client.Transaction (ctx.Param "id") id).1 ≠ none) :
    ∃ txs : TransactionResponses,
      (HandleGetBlock rt c sched ctx).replies
        = [⟨200, .block { Block.Response rt block with Transactions := txs }⟩]
      ∧ (HandleGetBlock rt c sched ctx).panicked = false
      ∧ txs.Perm (Transactions.Response rt
          ((block.Data.Txs.take 10).filterMap (lookupOk c (ctx.Param "id"))))
      ∧ txs.length = (block.Data.Txs.take 10).length
          - (block.Data.Txs.take 10).countP (lookupFails c (ctx.Param "id"))
      ∧ ((block.Data.Txs.take 10).countP (lookupFails c (ctx.Param "id"))
          = (block.Data.Txs.take 10).length → txs = []) := by
  obtain ⟨lvl, before, heq, -⟩ := FetchesBlock_enrich rt c sched ctx block h
  obtain ⟨txs, hrep, hperm⟩ := enrich_reply rt c sched lvl before (ctx.Param "id") block hwf
  have hlen := filterMap_lookupOk_length c (ctx.Param "id") (block.Data.Txs.take 10) hwf
  have hl : (Transactions.Response rt txs).length = (block.Data.Txs.take 10).length
      - (block.Data.Txs.take 10).countP (lookupFails c (ctx.Param "id")) := by
    unfold Transactions.Response
    rw [List.length_map, hperm.length_eq]
    omega
  refine ⟨Transactions.Response rt txs, ?_, ?_, ?_, hl, ?_⟩
  · rw [heq, hrep]
  · rw [heq, hrep]
  · exact hperm.map _
  · intro hall
    rw [hall, Nat.sub_self] at hl
    exact List.length_eq_zero.mp hl

theorem partial_failures_are_dropped_witness :
    FetchesBlock fixtures.ctl (fixtures.request "btc" [("height", "1")])
      (fixtures.blockOf 1 ["1", "2", "3", "4"])
    ∧ (["1", "2", "3", "4"].countP (lookupFails fixtures.ctl "btc") = 2)
    ∧ ∃ txs : TransactionResponses,
      (HandleGetBlock fixtures.rt fixtures.ctl ⟨[], [3, 1]⟩
          (fixtures.request "btc" [("height", "1")])).replies
        = [⟨200, .block { Block.Response fixtures.rt (fixtures.blockOf 1 ["1", "2", "3", "4"])
                          with Transactions := txs }⟩]
      ∧ txs.Perm (Transactions.Response fixtures.rt [fixtures.tx "1", fixtures.tx "2"])
      ∧ txs.length = 2 :=
  ⟨⟨by decide, Or.inr (Or.inl ⟨by decide, by decide, by decide, by decide⟩)⟩, by decide,
    (partial_failures_are_dropped fixtures.rt fixtures.ctl ⟨[], [3, 1]⟩
      (fixtures.request "btc" [("height", "1")]) (fixtures.blockOf 1 ["1", "2", "3", "4"])
      ⟨by decide, Or.inr (Or.inl ⟨by decide, by decide, by decide, by decide⟩)⟩
      (by decide)).imp fun _ hx => ⟨hx.1, hx.2.2.1, hx.2.2.2.1⟩⟩

end controller

/-! ## One mapping for every operation -/

namespace controller

open sochain

theorem statusForFailure_of_no_code (e : GoError) (h : carriedCode (some e) = none) :
    statusForFailure e = 500 := by
  cases e with
  | ClientError e0 code => simp [carriedCode, GoError.Code] at h
  | ptrClientError e0 code => simp [carriedCode, GoError.Code] at h
  | _ => rfl

/-- C10, as stated, fails: a `NetworkInfo` failure that carries no status code is answered
with 400, not 500, while the same failure of `BlockHeight` is answered with 500; and a
`NetworkInfo` failure carrying 404 is answered with 400 while the same failure of
`BlockHeight` is answered with 404. -/
theorem networkinfo_mapping_counterexample :
    (fixtures.infoDown.NetworkInfo "btc" = (none, some (.errorString "some"))
      ∧ carriedCode (some (.errorString "some")) = none
      ∧ (HandleGetBlock fixtures.rt (NewController fixtures.infoDown) fixtures.inOrder
          (fixtures.request "btc" [])).replies.map Reply.code = [400]
      ∧ fixtures.upstream.BlockHeight "btc" 3 = (none, some (.errorString "some"))
      ∧ (HandleGetBlock fixtures.rt fixtures.ctl fixtures.inOrder
          (fixtures.request "btc" [("height", "3")])).replies.map Reply.code = [500])
    ∧ (fixtures.infoNotFound.NetworkInfo "btc"
          = (none, some (.ClientError (.errorString "some") 404))
      ∧ (HandleGetBlock fixtures.rt (NewController fixtures.infoNotFound) fixtures.inOrder
          (fixtures.request "btc" [])).replies.map Reply.code = [400]
      ∧ fixtures.upstream.BlockHeight "btc" 2
          = (none, some (.ClientError (.errorString "some") 404))
      ∧ (HandleGetBlock fixtures.rt fixtures.ctl fixtures.inOrder
          (fixtures.request "btc" [("height", "2")])).replies.map Reply.code = [404]) :=
  ⟨⟨by decide, by decide, by decide, by decide, by decide⟩,
    ⟨by decide, by decide, by decide, by decide⟩⟩

/-- C10, amended: the mapping is applied identically to a failure of `BlockHeight`,
`BlockHash` and, on the transaction endpoint, `Transaction`: the same error gives the same
HTTP status whichever of these operations failed, and an error that carries no status code
gives 500; a failure of `NetworkInfo` gives 400 whatever the error. -/
theorem mapping_same_for_block_and_transaction (rt : Runtime) (e : GoError) :
    (∀ (c₁ c₂ : Controller) (s₁ s₂ : Schedule) (ctx₁ ctx₂ : gin.Context),
      BlockLookupFails c₁ ctx₁ e → BlockLookupFails c₂ ctx₂ e →
        (HandleGetBlock rt c₁ s₁ ctx₁).replies.map Reply.code
          = (HandleGetBlock rt c₂ s₂ ctx₂).replies.map Reply.code)
    ∧ (∀ (c₁ c₂ : Controller) (s₁ : Schedule) (ctx₁ ctx₂ : gin.Context),
      BlockLookupFails c₁ ctx₁ e → TxLookupFails c₂ ctx₂ e →
        (HandleGetBlock rt c₁ s₁ ctx₁).replies.map Reply.code
          = (HandleGetTransaction rt c₂ ctx₂).replies.map Reply.code)
    ∧ (carriedCode (some e) = none →
      (∀ (c : Controller) (s : Schedule) (ctx : gin.Context), BlockLookupFails c ctx e →
        (HandleGetBlock rt c s ctx).replies.map Reply.code = [500])
      ∧ (∀ (c : Controller) (ctx : gin.Context), TxLookupFails c ctx e →
        (HandleGetTransaction rt c ctx).replies.map Reply.code = [500]))
    ∧ (∀ (c : Controller) (s : Schedule) (ctx : gin.Context) (x : Option NetworkInfo),
      Supported (ctx.Param "id") → ctx.Query "height" = "" → ctx.Query "blockhash" = "" →
      c.client.NetworkInfo (ctx.Param "id") = (x, some e) →
        (HandleGetBlock rt c s ctx).replies.map Reply.code = [400]) := by
  refine ⟨?_, ?_, ?_, ?_⟩
  · intro c₁ c₂ s₁ s₂ ctx₁ ctx₂ h₁ h₂
    rw [(BlockLookupFails_status rt c₁ s₁ ctx₁ e h₁).1,
      (BlockLookupFails_status rt c₂ s₂ ctx₂ e h₂).1]
  · intro c₁ c₂ s₁ ctx₁ ctx₂ h₁ h₂
    rw [(BlockLookupFails_status rt c₁ s₁ ctx₁ e h₁).1, (TxLookupFails_status rt c₂ ctx₂ e h₂).1]
  · intro hno
    refine ⟨fun c s ctx h => ?_, fun c ctx h => ?_⟩
    · rw [(BlockLookupFails_status rt c s ctx e h).1, statusForFailure_of_no_code e hno]
    · rw [(TxLookupFails_status rt c ctx e h).1, statusForFailure_of_no_code e hno]
  · intro c s ctx x hn hh hb hi
    rw [HandleGetBlock_latest_infoFail rt c s ctx hn hh hb x e hi]
    rfl

theorem mapping_same_for_block_and_transaction_witness :
    BlockLookupFails fixtures.ctl (fixtures.request "btc" [("height", "2")])
        (.ClientError (.errorString "some") 404)
    ∧ TxLookupFails fixtures.ctl (fixtures.txRequest "btc" fixtures.goodHash)
        (.ClientError (.errorString "some") 404)
    ∧ (HandleGetBlock fixtures.rt fixtures.ctl fixtures.inOrder
          (fixtures.request "btc" [("height", "2")])).replies.map Reply.code
        = (HandleGetTransaction fixtures.rt fixtures.ctl
          (fixtures.txRequest "btc" fixtures.goodHash)).replies.map Reply.code
    ∧ (BlockLookupFails fixtures.ctl (fixtures.request "btc" [("height", "3")])
        (.errorString "some")
      ∧ carriedCode (some (GoError.errorString "some")) = none
      ∧ (HandleGetBlock fixtures.rt fixtures.ctl fixtures.inOrder
          (fixtures.request "btc" [("height", "3")])).replies.map Reply.code = [500]) :=
  ⟨⟨by decide, Or.inr (Or.inl ⟨by decide, by decide, by decide, none, by decide⟩)⟩,
    ⟨by decide, by decide, none, by decide⟩,
    (mapping_same_for_block_and_transaction fixtures.rt
      (.ClientError (.errorString "some") 404)).2.1 fixtures.ctl fixtures.ctl fixtures.inOrder
      (fixtures.request "btc" [("height", "2")]) (fixtures.txRequest "btc" fixtures.goodHash)
      ⟨by decide, Or.inr (Or.inl ⟨by decide, by decide, by decide, none, by decide⟩)⟩
      ⟨by decide, by decide, none, by decide⟩,
    ⟨by decide, Or.inr (Or.inl ⟨by decide, by decide, by decide, none, by decide⟩)⟩,
    by decide,
    ((mapping_same_for_block_and_transaction fixtures.rt (.errorString "some")).2.2.1
      (by decide)).1 fixtures.ctl fixtures.inOrder (fixtures.request "btc" [("height", "3")])
      ⟨by decide, Or.inr (Or.inl ⟨by decide, by decide, by decide, none, by decide⟩)⟩⟩

end controller

/-! ## The replies of the failure branches in full -/

namespace controller

open sochain

theorem statusForFailure_mem (e : GoError) :
    statusForFailure e = 400 ∨ statusForFailure e = 404 ∨ statusForFailure e = 500 := by
  unfold statusForFailure
  split <;> simp

theorem heightFailureBody_mem (status : Int) : heightFailureBody status ∈ errorBodies := by
  unfold heightFailureBody errorBodies
  split_ifs <;> simp

theorem hashFailureBody_mem (status : Int) : hashFailureBody status ∈ errorBodies := by
  unfold hashFailureBody errorBodies
  split_ifs <;> simp

theorem txFailureBody_mem (status : Int) : txFailureBody status ∈ errorBodies := by
  unfold txFailureBody errorBodies
  split_ifs <;> simp

theorem HandleGetBlock_latest_blockFail_replies (rt : Runtime) (c : Controller)
    (sched : Schedule) (ctx : gin.Context) (hn : Supported (ctx.Param "id"))
    (hh : ctx.Query "height" = "") (hb : ctx.Query "blockhash" = "")
    (info : NetworkInfo) (hi : c.client.NetworkInfo (ctx.Param "id") = (some info, none))
    (x : Option Block) (e : GoError)
    (hblk : c.client.BlockHeight (ctx.Param "id") info.Data.Blocks = (x, some e)) :
    (HandleGetBlock rt c sched ctx).replies
      = [⟨statusForFailure e, .text (heightFailureBody (statusForFailure e))⟩] := by
  rw [statusForFailure_eq]
  simp only [HandleGetBlock, GetParamNetwork_accept ctx "id" hn, ToLower_supported _ hn, hh, hb,
    hi, hblk, and_self, if_true]
  split_ifs <;>
    simp [heightFailureBody, StatusNotFound, StatusBadRequest, StatusInternalServerError]

theorem HandleGetBlock_height_blockFail_replies (rt : Runtime) (c : Controller)
    (sched : Schedule) (ctx : gin.Context) (hn : Supported (ctx.Param "id"))
    (hh : ctx.Query "height" ≠ "")
    (hok : (strconv.Atoi (ctx.Query "height")).2 = none)
    (hpos : 0 < (strconv.Atoi (ctx.Query "height")).1)
    (x : Option Block) (e : GoError)
    (hblk : c.client.BlockHeight (ctx.Param "id") (strconv.Atoi (ctx.Query "height")).1
      = (x, some e)) :
    (HandleGetBlock rt c sched ctx).replies
      = [⟨statusForFailure e, .text (heightFailureBody (statusForFailure e))⟩] := by
  have hbad : ¬ ((strconv.Atoi (ctx.Query "height")).2 ≠ none
      ∨ (strconv.Atoi (ctx.Query "height")).1 ≤ 0) := by
    simp [hok, hpos]
  rw [statusForFailure_eq]
  simp only [HandleGetBlock, GetParamNetwork_accept ctx "id" hn, ToLower_supported _ hn, hh,
    false_and, if_false, ne_eq, not_false_eq_true, if_true, hbad, hblk]
  split_ifs <;>
    simp [heightFailureBody, StatusNotFound, StatusBadRequest, StatusInternalServerError]

theorem HandleGetBlock_hash_blockFail_replies (rt : Runtime) (c : Controller)
    (sched : Schedule) (ctx : gin.Context) (hn : Supported (ctx.Param "id"))
    (hh : ctx.Query "height" = "") (hb : ctx.Query "blockhash" ≠ "")
    (hgood : HashSHA256Regex (ctx.Query "blockhash") = true)
    (x : Option Block) (e : GoError)
    (hblk : c.client.BlockHash (ctx.Param "id") (ctx.Query "blockhash") = (x, some e)) :
    (HandleGetBlock rt c sched ctx).replies
      = [⟨statusForFailure e, .text (hashFailureBody (statusForFailure e))⟩] := by
  rw [statusForFailure_eq]
  simp only [HandleGetBlock, GetParamNetwork_accept ctx "id" hn, ToLower_supported _ hn, hh, hb,
    false_and, and_false, if_false, ne_eq, not_false_eq_true, if_true, hgood, hblk,
    not_true_eq_false]
  split_ifs <;>
    simp [hashFailureBody, StatusNotFound, StatusBadRequest, StatusInternalServerError]

theorem HandleGetTransaction_fail_replies (rt : Runtime) (c : Controller)
    (ctx : gin.Context) (hn : Supported (ctx.Param "id"))
    (hgood : HashSHA256Regex (ctx.Param "txhash") = true)
    (x : Option Transaction) (e : GoError)
    (htx : c.client.Transaction (ctx.Param "id") (ctx.Param "txhash") = (x, some e)) :
    (HandleGetTransaction rt c ctx).replies
      = [⟨statusForFailure e, .text (txFailureBody (statusForFailure e))⟩] := by
  have hne : ctx.Param "txhash" ≠ "" := by
    intro h0
    rw [h0] at hgood
    exact absurd hgood (by decide)
  rw [statusForFailure_eq]
  simp only [HandleGetTransaction, GetParamNetwork_accept ctx "id" hn, hne, if_false, hgood,
    not_true_eq_false, htx]
  split_ifs <;>
    simp [txFailureBody, StatusNotFound, StatusBadRequest, StatusInternalServerError]

end controller

/-! ## Runs that end in a nil dereference -/

namespace controller

open sochain

theorem rangeResults_panicked_iff (lvl : Level) (rs : List TxChanResp) :
    (rangeResults lvl none rs).panicked = true ↔ ∃ v ∈ rs, v.err = none ∧ v.tx = none := by
  induction rs with
  | nil => simp [rangeResults]
  | cons v rest ih =>
    by_cases he : v.err = none
    · cases htx : v.tx with
      | none =>
        simp only [rangeResults, he, ne_eq, not_true_eq_false, if_false, htx, true_iff]
        exact ⟨v, List.mem_cons_self _ _, he, htx⟩
      | some tx =>
        simp only [rangeResults, he, ne_eq, not_true_eq_false, if_false, htx, ih,
          List.mem_cons, exists_eq_or_imp, true_and]
        simp
    · simp only [rangeResults, ne_eq, he, not_false_eq_true, if_true, assertClientError, ih,
        List.mem_cons, exists_eq_or_imp, false_and, false_or]

theorem enrich_panicked_iff (rt : Runtime) (c : Controller) (sched : Schedule) (lvl : Level)
    (before : List Call) (n : String) (block : Block) :
    (enrich rt c sched lvl none before n block).panicked = true
      ↔ ∃ id ∈ block.Data.Txs.take 10, nilLookup c n id = true := by
  have hp : (enrich rt c sched lvl none before n block).panicked
      = (rangeResults lvl none (arrival sched.sends
          ((FetchTxAsync c.client.Transaction n (cappedTxs block.Data.Txs)).map
            fun g => g.resp))).panicked := by
    unfold enrich
    simp only []
    split_ifs with h
    · simp [h]
    · simpa using h
  rw [hp, rangeResults_panicked_iff]
  constructor
  · rintro ⟨v, hv, he, htx⟩
    have hv := (arrival_perm _ _).mem_iff.mp hv
    simp only [FetchTxAsync, List.map_map, List.mem_map, cappedTxs_eq_take] at hv
    obtain ⟨id, hid, rfl⟩ := hv
    exact ⟨id, hid, by simpa [nilLookup] using And.intro he htx⟩
  · rintro ⟨id, hid, hnil⟩
    refine ⟨⟨(c.client.Transaction n id).1, "", (c.client.Transaction n id).2⟩, ?_, ?_⟩
    · apply (arrival_perm _ _).mem_iff.mpr
      simp only [FetchTxAsync, List.map_map, List.mem_map, cappedTxs_eq_take]
      exact ⟨id, hid, rfl⟩
    · simpa [nilLookup] using hnil

theorem enrich_replies_of_panicked (rt : Runtime) (c : Controller) (sched : Schedule)
    (lvl : Level) (err : Option GoError) (before : List Call) (n : String) (block : Block)
    (h : (enrich rt c sched lvl err before n block).panicked = true) :
    (enrich rt c sched lvl err before n block).replies = [] := by
  unfold enrich at h ⊢
  simp only [] at h ⊢
  split_ifs at h ⊢ with hp
  · rfl

theorem wellFormed_of_not_panicked (rt : Runtime) (c : Controller) (sched : Schedule)
    (lvl : Level) (before : List Call) (n : String) (block : Block)
    (h : (enrich rt c sched lvl none before n block).panicked ≠ true) :
    ∀ id ∈ block.Data.Txs.take 10,
      (c.client.Transaction n id).2 = none → (c.client.Transaction n id).1 ≠ none := by
  intro id hid he htx
  apply h
  rw [enrich_panicked_iff]
  exact ⟨id, hid, by simp [nilLookup, he, htx]⟩

end controller

/-! ## The ways a run can end -/

namespace controller

open sochain

/-- Every run of `HandleGetBlock` ends in one of three ways. -/
theorem HandleGetBlock_cases (rt : Runtime) (c : Controller) (sched : Schedule)
    (ctx : gin.Context) :
    (HandleGetBlock rt c sched ctx).replies = []
    ∨ (∃ code s, (code = 400 ∨ code = 404 ∨ code = 500) ∧ s ∈ errorBodies
        ∧ (HandleGetBlock rt c sched ctx).replies = [⟨code, .text s⟩])
    ∨ (∃ block lvl before, FetchesBlock c ctx block
        ∧ HandleGetBlock rt c sched ctx
          = enrich rt c sched lvl none before (ctx.Param "id") block) := by
  by_cases hn : Supported (ctx.Param "id")
  · by_cases hh : ctx.Query "height" = ""
    · by_cases hb : ctx.Query "blockhash" = ""
      · rcases hi : c.client.NetworkInfo (ctx.Param "id") with ⟨x, oe⟩
        cases oe with
        | some e =>
          right; left
          refine ⟨400, _, Or.inl rfl, ?_,
            by rw [HandleGetBlock_latest_infoFail rt c sched ctx hn hh hb x e hi]⟩
          simp [errorBodies]
        | none =>
          cases x with
          | none =>
            left
            simp [HandleGetBlock, GetParamNetwork_accept ctx "id" hn, ToLower_supported _ hn,
              hh, hb, hi]
          | some info =>
            rcases hblk : c.client.BlockHeight (ctx.Param "id") info.Data.Blocks with ⟨y, oe'⟩
            cases oe' with
            | some e =>
              right; left
              exact ⟨_, _, statusForFailure_mem e, heightFailureBody_mem _,
                HandleGetBlock_latest_blockFail_replies rt c sched ctx hn hh hb info hi y e hblk⟩
            | none =>
              cases y with
              | none =>
                left
                simp [HandleGetBlock, GetParamNetwork_accept ctx "id" hn,
                  ToLower_supported _ hn, hh, hb, hi, hblk]
              | some block =>
                right; right
                exact ⟨block, _, _, ⟨hn, Or.inl ⟨hh, hb, info, hi, hblk⟩⟩,
                  HandleGetBlock_latest_ok rt c sched ctx hn hh hb info hi block hblk⟩
      · by_cases hgood : HashSHA256Regex (ctx.Query "blockhash") = true
        · rcases hblk : c.client.BlockHash (ctx.Param "id") (ctx.Query "blockhash")
            with ⟨y, oe'⟩
          cases oe' with
          | some e =>
            right; left
            exact ⟨_, _, statusForFailure_mem e, hashFailureBody_mem _,
              HandleGetBlock_hash_blockFail_replies rt c sched ctx hn hh hb hgood y e hblk⟩
          | none =>
            cases y with
            | none =>
              left
              simp [HandleGetBlock, GetParamNetwork_accept ctx "id" hn,
                ToLower_supported _ hn, hh, hb, hgood, hblk]
            | some block =>
              right; right
              exact ⟨block, _, _, ⟨hn, Or.inr (Or.inr ⟨hh, hb, hgood, hblk⟩)⟩,
                HandleGetBlock_hash_ok rt c sched ctx hn hh hb hgood block hblk⟩
        · right; left
          have hbad : HashSHA256Regex (ctx.Query "blockhash") = false := by
            simpa using hgood
          refine ⟨400, _, Or.inl rfl, ?_,
            by rw [HandleGetBlock_hash_invalid rt c sched ctx hn hh hb hbad]⟩
          simp [errorBodies]
    · by_cases hbad : (strconv.Atoi (ctx.Query "height")).2 ≠ none
          ∨ (strconv.Atoi (ctx.Query "height")).1 ≤ 0
      · right; left
        refine ⟨400, _, Or.inl rfl, ?_,
          by rw [HandleGetBlock_height_invalid rt c sched ctx hn hh hbad]⟩
        simp [errorBodies]
      · have hok : (strconv.Atoi (ctx.Query "height")).2 = none := by
          by_contra h0
          exact hbad (Or.inl h0)
        have hpos : 0 < (strconv.Atoi (ctx.Query "height")).1 := by
          by_contra h0
          exact hbad (Or.inr (not_lt.mp h0))
        rcases hblk : c.client.BlockHeight (ctx.Param "id")
          (strconv.Atoi (ctx.Query "height")).1 with ⟨y, oe'⟩
        cases oe' with
        | some e =>
          right; left
          exact ⟨_, _, statusForFailure_mem e, heightFailureBody_mem _,
            HandleGetBlock_height_blockFail_replies rt c sched ctx hn hh hok hpos y e hblk⟩
        | none =>
          cases y with
          | none =>
            left
            simp [HandleGetBlock, GetParamNetwork_accept ctx "id" hn,
              ToLower_supported _ hn, hh, hbad, hblk]
          | some block =>
            right; right
            exact ⟨block, _, _, ⟨hn, Or.inr (Or.inl ⟨hh, hok, hpos, hblk⟩)⟩,
              HandleGetBlock_height_ok rt c sched ctx hn hh hok hpos block hblk⟩
  · right; left
    obtain ⟨e, he⟩ := GetParamNetwork_reject ctx "id" hn
    refine ⟨400, "path param: network 'id' can only be 'btc', 'eth' or 'ltc'", Or.inl rfl,
      by simp [errorBodies], ?_⟩
    simp [HandleGetBlock, he, StatusBadRequest]

/-- Every run of `HandleGetTransaction` ends in one of three ways. -/
theorem HandleGetTransaction_cases (rt : Runtime) (c : Controller) (ctx : gin.Context) :
    (HandleGetTransaction rt c ctx).replies = []
    ∨ (∃ code s, (code = 400 ∨ code = 404 ∨ code = 500) ∧ s ∈ errorBodies
        ∧ (HandleGetTransaction rt c ctx).replies = [⟨code, .text s⟩])
    ∨ (∃ tx, Supported (ctx.Param "id") ∧ HashSHA256Regex (ctx.Param "txhash") = true
        ∧ c.client.Transaction (ctx.Param "id") (ctx.Param "txhash") = (some tx, none)
        ∧ (HandleGetTransaction rt c ctx).replies
          = [⟨200, .transaction (Transaction.Response rt tx)⟩]) := by
  by_cases hn : Supported (ctx.Param "id")
  · by_cases hgood : HashSHA256Regex (ctx.Param "txhash") = true
    · rcases htx : c.client.Transaction (ctx.Param "id") (ctx.Param "txhash") with ⟨y, oe⟩
      cases oe with
      | some e =>
        right; left
        exact ⟨_, _, statusForFailure_mem e, txFailureBody_mem _,
          HandleGetTransaction_fail_replies rt c ctx hn hgood y e htx⟩
      | none =>
        cases y with
        | none =>
          left
          have hne : ctx.Param "txhash" ≠ "" := by
            intro h0
            rw [h0] at hgood
            exact absurd hgood (by decide)
          simp [HandleGetTransaction, GetParamNetwork_accept ctx "id" hn, hne, hgood, htx]
        | some tx =>
          right; right
          refine ⟨tx, hn, hgood, rfl, ?_⟩
          rw [HandleGetTransaction_ok rt c ctx hn hgood tx htx]
    · right; left
      have hbad : HashSHA256Regex (ctx.Param "txhash") = false := by simpa using hgood
      by_cases h0 : ctx.Param "txhash" = ""
      · refine ⟨400, "path param: missing 'txhash'", Or.inl rfl, by simp [errorBodies], ?_⟩
        simp [HandleGetTransaction, GetParamNetwork_accept ctx "id" hn, h0, StatusBadRequest]
      · refine ⟨400, "path param: 'txhash' is not a valid SHA-256 hash", Or.inl rfl,
          by simp [errorBodies], ?_⟩
        simp [HandleGetTransaction, GetParamNetwork_accept ctx "id" hn, h0, hbad,
          StatusBadRequest]
  · right; left
    obtain ⟨e, he⟩ := GetParamNetwork_reject ctx "id" hn
    refine ⟨400, "path param: Network 'id' can only be 'btc', 'eth' or 'ltc'", Or.inl rfl,
      by simp [errorBodies], ?_⟩
    simp [HandleGetTransaction, he, StatusBadRequest]

end controller

/-! ## Order and determinism of the enriched list -/

namespace controller

open sochain

theorem enrich_replies_cases (rt : Runtime) (c : Controller) (sched : Schedule) (lvl : Level)
    (err : Option GoError) (before : List Call) (n : String) (block : Block) :
    (enrich rt c sched lvl err before n block).replies = []
    ∨ ∃ txs : TransactionResponses, (enrich rt c sched lvl err before n block).replies
        = [⟨200, .block { Block.Response rt block with Transactions := txs }⟩] := by
  unfold enrich
  simp only []
  split_ifs
  · exact Or.inl rfl
  · exact Or.inr ⟨_, rfl⟩

/-- The reply of a successful run: the block of the request and a permutation of the
successful lookups. -/
theorem HandleGetBlock_ok_inv (rt : Runtime) (c : Controller) (sched : Schedule)
    (ctx : gin.Context) (b : BlockResponse)
    (h : (HandleGetBlock rt c sched ctx).replies = [⟨200, .block b⟩]) :
    ∃ block, FetchesBlock c ctx block
      ∧ (∀ id ∈ block.Data.Txs.take 10,
          (c.client.Transaction (ctx.Param "id") id).2 = none →
            (c.client.Transaction (ctx.Param "id") id).1 ≠ none)
      ∧ SameBlockFields b (Block.Response rt block)
      ∧ b.Transactions.Perm (Transactions.Response rt
          ((block.Data.Txs.take 10).filterMap (lookupOk c (ctx.Param "id")))) := by
  rcases HandleGetBlock_cases rt c sched ctx with h0 | ⟨code, s, -, -, h1⟩
    | ⟨block, lvl, before, hf, heq⟩
  · rw [h0] at h
    exact absurd h (by simp)
  · rw [h1] at h
    simp at h
  · have hnp : (enrich rt c sched lvl none before (ctx.Param "id") block).panicked ≠ true := by
      intro hp
      have := enrich_replies_of_panicked rt c sched lvl none before (ctx.Param "id") block hp
      rw [heq, this] at h
      exact absurd h (by simp)
    have hwf := wellFormed_of_not_panicked rt c sched lvl before (ctx.Param "id") block hnp
    obtain ⟨txs, hrep, hperm⟩ := enrich_reply rt c sched lvl before (ctx.Param "id") block hwf
    rw [heq, hrep] at h
    simp only [List.cons.injEq, Reply.mk.injEq, Body.block.injEq, and_true, true_and] at h
    subst h
    exact ⟨block, hf, hwf, ⟨rfl, rfl, rfl, rfl, rfl⟩, hperm.map _⟩

/-- C11 on the code: in the case of the handler test, a block that lists the ids `1` and
`2` whose lookups both succeed, the run in which the second goroutine sends first answers
with the transactions in the order `2`, `1`, which is not the order of the block's id list;
the run in which they send in the order started answers `1`, `2`. -/
theorem arrival_order_not_list_order :
    FetchesBlock (NewController fixtures.twoTx) (fixtures.request "btc" [])
      (fixtures.blockOf 1 ["1", "2"])
    ∧ (["1", "2"].map (lookupOk (NewController fixtures.twoTx) "btc")
        = [some (fixtures.tx "1"), some (fixtures.tx "2")])
    ∧ (HandleGetBlock fixtures.rt (NewController fixtures.twoTx) fixtures.secondFirst
        (fixtures.request "btc" [])).replies
        = [⟨200, .block { Block.Response fixtures.rt (fixtures.blockOf 1 ["1", "2"]) with
            Transactions :=
              Transactions.Response fixtures.rt [fixtures.tx "2", fixtures.tx "1"] }⟩]
    ∧ Transactions.Response fixtures.rt [fixtures.tx "2", fixtures.tx "1"]
        ≠ Transactions.Response fixtures.rt [fixtures.tx "1", fixtures.tx "2"]
    ∧ (HandleGetBlock fixtures.rt (NewController fixtures.twoTx) fixtures.inOrder
        (fixtures.request "btc" [])).replies
        = [⟨200, .block { Block.Response fixtures.rt (fixtures.blockOf 1 ["1", "2"]) with
            Transactions :=
              Transactions.Response fixtures.rt [fixtures.tx "1", fixtures.tx "2"] }⟩] :=
  ⟨⟨by decide, Or.inl ⟨by decide, by decide, ⟨{ Data := { Blocks := 1 } }, rfl, rfl⟩⟩⟩,
    by decide, by decide, by decide, by decide⟩

/-- C12 on the code: against one and the same upstream, the one of the handler test (a
block that lists the ids `1` and `2`, both lookups succeed), two runs of the successful
request `?height=1` that differ only in the order in which the goroutines send both answer
200 but with different `transactions` lists: `1`, `2` in the run where they send in the
order started, `2`, `1` in the run where the second sends first. -/
theorem two_runs_differ :
    (HandleGetBlock fixtures.rt (NewController fixtures.twoTx) fixtures.inOrder
        (fixtures.request "btc" [("height", "1")])).replies
      = [⟨200, .block { Block.Response fixtures.rt (fixtures.blockOf 1 ["1", "2"]) with
          Transactions :=
            Transactions.Response fixtures.rt [fixtures.tx "1", fixtures.tx "2"] }⟩]
    ∧ (HandleGetBlock fixtures.rt (NewController fixtures.twoTx) fixtures.secondFirst
        (fixtures.request "btc" [("height", "1")])).replies
      = [⟨200, .block { Block.Response fixtures.rt (fixtures.blockOf 1 ["1", "2"]) with
          Transactions :=
            Transactions.Response fixtures.rt [fixtures.tx "2", fixtures.tx "1"] }⟩]
    ∧ (HandleGetBlock fixtures.rt (NewController fixtures.twoTx) fixtures.inOrder
        (fixtures.request "btc" [("height", "1")])).replies
      ≠ (HandleGetBlock fixtures.rt (NewController fixtures.twoTx) fixtures.secondFirst
        (fixtures.request "btc" [("height", "1")])).replies :=
  ⟨by decide, by decide, by decide⟩

/-- What does not depend on the schedule: if one run of a request to `HandleGetBlock`
answers 200, every other run of the same request against the same upstream answers 200 with
the same block-level fields and with the same transactions in some order; and the reply of
`HandleGetTransaction` is the same against any two upstreams that answer its one lookup
alike. -/
theorem runs_agree_up_to_order (rt : Runtime) (c : Controller) (ctx : gin.Context) :
    (∀ (s₁ s₂ : Schedule) (b₁ : BlockResponse),
      (HandleGetBlock rt c s₁ ctx).replies = [⟨200, .block b₁⟩] →
        ∃ b₂, (HandleGetBlock rt c s₂ ctx).replies = [⟨200, .block b₂⟩]
          ∧ SameBlockFields b₁ b₂ ∧ b₁.Transactions.Perm b₂.Transactions)
    ∧ (∀ c₂ : Controller,
      c.client.Transaction (ctx.Param "id") (ctx.Param "txhash")
        = c₂.client.Transaction (ctx.Param "id") (ctx.Param "txhash") →
        (HandleGetTransaction rt c ctx).replies = (HandleGetTransaction rt c₂ ctx).replies) := by
  constructor
  · intro s₁ s₂ b₁ h
    obtain ⟨block, hf, hwf, hsame, hperm⟩ := HandleGetBlock_ok_inv rt c s₁ ctx b₁ h
    obtain ⟨lvl, before, heq, -⟩ := FetchesBlock_enrich rt c s₂ ctx block hf
    obtain ⟨txs, hrep, hperm₂⟩ := enrich_reply rt c s₂ lvl before (ctx.Param "id") block hwf
    refine ⟨{ Block.Response rt block with Transactions := Transactions.Response rt txs },
      by rw [heq, hrep], ⟨hsame.1, hsame.2.1, hsame.2.2.1, hsame.2.2.2.1, hsame.2.2.2.2⟩, ?_⟩
    exact hperm.trans (hperm₂.map _).symm
  · intro c₂ h
    by_cases hn : Supported (ctx.Param "id")
    · simp only [HandleGetTransaction, GetParamNetwork_accept ctx "id" hn, h]
    · obtain ⟨e, he⟩ := GetParamNetwork_reject ctx "id" hn
      simp only [HandleGetTransaction, he]

theorem runs_agree_up_to_order_witness :
    (HandleGetBlock fixtures.rt (NewController fixtures.twoTx) fixtures.inOrder
        (fixtures.request "btc" [("height", "1")])).replies
      = [⟨200, .block { Block.Response fixtures.rt (fixtures.blockOf 1 ["1", "2"]) with
          Transactions :=
            Transactions.Response fixtures.rt [fixtures.tx "1", fixtures.tx "2"] }⟩]
    ∧ ∃ b₂, (HandleGetBlock fixtures.rt (NewController fixtures.twoTx) fixtures.secondFirst
          (fixtures.request "btc" [("height", "1")])).replies = [⟨200, .block b₂⟩]
        ∧ SameBlockFields { Block.Response fixtures.rt (fixtures.blockOf 1 ["1", "2"]) with
            Transactions :=
              Transactions.Response fixtures.rt [fixtures.tx "1", fixtures.tx "2"] } b₂
        ∧ (Transactions.Response fixtures.rt [fixtures.tx "1", fixtures.tx "2"]).Perm
            b₂.Transactions :=
  ⟨by decide,
    (runs_agree_up_to_order fixtures.rt (NewController fixtures.twoTx)
      (fixtures.request "btc" [("height", "1")])).1 fixtures.inOrder fixtures.secondFirst _
      (by decide)⟩

end controller

/-! ## The response objects -/

namespace controller

open sochain

/-- C13: `Block.Response` copies `BlockNo`, `PreviousBlockhash`, `NextBlockhash` and `Size`
and renders `Time` (seconds since the Unix epoch) with the RFC 3339 layout; and every reply
of `HandleGetBlock` with status 200 carries these five fields of the block that the request
fetched, whatever the outcomes of the transaction lookups and under every schedule. -/
theorem block_fields_of_fetched_block (rt : Runtime) :
    (∀ b : Block,
      (Block.Response rt b).Blocknumber = b.Data.BlockNo
      ∧ (Block.Response rt b).PreviousHash = b.Data.PreviousBlockhash
      ∧ (Block.Response rt b).NextHash = b.Data.NextBlockhash
      ∧ (Block.Response rt b).Size = b.Data.Size
      ∧ (Block.Response rt b).Timestamp = rt.formatRFC3339 b.Data.Time)
    ∧ (∀ (c : Controller) (sched : Schedule) (ctx : gin.Context) (r : Reply),
      r ∈ (HandleGetBlock rt c sched ctx).replies → r.code = 200 →
        ∃ block resp, FetchesBlock c ctx block ∧ r.obj = .block resp
          ∧ resp.Blocknumber = block.Data.BlockNo
          ∧ resp.PreviousHash = block.Data.PreviousBlockhash
          ∧ resp.NextHash = block.Data.NextBlockhash
          ∧ resp.Size = block.Data.Size
          ∧ resp.Timestamp = rt.formatRFC3339 block.Data.Time) := by
  refine ⟨fun b => ⟨rfl, rfl, rfl, rfl, rfl⟩, ?_⟩
  intro c sched ctx r hr hcode
  rcases HandleGetBlock_cases rt c sched ctx with h0 | ⟨code, s, hc, -, h1⟩
    | ⟨block, lvl, before, hf, heq⟩
  · rw [h0] at hr
    exact absurd hr (by simp)
  · rw [h1, List.mem_singleton] at hr
    subst hr
    simp only at hcode
    rcases hc with hc | hc | hc <;> rw [hc] at hcode <;> exact absurd hcode (by decide)
  · rcases enrich_replies_cases rt c sched lvl none before (ctx.Param "id") block with h0
      | ⟨txs, h1⟩
    · rw [heq, h0] at hr
      exact absurd hr (by simp)
    · rw [heq, h1, List.mem_singleton] at hr
      subst hr
      exact ⟨block, _, hf, rfl, rfl, rfl, rfl, rfl, rfl⟩

theorem block_fields_of_fetched_block_witness :
    (⟨200, .block { Block.Response fixtures.rt (fixtures.blockOf 1 ["1", "2", "3", "4"]) with
        Transactions := Transactions.Response fixtures.rt [fixtures.tx "1", fixtures.tx "2"] }⟩
      : Reply) ∈ (HandleGetBlock fixtures.rt fixtures.ctl fixtures.inOrder
          (fixtures.request "btc" [("height", "1")])).replies
    ∧ ∃ block resp, FetchesBlock fixtures.ctl (fixtures.request "btc" [("height", "1")]) block
        ∧ Body.block { Block.Response fixtures.rt (fixtures.blockOf 1 ["1", "2", "3", "4"]) with
            Transactions :=
              Transactions.Response fixtures.rt [fixtures.tx "1", fixtures.tx "2"] }
          = .block resp
        ∧ resp.Blocknumber = block.Data.BlockNo
        ∧ resp.PreviousHash = block.Data.PreviousBlockhash
        ∧ resp.NextHash = block.Data.NextBlockhash
        ∧ resp.Size = block.Data.Size
        ∧ resp.Timestamp = fixtures.rt.formatRFC3339 block.Data.Time :=
  ⟨by decide,
    (block_fields_of_fetched_block fixtures.rt).2 fixtures.ctl fixtures.inOrder
      (fixtures.request "btc" [("height", "1")])
      ⟨200, .block { Block.Response fixtures.rt (fixtures.blockOf 1 ["1", "2", "3", "4"]) with
        Transactions := Transactions.Response fixtures.rt [fixtures.tx "1", fixtures.tx "2"] }⟩
      (by decide) rfl⟩

/-- C14: `Transaction.Response` returns `Txid`, `Fee` and `SentValue` as the very strings
of the transaction, and a validated request to `HandleGetTransaction` whose lookup succeeds
with `t` is answered with status 200 and exactly `t.Response()`, after that one lookup. -/
theorem transaction_response_verbatim (rt : Runtime) (t : Transaction) :
    ((Transaction.Response rt t).TxID = t.Data.Txid
      ∧ (Transaction.Response rt t).Fee = t.Data.Fee
      ∧ (Transaction.Response rt t).Value = t.Data.SentValue)
    ∧ (∀ (c : Controller) (ctx : gin.Context),
      Supported (ctx.Param "id") → HashSHA256Regex (ctx.Param "txhash") = true →
      c.client.Transaction (ctx.Param "id") (ctx.Param "txhash") = (some t, none) →
        (HandleGetTransaction rt c ctx).replies
            = [⟨200, .transaction (Transaction.Response rt t)⟩]
          ∧ (HandleGetTransaction rt c ctx).calls
            = [.Transaction (ctx.Param "id") (ctx.Param "txhash")]) := by
  refine ⟨⟨rfl, rfl, rfl⟩, fun c ctx hn hgood htx => ?_⟩
  rw [HandleGetTransaction_ok rt c ctx hn hgood t htx]
  exact ⟨rfl, rfl⟩

theorem transaction_response_verbatim_witness :
    Supported ((fixtures.txRequest "doge" fixtures.otherHash).Param "id")
    ∧ HashSHA256Regex ((fixtures.txRequest "doge" fixtures.otherHash).Param "txhash") = true
    ∧ fixtures.ctl.client.Transaction "doge" fixtures.otherHash
        = (some (fixtures.tx fixtures.otherHash), none)
    ∧ (HandleGetTransaction fixtures.rt fixtures.ctl
          (fixtures.txRequest "doge" fixtures.otherHash)).replies
        = [⟨200, .transaction (Transaction.Response fixtures.rt
            (fixtures.tx fixtures.otherHash))⟩]
    ∧ (HandleGetTransaction fixtures.rt fixtures.ctl
          (fixtures.txRequest "doge" fixtures.otherHash)).calls
        = [.Transaction "doge" fixtures.otherHash] :=
  ⟨by decide, by decide, by decide,
    (transaction_response_verbatim fixtures.rt (fixtures.tx fixtures.otherHash)).2
      fixtures.ctl (fixtures.txRequest "doge" fixtures.otherHash) (by decide) (by decide)
      (by decide)⟩

end controller

/-! ## Bodies that cannot be decoded -/

namespace sochain

theorem NetworkInfo_decode_failure (c : Sochain) (networkID : String) (resp : HttpResponse)
    (body msg : String)
    (hreq : c.Client.NewRequest "GET" (apiURL ++ "/get_info/" ++ networkID) = none)
    (hdo : c.Client.Do ⟨"GET", apiURL ++ "/get_info/" ++ networkID⟩ = .ok resp)
    (hs : resp.StatusCode = 200) (hb : resp.Body = .ok body)
    (hu : c.Client.UnmarshalNetworkInfo body = .error msg) :
    (c.NetworkInfo networkID).pair = (none, some (.errorString msg)) := by
  simp [Sochain.NetworkInfo, ClientResult.pair, hreq, hdo, hs, hb, hu]

theorem BlockHeight_decode_failure (c : Sochain) (networkID : String) (height : Int)
    (resp : HttpResponse) (body msg : String)
    (hget : c.Client.Get (apiURL ++ "/get_block/" ++ networkID ++ "/" ++ toString height)
      = .ok resp)
    (hs : resp.StatusCode = 200) (hb : resp.Body = .ok body)
    (hu : c.Client.UnmarshalBlock body = .error msg) :
    (c.BlockHeight networkID height).pair = (none, some (.errorString msg)) := by
  simp [Sochain.BlockHeight, ClientResult.pair, hget, hs, hb, hu]

theorem BlockHash_decode_failure (c : Sochain) (networkID blockHash : String)
    (resp : HttpResponse) (body msg : String)
    (hget : c.Client.Get (apiURL ++ "/get_block/" ++ networkID ++ "/" ++ blockHash) = .ok resp)
    (hs : resp.StatusCode = 200) (hb : resp.Body = .ok body)
    (hu : c.Client.UnmarshalBlock body = .error msg) :
    (c.BlockHash networkID blockHash).pair = (none, some (.errorString msg)) := by
  simp [Sochain.BlockHash, ClientResult.pair, hget, hs, hb, hu]

theorem Transaction_decode_failure (c : Sochain) (networkID txHash : String)
    (resp : HttpResponse) (body msg : String)
    (hget : c.Client.Get (apiURL ++ "/tx/" ++ networkID ++ "/" ++ txHash) = .ok resp)
    (hs : resp.StatusCode = 200) (hb : resp.Body = .ok body)
    (hu : c.Client.UnmarshalTransaction body = .error msg) :
    (c.Transaction networkID txHash).pair = (none, some (.errorString msg)) := by
  simp [Sochain.Transaction, ClientResult.pair, hget, hs, hb, hu]

end sochain

namespace controller

open sochain

/-- C15, as stated, fails in its last part: when the upstream answers `get_info` with status
200 and a body that cannot be decoded, `NetworkInfo` returns a nil result and an error
without a status code, and `HandleGetBlock` answers 400 with the missing-parameter message,
not an internal failure. -/
theorem undecodable_networkinfo_counterexample :
    (fixtures.netStatus 200).Do ⟨"GET", apiURL ++ "/get_info/btc"⟩ = .ok ⟨200, .ok ""⟩
    ∧ (fixtures.netStatus 200).UnmarshalNetworkInfo "" = .error "unexpected end of JSON input"
    ∧ (NewSochain (fixtures.netStatus 200)).NetworkInfo "btc"
        = (none, some (.errorString "unexpected end of JSON input"))
    ∧ (HandleGetBlock fixtures.rt (NewController (NewSochain (fixtures.netStatus 200)))
        fixtures.inOrder (fixtures.request "btc" [])).replies
        = [⟨400, .text "one of query params 'height' or 'blockhash' is mandatory"⟩] :=
  ⟨rfl, rfl, by decide, by decide⟩

/-- C15, amended: when the upstream answers with status 200 and a body that cannot be
decoded, each of the four client operations returns a nil result and an error that is not
a `ClientError` and carries no status code; a handler answers 500 when the block lookup or
the transaction lookup of its request failed with such an error, and `HandleGetBlock`
answers 400 when `NetworkInfo` did. -/
theorem undecodable_body_has_no_status (c : Sochain) (networkID : String)
    (resp : HttpResponse) (body msg : String)
    (hs : resp.StatusCode = 200) (hb : resp.Body = .ok body) :
    (c.Client.NewRequest "GET" (apiURL ++ "/get_info/" ++ networkID) = none →
      c.Client.Do ⟨"GET", apiURL ++ "/get_info/" ++ networkID⟩ = .ok resp →
      c.Client.UnmarshalNetworkInfo body = .error msg →
        (c.NetworkInfo networkID).pair = (none, some (.errorString msg)))
    ∧ (∀ height : Int,
      c.Client.Get (apiURL ++ "/get_block/" ++ networkID ++ "/" ++ toString height) = .ok resp →
      c.Client.UnmarshalBlock body = .error msg →
        (c.BlockHeight networkID height).pair = (none, some (.errorString msg)))
    ∧ (∀ blockHash : String,
      c.Client.Get (apiURL ++ "/get_block/" ++ networkID ++ "/" ++ blockHash) = .ok resp →
      c.Client.UnmarshalBlock body = .error msg →
        (c.BlockHash networkID blockHash).pair = (none, some (.errorString msg)))
    ∧ (∀ txHash : String,
      c.Client.Get (apiURL ++ "/tx/" ++ networkID ++ "/" ++ txHash) = .ok resp →
      c.Client.UnmarshalTransaction body = .error msg →
        (c.Transaction networkID txHash).pair = (none, some (.errorString msg)))
    ∧ (carriedCode (some (GoError.errorString msg)) = none
      ∧ assertClientError (some (GoError.errorString msg)) = none)
    ∧ (∀ (rt : Runtime) (ctl : Controller) (sched : Schedule) (ctx : gin.Context),
      (BlockLookupFails ctl ctx (.errorString msg) →
        (HandleGetBlock rt ctl sched ctx).replies.map Reply.code = [500])
      ∧ (TxLookupFails ctl ctx (.errorString msg) →
        (HandleGetTransaction rt ctl ctx).replies.map Reply.code = [500])
      ∧ (Supported (ctx.Param "id") → ctx.Query "height" = "" → ctx.Query "blockhash" = "" →
        ctl.client.NetworkInfo (ctx.Param "id") = (none, some (.errorString msg)) →
          (HandleGetBlock rt ctl sched ctx).replies.map Reply.code = [400])) := by
  refine ⟨fun hreq hdo hu => NetworkInfo_decode_failure c networkID resp body msg hreq hdo hs hb hu,
    fun height hget hu => BlockHeight_decode_failure c networkID height resp body msg hget hs hb hu,
    fun blockHash hget hu =>
      BlockHash_decode_failure c networkID blockHash resp body msg hget hs hb hu,
    fun txHash hget hu => Transaction_decode_failure c networkID txHash resp body msg hget hs hb hu,
    ⟨rfl, rfl⟩, fun rt ctl sched ctx => ⟨fun h => ?_, fun h => ?_, fun hn hh hbq hi => ?_⟩⟩
  · exact (BlockLookupFails_status rt ctl sched ctx _ h).1
  · exact (TxLookupFails_status rt ctl ctx _ h).1
  · rw [HandleGetBlock_latest_infoFail rt ctl sched ctx hn hh hbq none _ hi]
    rfl

theorem undecodable_body_has_no_status_witness :
    (fixtures.netStatus 200).Get (apiURL ++ "/get_block/" ++ "btc" ++ "/" ++ toString (1 : Int))
        = .ok ⟨200, .ok ""⟩
    ∧ (fixtures.netStatus 200).UnmarshalBlock "" = .error "unexpected end of JSON input"
    ∧ ((fixtures.client (fixtures.netStatus 200)).BlockHeight "btc" 1).pair
        = (none, some (.errorString "unexpected end of JSON input"))
    ∧ BlockLookupFails (NewController (NewSochain (fixtures.netStatus 200)))
        (fixtures.request "btc" [("height", "1")]) (.errorString "unexpected end of JSON input")
    ∧ (HandleGetBlock fixtures.rt (NewController (NewSochain (fixtures.netStatus 200)))
        fixtures.inOrder (fixtures.request "btc" [("height", "1")])).replies.map Reply.code
        = [500] :=
  ⟨rfl, rfl,
    (undecodable_body_has_no_status (fixtures.client (fixtures.netStatus 200)) "btc"
      ⟨200, .ok ""⟩ "" "unexpected end of JSON input" rfl rfl).2.1 1 rfl rfl,
    ⟨by decide, Or.inr (Or.inl ⟨by decide, by decide, by decide, none, by decide⟩)⟩,
    ((undecodable_body_has_no_status (fixtures.client (fixtures.netStatus 200)) "btc"
      ⟨200, .ok ""⟩ "" "unexpected end of JSON input" rfl rfl).2.2.2.2.2 fixtures.rt
      (NewController (NewSochain (fixtures.netStatus 200))) fixtures.inOrder
      (fixtures.request "btc" [("height", "1")])).1
      ⟨by decide, Or.inr (Or.inl ⟨by decide, by decide, by decide, none, by decide⟩)⟩⟩

end controller
/-! ## The requests of the client -/

namespace sochain

theorem NetworkInfo_asked_sent (c : Sochain) (networkID : String) :
    (c.NetworkInfo networkID).asked
      = LibCall.NewRequest "GET" (apiURL ++ "/get_info/" ++ networkID)
        :: (if c.Client.NewRequest "GET" (apiURL ++ "/get_info/" ++ networkID) = none then
              [LibCall.Do ⟨"GET", apiURL ++ "/get_info/" ++ networkID⟩]
            else [])
    ∧ (c.NetworkInfo networkID).sent
      = if c.Client.NewRequest "GET" (apiURL ++ "/get_info/" ++ networkID) = none then
          c.Client.SentByDo ⟨"GET", apiURL ++ "/get_info/" ++ networkID⟩
        else [] := by
  unfold Sochain.NetworkInfo
  simp only []
  cases c.Client.NewRequest "GET" (apiURL ++ "/get_info/" ++ networkID) with
  | some msg => simp
  | none =>
    simp only [if_true]
    cases c.Client.Do ⟨"GET", apiURL ++ "/get_info/" ++ networkID⟩ with
    | error msg => exact ⟨rfl, rfl⟩
    | ok resp =>
      simp only []
      split_ifs
      · exact ⟨rfl, rfl⟩
      · cases resp.Body with
        | error msg => exact ⟨rfl, rfl⟩
        | ok body =>
          simp only []
          cases c.Client.UnmarshalNetworkInfo body <;> exact ⟨rfl, rfl⟩

theorem BlockHeight_asked_sent (c : Sochain) (networkID : String) (height : Int) :
    (c.BlockHeight networkID height).asked
      = [LibCall.Get (apiURL ++ "/get_block/" ++ networkID ++ "/" ++ toString height)]
    ∧ (c.BlockHeight networkID height).sent
      = c.Client.SentByGet (apiURL ++ "/get_block/" ++ networkID ++ "/" ++ toString height) := by
  unfold Sochain.BlockHeight
  simp only []
  cases c.Client.Get (apiURL ++ "/get_block/" ++ networkID ++ "/" ++ toString height) with
  | error msg => exact ⟨rfl, rfl⟩
  | ok resp =>
    simp only []
    split_ifs
    · exact ⟨rfl, rfl⟩
    · cases resp.Body with
      | error msg => exact ⟨rfl, rfl⟩
      | ok body =>
        simp only []
        cases c.Client.UnmarshalBlock body <;> exact ⟨rfl, rfl⟩

theorem BlockHash_asked_sent (c : Sochain) (networkID blockHash : String) :
    (c.BlockHash networkID blockHash).asked
      = [LibCall.Get (apiURL ++ "/get_block/" ++ networkID ++ "/" ++ blockHash)]
    ∧ (c.BlockHash networkID blockHash).sent
      = c.Client.SentByGet (apiURL ++ "/get_block/" ++ networkID ++ "/" ++ blockHash) := by
  unfold Sochain.BlockHash
  simp only []
  cases c.Client.Get (apiURL ++ "/get_block/" ++ networkID ++ "/" ++ blockHash) with
  | error msg => exact ⟨rfl, rfl⟩
  | ok resp =>
    simp only []
    split_ifs
    · exact ⟨rfl, rfl⟩
    · cases resp.Body with
      | error msg => exact ⟨rfl, rfl⟩
      | ok body =>
        simp only []
        cases c.Client.UnmarshalBlock body <;> exact ⟨rfl, rfl⟩

theorem Transaction_asked_sent (c : Sochain) (networkID txHash : String) :
    (c.Transaction networkID txHash).asked
      = [LibCall.Get (apiURL ++ "/tx/" ++ networkID ++ "/" ++ txHash)]
    ∧ (c.Transaction networkID txHash).sent
      = c.Client.SentByGet (apiURL ++ "/tx/" ++ networkID ++ "/" ++ txHash) := by
  unfold Sochain.Transaction
  simp only []
  cases c.Client.Get (apiURL ++ "/tx/" ++ networkID ++ "/" ++ txHash) with
  | error msg => exact ⟨rfl, rfl⟩
  | ok resp =>
    simp only []
    split_ifs
    · exact ⟨rfl, rfl⟩
    · cases resp.Body with
      | error msg => exact ⟨rfl, rfl⟩
      | ok body =>
        simp only []
        cases c.Client.UnmarshalTransaction body <;> exact ⟨rfl, rfl⟩

/-- C16, as stated, fails, and in the same way for every operation: how many GET requests
go out during an operation is decided by `net/http`, not by the client.  On a network where
the library rejects the URLs with the invalid escape `%zz`, `NetworkInfo("%zz")`,
`BlockHash("btc", "%zz")` and `Transaction("btc", "%zz")` return the library's error and no
request is sent; on a network where the upstream redirects once, `NetworkInfo("btc")` and
`BlockHeight("btc", 1)` each send two GET requests, the second to another URL. -/
theorem requests_on_the_wire_counterexample :
    (((fixtures.client fixtures.netStrict).NetworkInfo "%zz").sent = []
      ∧ ((fixtures.client fixtures.netStrict).NetworkInfo "%zz").pair
          = (none, some (.errorString "invalid URL escape %zz")))
    ∧ (((fixtures.client fixtures.netStrict).BlockHash "btc" "%zz").sent = []
      ∧ ((fixtures.client fixtures.netStrict).BlockHash "btc" "%zz").pair
          = (none, some (.errorString "invalid URL escape %zz")))
    ∧ (((fixtures.client fixtures.netStrict).Transaction "btc" "%zz").sent = []
      ∧ ((fixtures.client fixtures.netStrict).Transaction "btc" "%zz").pair
          = (none, some (.errorString "invalid URL escape %zz")))
    ∧ ((fixtures.client fixtures.netRedirect).NetworkInfo "btc").sent
        = [⟨"GET", "https://sochain.com/api/v2/get_info/btc"⟩, ⟨"GET", "https://chain.so/"⟩]
    ∧ ((fixtures.client fixtures.netRedirect).BlockHeight "btc" 1).sent
        = [⟨"GET", "https://sochain.com/api/v2/get_block/btc/1"⟩, ⟨"GET", "https://chain.so/"⟩] :=
  ⟨⟨by decide, by decide⟩, ⟨by decide, by decide⟩, ⟨by decide, by decide⟩, by decide,
    by decide⟩

/-- C16, amended: for all arguments and on every network, each client operation asks
`net/http` once for the URL formed from the fixed base `https://sochain.com/api/v2`, with
the method GET, and never a second time: `BlockHeight`, `BlockHash` and `Transaction` make
the one call `http.Get(url)` with `/get_block/n/decimal(h)`, `/get_block/n/x` and
`/tx/n/x`; `NetworkInfo` calls `http.NewRequest("GET", url, nil)` with `/get_info/n` and,
when that succeeds, makes the one call `Client.Do` with that request.  The requests on the
wire are those the library sends for that one call, and none when `http.NewRequest` has
failed.  `BlockHeight(n, h)` and `BlockHash(n, decimal(h))` ask for the same URL. -/
theorem one_library_call_per_operation (c : Sochain) (n x : String) (h : Int) :
    apiURL = "https://sochain.com/api/v2"
    ∧ ((c.BlockHeight n h).asked
          = [LibCall.Get (apiURL ++ "/get_block/" ++ n ++ "/" ++ toString h)]
      ∧ (c.BlockHeight n h).sent
          = c.Client.SentByGet (apiURL ++ "/get_block/" ++ n ++ "/" ++ toString h))
    ∧ ((c.BlockHash n x).asked = [LibCall.Get (apiURL ++ "/get_block/" ++ n ++ "/" ++ x)]
      ∧ (c.BlockHash n x).sent = c.Client.SentByGet (apiURL ++ "/get_block/" ++ n ++ "/" ++ x))
    ∧ ((c.Transaction n x).asked = [LibCall.Get (apiURL ++ "/tx/" ++ n ++ "/" ++ x)]
      ∧ (c.Transaction n x).sent = c.Client.SentByGet (apiURL ++ "/tx/" ++ n ++ "/" ++ x))
    ∧ (c.Client.NewRequest "GET" (apiURL ++ "/get_info/" ++ n) = none →
        (c.NetworkInfo n).asked
          = [LibCall.NewRequest "GET" (apiURL ++ "/get_info/" ++ n),
              LibCall.Do ⟨"GET", apiURL ++ "/get_info/" ++ n⟩]
        ∧ (c.NetworkInfo n).sent = c.Client.SentByDo ⟨"GET", apiURL ++ "/get_info/" ++ n⟩)
    ∧ (c.Client.NewRequest "GET" (apiURL ++ "/get_info/" ++ n) ≠ none →
        (c.NetworkInfo n).asked = [LibCall.NewRequest "GET" (apiURL ++ "/get_info/" ++ n)]
        ∧ (c.NetworkInfo n).sent = [])
    ∧ (c.BlockHeight n h).asked = (c.BlockHash n (toString h)).asked
    ∧ (c.BlockHeight n h).sent = (c.BlockHash n (toString h)).sent := by
  refine ⟨rfl, BlockHeight_asked_sent c n h, BlockHash_asked_sent c n x,
    Transaction_asked_sent c n x, ?_, ?_, ?_, ?_⟩
  · intro hreq
    have := NetworkInfo_asked_sent c n
    rw [if_pos hreq, if_pos hreq] at this
    exact this
  · intro hreq
    have := NetworkInfo_asked_sent c n
    rw [if_neg hreq, if_neg hreq] at this
    exact this
  · rw [(BlockHeight_asked_sent c n h).1, (BlockHash_asked_sent c n (toString h)).1]
  · rw [(BlockHeight_asked_sent c n h).2, (BlockHash_asked_sent c n (toString h)).2]

theorem one_library_call_per_operation_witness :
    (fixtures.netStrict.NewRequest "GET" (apiURL ++ "/get_info/" ++ "btc") = none
      ∧ ((fixtures.client fixtures.netStrict).NetworkInfo "btc").asked
          = [LibCall.NewRequest "GET" (apiURL ++ "/get_info/" ++ "btc"),
              LibCall.Do ⟨"GET", apiURL ++ "/get_info/" ++ "btc"⟩]
      ∧ ((fixtures.client fixtures.netStrict).NetworkInfo "btc").sent
          = (fixtures.client fixtures.netStrict).Client.SentByDo
              ⟨"GET", apiURL ++ "/get_info/" ++ "btc"⟩)
    ∧ (fixtures.netStrict.NewRequest "GET" (apiURL ++ "/get_info/" ++ "%zz") ≠ none
      ∧ ((fixtures.client fixtures.netStrict).NetworkInfo "%zz").asked
          = [LibCall.NewRequest "GET" (apiURL ++ "/get_info/" ++ "%zz")]
      ∧ ((fixtures.client fixtures.netStrict).NetworkInfo "%zz").sent = [])
    ∧ ((fixtures.client fixtures.netStrict).BlockHeight "btc" 200000).asked
        = ((fixtures.client fixtures.netStrict).BlockHash "btc" (toString (200000 : Int))).asked :=
  ⟨⟨by decide,
      (one_library_call_per_operation (fixtures.client fixtures.netStrict) "btc" ""
        200000).2.2.2.2.1 (by decide)⟩,
    ⟨by decide,
      (one_library_call_per_operation (fixtures.client fixtures.netStrict) "%zz" ""
        200000).2.2.2.2.2.1 (by decide)⟩,
    (one_library_call_per_operation (fixtures.client fixtures.netStrict) "btc" ""
      200000).2.2.2.2.2.2.1⟩

end sochain

/-! ## Error replies and the network identifiers -/

namespace controller

open sochain

theorem BlockLookupFails_replies (rt : Runtime) (c : Controller) (sched : Schedule)
    (ctx : gin.Context) (e : GoError) (h : BlockLookupFails c ctx e) :
    (HandleGetBlock rt c sched ctx).replies
      = [⟨statusForFailure e, .text (blockFailureBody ctx (statusForFailure e))⟩] := by
  obtain ⟨hn, hmode⟩ := h
  rcases hmode with ⟨hh, hb, info, x, hi, hblk⟩ | ⟨hh, hok, hpos, x, hblk⟩
    | ⟨hh, hb, hgood, x, hblk⟩
  · rw [HandleGetBlock_latest_blockFail_replies rt c sched ctx hn hh hb info hi x e hblk]
    simp [blockFailureBody, hh, hb]
  · rw [HandleGetBlock_height_blockFail_replies rt c sched ctx hn hh hok hpos x e hblk]
    simp [blockFailureBody, hh]
  · rw [HandleGetBlock_hash_blockFail_replies rt c sched ctx hn hh hb hgood x e hblk]
    simp [blockFailureBody, hh, hb]

theorem TxLookupFails_replies (rt : Runtime) (c : Controller)
    (ctx : gin.Context) (e : GoError) (h : TxLookupFails c ctx e) :
    (HandleGetTransaction rt c ctx).replies
      = [⟨statusForFailure e, .text (txFailureBody (statusForFailure e))⟩] := by
  obtain ⟨hn, hgood, x, htx⟩ := h
  exact HandleGetTransaction_fail_replies rt c ctx hn hgood x e htx

/-- The error replies are constants: for one request, two failed lookups of the same
operation whose errors have the same `statusForFailure` are answered with the identical
status and body by `HandleGetBlock` and by `HandleGetTransaction`, as are any two failures
of `NetworkInfo`; and the body of every reply whose status is not 200 is one of the sixteen
string literals of `errorBodies`. -/
theorem error_replies_are_constant (rt : Runtime) (ctx : gin.Context) :
    (∀ (c₁ c₂ : Controller) (s₁ s₂ : Schedule) (e₁ e₂ : GoError),
      BlockLookupFails c₁ ctx e₁ → BlockLookupFails c₂ ctx e₂ →
      statusForFailure e₁ = statusForFailure e₂ →
        (HandleGetBlock rt c₁ s₁ ctx).replies = (HandleGetBlock rt c₂ s₂ ctx).replies)
    ∧ (∀ (c₁ c₂ : Controller) (s₁ s₂ : Schedule) (x₁ x₂ : Option NetworkInfo) (e₁ e₂ : GoError),
      Supported (ctx.Param "id") → ctx.Query "height" = "" → ctx.Query "blockhash" = "" →
      c₁.client.NetworkInfo (ctx.Param "id") = (x₁, some e₁) →
      c₂.client.NetworkInfo (ctx.Param "id") = (x₂, some e₂) →
        (HandleGetBlock rt c₁ s₁ ctx).replies = (HandleGetBlock rt c₂ s₂ ctx).replies)
    ∧ (∀ (c₁ c₂ : Controller) (e₁ e₂ : GoError),
      TxLookupFails c₁ ctx e₁ → TxLookupFails c₂ ctx e₂ →
      statusForFailure e₁ = statusForFailure e₂ →
        (HandleGetTransaction rt c₁ ctx).replies = (HandleGetTransaction rt c₂ ctx).replies)
    ∧ (∀ (c : Controller) (s : Schedule) (r : Reply),
      r ∈ (HandleGetBlock rt c s ctx).replies → r.code ≠ 200 →
        ∃ msg ∈ errorBodies, r.obj = .text msg)
    ∧ (∀ (c : Controller) (r : Reply),
      r ∈ (HandleGetTransaction rt c ctx).replies → r.code ≠ 200 →
        ∃ msg ∈ errorBodies, r.obj = .text msg) := by
  refine ⟨?_, ?_, ?_, ?_, ?_⟩
  · intro c₁ c₂ s₁ s₂ e₁ e₂ h₁ h₂ hcl
    rw [BlockLookupFails_replies rt c₁ s₁ ctx e₁ h₁, BlockLookupFails_replies rt c₂ s₂ ctx e₂ h₂,
      hcl]
  · intro c₁ c₂ s₁ s₂ x₁ x₂ e₁ e₂ hn hh hb h₁ h₂
    rw [HandleGetBlock_latest_infoFail rt c₁ s₁ ctx hn hh hb x₁ e₁ h₁,
      HandleGetBlock_latest_infoFail rt c₂ s₂ ctx hn hh hb x₂ e₂ h₂]
  · intro c₁ c₂ e₁ e₂ h₁ h₂ hcl
    rw [TxLookupFails_replies rt c₁ ctx e₁ h₁, TxLookupFails_replies rt c₂ ctx e₂ h₂, hcl]
  · intro c s r hr hcode
    rcases HandleGetBlock_cases rt c s ctx with h0 | ⟨code, msg, -, hmem, h1⟩
      | ⟨block, lvl, before, -, heq⟩
    · rw [h0] at hr
      exact absurd hr (by simp)
    · rw [h1, List.mem_singleton] at hr
      subst hr
      exact ⟨msg, hmem, rfl⟩
    · rcases enrich_replies_cases rt c s lvl none before (ctx.Param "id") block with h0
        | ⟨txs, h1⟩
      · rw [heq, h0] at hr
        exact absurd hr (by simp)
      · rw [heq, h1, List.mem_singleton] at hr
        subst hr
        exact absurd rfl hcode
  · intro c r hr hcode
    rcases HandleGetTransaction_cases rt c ctx with h0 | ⟨code, msg, -, hmem, h1⟩
      | ⟨tx, -, -, -, h1⟩
    · rw [h0] at hr
      exact absurd hr (by simp)
    · rw [h1, List.mem_singleton] at hr
      subst hr
      exact ⟨msg, hmem, rfl⟩
    · rw [h1, List.mem_singleton] at hr
      subst hr
      exact absurd rfl hcode

theorem error_replies_are_constant_witness :
    BlockLookupFails fixtures.ctl (fixtures.request "btc" [("height", "3")])
        (.errorString "some")
    ∧ BlockLookupFails
        (NewController { fixtures.upstream with
          BlockHeight := fun _ _ =>
            (none, some (.ClientError (.errorString "upstream said: teapot") 418)) })
        (fixtures.request "btc" [("height", "3")])
        (.ClientError (.errorString "upstream said: teapot") 418)
    ∧ (HandleGetBlock fixtures.rt fixtures.ctl fixtures.inOrder
        (fixtures.request "btc" [("height", "3")])).replies
      = (HandleGetBlock fixtures.rt
          (NewController { fixtures.upstream with
            BlockHeight := fun _ _ =>
              (none, some (.ClientError (.errorString "upstream said: teapot") 418)) })
          fixtures.secondFirst (fixtures.request "btc" [("height", "3")])).replies :=
  ⟨⟨by decide, Or.inr (Or.inl ⟨by decide, by decide, by decide, none, by decide⟩)⟩,
    ⟨by decide, Or.inr (Or.inl ⟨by decide, by decide, by decide, none, by decide⟩)⟩,
    (error_replies_are_constant fixtures.rt (fixtures.request "btc" [("height", "3")])).1
      fixtures.ctl _ fixtures.inOrder fixtures.secondFirst (.errorString "some")
      (.ClientError (.errorString "upstream said: teapot") 418)
      ⟨by decide, Or.inr (Or.inl ⟨by decide, by decide, by decide, none, by decide⟩)⟩
      ⟨by decide, Or.inr (Or.inl ⟨by decide, by decide, by decide, none, by decide⟩)⟩
      (by decide)⟩

/-- C17 on the code: two failures of the same operation that both carry the status 404 are
answered with different statuses and bodies when one is a `ClientError` value, as the
handler tests build it, and the other the pointer that `NewClientErr` and the client of
`NewSochain` return.  For the request `?height=2` the first is answered 404 with the
not-found text, the second 500 with the internal-error text, also when both errors wrap the
same message; likewise for the transaction lookup. -/
theorem same_status_different_replies :
    (carriedCode (fixtures.upstream.BlockHeight "btc" 2).2 = some 404
      ∧ carriedCode ((NewSochain (fixtures.netStatus 404)).BlockHeight "btc" 2).2 = some 404
      ∧ (HandleGetBlock fixtures.rt fixtures.ctl fixtures.inOrder
          (fixtures.request "btc" [("height", "2")])).replies
          = [⟨404, .text "unable to find block for given height"⟩]
      ∧ (HandleGetBlock fixtures.rt (NewController (NewSochain (fixtures.netStatus 404)))
          fixtures.inOrder (fixtures.request "btc" [("height", "2")])).replies
          = [⟨500, .text "unable to fetch block for given height"⟩])
    ∧ (carriedCode (some (GoError.ClientError (.errorString "some") 404)) = some 404
      ∧ carriedCode (some (NewClientErr (.errorString "some") 404)) = some 404
      ∧ (HandleGetBlock fixtures.rt
          (NewController { fixtures.upstream with
            BlockHeight := fun _ _ => (none, some (.ClientError (.errorString "some") 404)) })
          fixtures.inOrder (fixtures.request "btc" [("height", "2")])).replies
          = [⟨404, .text "unable to find block for given height"⟩]
      ∧ (HandleGetBlock fixtures.rt
          (NewController { fixtures.upstream with
            BlockHeight := fun _ _ => (none, some (NewClientErr (.errorString "some") 404)) })
          fixtures.inOrder (fixtures.request "btc" [("height", "2")])).replies
          = [⟨500, .text "unable to fetch block for given height"⟩])
    ∧ (carriedCode (fixtures.upstream.Transaction "btc" fixtures.goodHash).2 = some 404
      ∧ carriedCode ((NewSochain (fixtures.netStatus 404)).Transaction "btc"
          fixtures.goodHash).2 = some 404
      ∧ (HandleGetTransaction fixtures.rt fixtures.ctl
          (fixtures.txRequest "btc" fixtures.goodHash)).replies
          = [⟨404, .text "unable to find tx for given hash"⟩]
      ∧ (HandleGetTransaction fixtures.rt (NewController (NewSochain (fixtures.netStatus 404)))
          (fixtures.txRequest "btc" fixtures.goodHash)).replies
          = [⟨500, .text "unable to fetch transaction"⟩]) :=
  ⟨⟨by decide, by decide, by decide, by decide⟩,
    ⟨by decide, by decide, by decide, by decide⟩,
    ⟨by decide, by decide, by decide, by decide⟩⟩

end controller

namespace util

open sochain controller

/-- C19, as stated, fails: `GetParamNetwork` rejects the id `eth`, which the 400 message
names, and accepts the id `doge`, which the message does not name. -/
theorem eth_rejected_doge_accepted_counterexample :
    (GetParamNetwork (fixtures.request "eth" []) "id").2
        = some (.errorString "path param: Network 'id' can only be 'btc', 'eth' or 'ltc'")
    ∧ GetParamNetwork (fixtures.request "doge" []) "id" = ("doge", none)
    ∧ (HandleGetBlock fixtures.rt fixtures.ctl fixtures.inOrder
        (fixtures.request "eth" [("height", "1")])).replies
        = [⟨400, .text "path param: network 'id' can only be 'btc', 'eth' or 'ltc'"⟩] :=
  ⟨by decide, by decide, by decide⟩

/-- C19, amended: `GetParamNetwork` accepts an id (returns it with a nil error) if and only
if it is one of `btc`, `ltc`, `doge`. -/
theorem GetParamNetwork_accepts_iff (ctx : gin.Context) (key : String) :
    ((GetParamNetwork ctx key).2 = none
      ↔ ctx.Param key = "btc" ∨ ctx.Param key = "ltc" ∨ ctx.Param key = "doge")
    ∧ ((GetParamNetwork ctx key).2 = none → (GetParamNetwork ctx key).1 = ctx.Param key) := by
  by_cases hn : Supported (ctx.Param key)
  · rw [GetParamNetwork_accept ctx key hn]
    exact ⟨⟨fun _ => hn, fun _ => rfl⟩, fun _ => rfl⟩
  · obtain ⟨e, he⟩ := GetParamNetwork_reject ctx key hn
    rw [he]
    exact ⟨⟨fun h => absurd h (by simp), fun h => absurd h hn⟩, fun h => absurd h (by simp)⟩

theorem GetParamNetwork_accepts_iff_witness :
    (GetParamNetwork (fixtures.request "doge" []) "id").2 = none
    ∧ (GetParamNetwork (fixtures.request "doge" []) "id").1 = "doge" :=
  ⟨by decide,
    (GetParamNetwork_accepts_iff (fixtures.request "doge" []) "id").2 (by decide)⟩

end util

/-! ## The hash pattern, exactly -/

namespace controller

open sochain

theorem hexClass_iff (ch : Char) : hexClass ch = true ↔ IsHexChar ch := by
  unfold hexClass IsHexChar
  simp only [Bool.or_eq_true, Bool.and_eq_true, decide_eq_true_eq]
  constructor
  · rintro ((h | h) | h)
    · exact Or.inr (Or.inr h)
    · exact Or.inr (Or.inl h)
    · exact Or.inl h
  · rintro (h | h | h)
    · exact Or.inr h
    · exact Or.inl (Or.inr h)
    · exact Or.inl (Or.inl h)

/-- C20: `HashSHA256Regex` accepts a string if and only if it consists of exactly 64
characters, each one of `0-9`, `a-f`, `A-F`; so it rejects the empty string, every string
of length 63 or 65, and every accepted string followed by a newline. -/
theorem HashSHA256Regex_accepts_iff (s : String) :
    (HashSHA256Regex s = true ↔ s.length = 64 ∧ ∀ ch ∈ s.data, IsHexChar ch)
    ∧ HashSHA256Regex "" = false
    ∧ (s.length = 63 ∨ s.length = 65 → HashSHA256Regex s = false)
    ∧ (HashSHA256Regex s = true → HashSHA256Regex (s ++ "\n") = false) := by
  have hiff : HashSHA256Regex s = true ↔ s.length = 64 ∧ ∀ ch ∈ s.data, IsHexChar ch := by
    rw [HashSHA256Regex_iff]
    simp only [hexClass_iff]
  refine ⟨hiff, by decide, ?_, ?_⟩
  · intro hl
    rw [← Bool.not_eq_true, HashSHA256Regex_iff]
    rintro ⟨h64, -⟩
    omega
  · intro hs
    rw [← Bool.not_eq_true, HashSHA256Regex_iff]
    rintro ⟨h65, -⟩
    have h64 := ((HashSHA256Regex_iff s).mp hs).1
    rw [String.length_append] at h65
    have : ("\n" : String).length = 1 := by decide
    omega

theorem HashSHA256Regex_accepts_iff_witness :
    HashSHA256Regex fixtures.goodHash = true
    ∧ HashSHA256Regex (fixtures.goodHash ++ "\n") = false
    ∧ ("eb6f76a4390f4e3cdcf8d2a73fc99d401965abca0372f350bf9317a34a1aa87".length = 63
      ∧ HashSHA256Regex "eb6f76a4390f4e3cdcf8d2a73fc99d401965abca0372f350bf9317a34a1aa87"
        = false) :=
  ⟨by decide,
    (HashSHA256Regex_accepts_iff fixtures.goodHash).2.2.2 (by decide),
    by decide,
    (HashSHA256Regex_accepts_iff
      "eb6f76a4390f4e3cdcf8d2a73fc99d401965abca0372f350bf9317a34a1aa87").2.2.1
      (Or.inl (by decide))⟩

end controller

/-! ## The log entries of the enrichment -/

namespace controller

open sochain

theorem FetchTxAsync_hash (f : String → String → Option Transaction × Option GoError)
    (n : String) (ids : List String) : ∀ g ∈ FetchTxAsync f n ids, g.resp.hash = "" := by
  intro g hg
  simp only [FetchTxAsync, List.mem_map] at hg
  obtain ⟨id, -, rfl⟩ := hg
  rfl

/-- The entries the receive loop writes: one per received failure, until a nil
dereference ends the loop. -/
theorem rangeResults_logs_mem (lvl : Level) (rs : List TxChanResp) :
    ∀ entry ∈ (rangeResults lvl none rs).logs,
      ∃ v ∈ rs, v.err ≠ none ∧ entry = failureEntry lvl v := by
  induction rs with
  | nil => simp [rangeResults]
  | cons v rest ih =>
    intro entry hentry
    by_cases he : v.err = none
    · cases htx : v.tx with
      | none =>
        simp [rangeResults, he, htx] at hentry
      | some tx =>
        simp only [rangeResults, he, ne_eq, not_true_eq_false, if_false, htx] at hentry
        obtain ⟨w, hw, hwe, hweq⟩ := ih entry hentry
        exact ⟨w, List.mem_cons_of_mem _ hw, hwe, hweq⟩
    · simp only [rangeResults, ne_eq, he, not_false_eq_true, if_true, assertClientError,
        List.mem_cons] at hentry
      rcases hentry with rfl | hentry
      · exact ⟨v, List.mem_cons_self _ _, he, rfl⟩
      · obtain ⟨w, hw, hwe, hweq⟩ := ih entry hentry
        exact ⟨w, List.mem_cons_of_mem _ hw, hwe, hweq⟩

theorem rangeResults_logs (lvl : Level) (rs : List TxChanResp)
    (hwf : ∀ v ∈ rs, v.err = none → v.tx ≠ none) :
    (rangeResults lvl none rs).logs
      = (rs.filter fun v => decide (v.err ≠ none)).map (failureEntry lvl) := by
  induction rs with
  | nil => simp [rangeResults]
  | cons v rest ih =>
    have ih := ih (fun w hw => hwf w (List.mem_cons_of_mem _ hw))
    by_cases he : v.err = none
    · have hv := hwf v (List.mem_cons_self _ _) he
      obtain ⟨tx, htx⟩ := Option.ne_none_iff_exists'.mp hv
      simp [rangeResults, he, htx, ih]
    · simp [rangeResults, he, ih, assertClientError, failureEntry]

theorem enrich_logs_eq (rt : Runtime) (c : Controller) (sched : Schedule) (lvl : Level)
    (err : Option GoError) (before : List Call) (n : String) (block : Block) :
    (enrich rt c sched lvl err before n block).logs
      = (rangeResults lvl err (arrival sched.sends
          ((FetchTxAsync c.client.Transaction n (cappedTxs block.Data.Txs)).map
            fun g => g.resp))).logs := by
  unfold enrich
  simp only []
  split_ifs <;> rfl

/-- Every entry that the enrichment writes is the status-less entry, with an empty
`txhash`, of a lookup among the first ten that failed. -/
theorem enrich_logs_mem (rt : Runtime) (c : Controller) (sched : Schedule) (lvl : Level)
    (before : List Call) (n : String) (block : Block) :
    ∀ entry ∈ (enrich rt c sched lvl none before n block).logs,
      ∃ id ∈ block.Data.Txs.take 10, ∃ e, (c.client.Transaction n id).2 = some e
        ∧ entry = ⟨lvl, "unable to fetch transaction",
            [.String "txhash" "", .Error (some e)]⟩ := by
  intro entry hentry
  rw [enrich_logs_eq] at hentry
  obtain ⟨v, hv, hve, rfl⟩ := rangeResults_logs_mem lvl _ entry hentry
  have hv := (arrival_perm _ _).mem_iff.mp hv
  simp only [FetchTxAsync, List.map_map, List.mem_map, cappedTxs_eq_take] at hv
  obtain ⟨id, hid, rfl⟩ := hv
  obtain ⟨e, he⟩ := Option.ne_none_iff_exists'.mp hve
  simp only [Function.comp] at he
  exact ⟨id, hid, e, he, by simp [failureEntry, he]⟩

/-- With no nil lookup result, the enrichment writes exactly one entry per failed lookup,
in the order of arrival. -/
theorem enrich_logs_perm (rt : Runtime) (c : Controller) (sched : Schedule) (lvl : Level)
    (before : List Call) (n : String) (block : Block)
    (hwf : ∀ id ∈ block.Data.Txs.take 10,
      (c.client.Transaction n id).2 = none → (c.client.Transaction n id).1 ≠ none) :
    ((enrich rt c sched lvl none before n block).logs).Perm
      (((block.Data.Txs.take 10).filter (lookupFails c n)).map fun id =>
        ⟨lvl, "unable to fetch transaction",
          [.String "txhash" "", .Error (c.client.Transaction n id).2]⟩) := by
  rw [enrich_logs_eq]
  have hperm := arrival_perm sched.sends
    ((FetchTxAsync c.client.Transaction n (cappedTxs block.Data.Txs)).map fun g => g.resp)
  have hrs : ∀ v ∈ arrival sched.sends
      ((FetchTxAsync c.client.Transaction n (cappedTxs block.Data.Txs)).map fun g => g.resp),
      v.err = none → v.tx ≠ none := by
    intro v hv
    have hv := hperm.mem_iff.mp hv
    simp only [FetchTxAsync, List.map_map, List.mem_map, cappedTxs_eq_take] at hv
    obtain ⟨id, hid, rfl⟩ := hv
    exact hwf id hid
  rw [rangeResults_logs lvl _ hrs]
  refine ((hperm.filter _).map _).trans ?_
  simp only [FetchTxAsync, List.map_map, cappedTxs_eq_take, List.filter_map]
  apply List.Perm.of_eq
  rfl

end controller

/-! ## The log entries on every path -/

namespace controller

open sochain

theorem enrich_logs_shape (rt : Runtime) (c : Controller) (sched : Schedule) (lvl : Level)
    (before : List Call) (n : String) (block : Block) :
    ∀ entry ∈ (enrich rt c sched lvl none before n block).logs, EntryShape entry := by
  intro entry hentry
  obtain ⟨id, -, e, -, rfl⟩ := enrich_logs_mem rt c sched lvl before n block entry hentry
  exact Or.inr (Or.inr ⟨lvl, e, rfl⟩)

set_option maxHeartbeats 1000000 in
theorem HandleGetBlock_logs_shape (rt : Runtime) (c : Controller) (sched : Schedule)
    (ctx : gin.Context) :
    ∀ entry ∈ (HandleGetBlock rt c sched ctx).logs, EntryShape entry := by
  intro entry hentry
  unfold HandleGetBlock at hentry
  simp only [] at hentry
  repeat' split at hentry
  all_goals first
    | exact enrich_logs_shape _ _ _ _ _ _ _ entry hentry
    | (simp only [List.mem_singleton] at hentry; subst hentry; exact Or.inl ⟨_, rfl⟩)
    | (simp only [List.mem_singleton] at hentry; subst hentry; exact Or.inr (Or.inl ⟨_, rfl⟩))
    | (simp at hentry)

end controller

/-! ## The upstream calls, mode by mode -/

namespace controller

open sochain

theorem enrich_blockCalls (rt : Runtime) (c : Controller) (sched : Schedule) (lvl : Level)
    (err : Option GoError) (before : List Call) (n : String) (block : Block) :
    (enrich rt c sched lvl err before n block).calls.filter (fun call => !isTransactionCall call)
      = before.filter (fun call => !isTransactionCall call) := by
  rw [enrich_calls, List.filter_append]
  have hall : ∀ a ∈ arrival sched.calls ((block.Data.Txs.take 10).map (Call.Transaction n)),
      ¬ ((!isTransactionCall a) = true) := by
    intro a ha
    have := (arrival_perm _ _).mem_iff.mp ha
    obtain ⟨id, _, rfl⟩ := List.mem_map.mp this
    simp [isTransactionCall]
  rw [List.filter_eq_nil_iff.mpr hall, List.append_nil]

theorem enrich_calls_network (rt : Runtime) (c : Controller) (sched : Schedule) (lvl : Level)
    (err : Option GoError) (before : List Call) (n : String) (block : Block)
    (hb : ∀ call ∈ before, call.networkID = n) :
    ∀ call ∈ (enrich rt c sched lvl err before n block).calls, call.networkID = n := by
  intro call hcall
  rw [enrich_calls, List.mem_append] at hcall
  rcases hcall with h | h
  · exact hb call h
  · have := (arrival_perm _ _).mem_iff.mp h
    obtain ⟨id, _, rfl⟩ := List.mem_map.mp this
    rfl

set_option maxHeartbeats 1000000 in
theorem HandleGetBlock_calls_network (rt : Runtime) (c : Controller) (sched : Schedule)
    (ctx : gin.Context) :
    ∀ call ∈ (HandleGetBlock rt c sched ctx).calls,
      Supported (ctx.Param "id") ∧ call.networkID = ctx.Param "id" := by
  intro call hcall
  by_cases hn : Supported (ctx.Param "id")
  · refine ⟨hn, ?_⟩
    simp only [HandleGetBlock, GetParamNetwork_accept ctx "id" hn, ToLower_supported _ hn]
      at hcall
    repeat' split at hcall
    all_goals first
      | exact enrich_calls_network _ _ _ _ _ _ _ _ (by simp [Call.networkID]) call hcall
      | (simp only [List.mem_cons, List.mem_singleton, List.not_mem_nil, or_false] at hcall
         rcases hcall with rfl | rfl <;> rfl)
      | (simp at hcall)
  · obtain ⟨e, he⟩ := GetParamNetwork_reject ctx "id" hn
    simp [HandleGetBlock, he] at hcall

theorem HandleGetTransaction_calls_network (rt : Runtime) (c : Controller)
    (ctx : gin.Context) :
    ∀ call ∈ (HandleGetTransaction rt c ctx).calls,
      Supported (ctx.Param "id") ∧ call.networkID = ctx.Param "id" := by
  intro call hcall
  by_cases hn : Supported (ctx.Param "id")
  · refine ⟨hn, ?_⟩
    simp only [HandleGetTransaction, GetParamNetwork_accept ctx "id" hn] at hcall
    repeat' split at hcall
    all_goals first
      | (simp only [List.mem_singleton] at hcall; subst hcall; rfl)
      | (simp at hcall)
  · obtain ⟨e, he⟩ := GetParamNetwork_reject ctx "id" hn
    simp [HandleGetTransaction, he] at hcall

/-- In the implicit-latest mode the first upstream call is `NetworkInfo`, and once it has
returned `info` the only other call that is not a transaction lookup is `BlockHeight` with
`info.Data.Blocks`. -/
theorem latest_mode_calls (rt : Runtime) (c : Controller) (sched : Schedule)
    (ctx : gin.Context) (hn : Supported (ctx.Param "id"))
    (hh : ctx.Query "height" = "") (hb : ctx.Query "blockhash" = "") :
    (HandleGetBlock rt c sched ctx).calls.head? = some (.NetworkInfo (ctx.Param "id"))
    ∧ ∀ info, c.client.NetworkInfo (ctx.Param "id") = (some info, none) →
        (HandleGetBlock rt c sched ctx).calls.filter (fun call => !isTransactionCall call)
          = [.NetworkInfo (ctx.Param "id"),
             .BlockHeight (ctx.Param "id") info.Data.Blocks] := by
  constructor
  · simp only [HandleGetBlock, GetParamNetwork_accept ctx "id" hn, ToLower_supported _ hn, hh,
      hb, and_self, if_true]
    repeat' split
    all_goals first
      | rfl
      | (rw [enrich_calls]; rfl)
  · intro info hi
    simp only [HandleGetBlock, GetParamNetwork_accept ctx "id" hn, ToLower_supported _ hn, hh,
      hb, and_self, if_true, hi]
    repeat' split
    all_goals first
      | rfl
      | (rw [enrich_blockCalls]; rfl)

theorem height_mode_calls (rt : Runtime) (c : Controller) (sched : Schedule)
    (ctx : gin.Context) (hn : Supported (ctx.Param "id"))
    (hh : ctx.Query "height" ≠ "")
    (hok : (strconv.Atoi (ctx.Query "height")).2 = none)
    (hpos : 0 < (strconv.Atoi (ctx.Query "height")).1) :
    (HandleGetBlock rt c sched ctx).calls.filter (fun call => !isTransactionCall call)
      = [.BlockHeight (ctx.Param "id") (strconv.Atoi (ctx.Query "height")).1] := by
  have hbad : ¬ ((strconv.Atoi (ctx.Query "height")).2 ≠ none
      ∨ (strconv.Atoi (ctx.Query "height")).1 ≤ 0) := by
    simp [hok, hpos]
  simp only [HandleGetBlock, GetParamNetwork_accept ctx "id" hn, ToLower_supported _ hn, hh,
    false_and, if_false, ne_eq, not_false_eq_true, if_true, hbad]
  repeat' split
  all_goals first
    | rfl
    | (rw [enrich_blockCalls]; rfl)

theorem hash_mode_calls (rt : Runtime) (c : Controller) (sched : Schedule)
    (ctx : gin.Context) (hn : Supported (ctx.Param "id"))
    (hh : ctx.Query "height" = "") (hb : ctx.Query "blockhash" ≠ "")
    (hgood : HashSHA256Regex (ctx.Query "blockhash") = true) :
    (HandleGetBlock rt c sched ctx).calls.filter (fun call => !isTransactionCall call)
      = [.BlockHash (ctx.Param "id") (ctx.Query "blockhash")] := by
  simp only [HandleGetBlock, GetParamNetwork_accept ctx "id" hn, ToLower_supported _ hn, hh, hb,
    false_and, and_false, if_false, ne_eq, not_false_eq_true, if_true, hgood,
    not_true_eq_false]
  repeat' split
  all_goals first
    | rfl
    | (rw [enrich_blockCalls]; rfl)

/-- With a non-empty `height` the handler reads nothing of the request but the path
parameter `id` and the query value `height`. -/
theorem height_mode_ignores_blockhash (rt : Runtime) (c : Controller) (sched : Schedule)
    (ctx ctx' : gin.Context) (hh : ctx.Query "height" ≠ "")
    (hid : ctx'.Param "id" = ctx.Param "id")
    (hheight : ctx'.Query "height" = ctx.Query "height") :
    HandleGetBlock rt c sched ctx' = HandleGetBlock rt c sched ctx := by
  have hg : util.GetParamNetwork ctx' "id" = util.GetParamNetwork ctx "id" := by
    simp only [util.GetParamNetwork, hid]
  have h1 : ¬ (ctx.Query "height" = "" ∧ ctx.Query "blockhash" = "") := fun h => hh h.1
  have h2 : ¬ (ctx.Query "height" = "" ∧ ctx'.Query "blockhash" = "") := fun h => hh h.1
  simp only [HandleGetBlock, hg, hheight, if_neg h1, if_neg h2, if_pos hh]

end controller

/-! ## Mode selection, heights and log entries -/

namespace controller

open sochain

/-- C21: mode selection in `HandleGetBlock` is by precedence.  With both query values
empty the first call is `NetworkInfo(network)` and, once it has returned `info`, the block
is looked up with `BlockHeight(network, info.Data.Blocks)`.  With a non-empty `height` that
parses to `h > 0` the block is looked up with `BlockHeight(network, h)` only, and the run
is the same whatever the `blockhash` value is.  With an empty `height` and a well-formed
`blockhash` `x` the block is looked up with `BlockHash(network, x)` only.  Every other
upstream call of a run is a transaction lookup. -/
theorem mode_selection_by_precedence (rt : Runtime) (c : Controller) (sched : Schedule)
    (ctx : gin.Context) (hn : Supported (ctx.Param "id")) :
    (ctx.Query "height" = "" → ctx.Query "blockhash" = "" →
      (HandleGetBlock rt c sched ctx).calls.head? = some (.NetworkInfo (ctx.Param "id"))
      ∧ ∀ info, c.client.NetworkInfo (ctx.Param "id") = (some info, none) →
          (HandleGetBlock rt c sched ctx).calls.filter (fun call => !isTransactionCall call)
            = [.NetworkInfo (ctx.Param "id"),
               .BlockHeight (ctx.Param "id") info.Data.Blocks])
    ∧ (ctx.Query "height" ≠ "" → (strconv.Atoi (ctx.Query "height")).2 = none →
      0 < (strconv.Atoi (ctx.Query "height")).1 →
      (HandleGetBlock rt c sched ctx).calls.filter (fun call => !isTransactionCall call)
          = [.BlockHeight (ctx.Param "id") (strconv.Atoi (ctx.Query "height")).1]
      ∧ ∀ ctx' : gin.Context, ctx'.Param "id" = ctx.Param "id" →
          ctx'.Query "height" = ctx.Query "height" →
            HandleGetBlock rt c sched ctx' = HandleGetBlock rt c sched ctx)
    ∧ (ctx.Query "height" = "" → ctx.Query "blockhash" ≠ "" →
      HashSHA256Regex (ctx.Query "blockhash") = true →
      (HandleGetBlock rt c sched ctx).calls.filter (fun call => !isTransactionCall call)
          = [.BlockHash (ctx.Param "id") (ctx.Query "blockhash")]) := by
  refine ⟨fun hh hb => latest_mode_calls rt c sched ctx hn hh hb,
    fun hh hok hpos => ⟨height_mode_calls rt c sched ctx hn hh hok hpos,
      fun ctx' hid hheight => height_mode_ignores_blockhash rt c sched ctx ctx' hh hid hheight⟩,
    fun hh hb hgood => hash_mode_calls rt c sched ctx hn hh hb hgood⟩

theorem mode_selection_by_precedence_witness :
    ((HandleGetBlock fixtures.rt fixtures.ctl fixtures.inOrder
        (fixtures.request "btc" [])).calls.filter (fun call => !isTransactionCall call)
      = [.NetworkInfo "btc", .BlockHeight "btc" 7])
    ∧ ((HandleGetBlock fixtures.rt fixtures.ctl fixtures.inOrder
        (fixtures.request "btc" [("height", "1"), ("blockhash", "zz")])).calls.filter
          (fun call => !isTransactionCall call)
      = [.BlockHeight "btc" 1])
    ∧ (HandleGetBlock fixtures.rt fixtures.ctl fixtures.inOrder
        (fixtures.request "btc" [("height", "1")])
      = HandleGetBlock fixtures.rt fixtures.ctl fixtures.inOrder
        (fixtures.request "btc" [("height", "1"), ("blockhash", "zz")]))
    ∧ ((HandleGetBlock fixtures.rt fixtures.ctl fixtures.inOrder
        (fixtures.request "btc" [("blockhash", fixtures.goodHash)])).calls.filter
          (fun call => !isTransactionCall call)
      = [.BlockHash "btc" fixtures.goodHash]) :=
  ⟨((mode_selection_by_precedence fixtures.rt fixtures.ctl fixtures.inOrder
      (fixtures.request "btc" []) (by decide)).1 (by decide) (by decide)).2
      { Data := { Blocks := 7 } } rfl,
    ((mode_selection_by_precedence fixtures.rt fixtures.ctl fixtures.inOrder
      (fixtures.request "btc" [("height", "1"), ("blockhash", "zz")]) (by decide)).2.1
      (by decide) (by decide) (by decide)).1,
    ((mode_selection_by_precedence fixtures.rt fixtures.ctl fixtures.inOrder
      (fixtures.request "btc" [("height", "1"), ("blockhash", "zz")]) (by decide)).2.1
      (by decide) (by decide) (by decide)).2 (fixtures.request "btc" [("height", "1")])
      (by decide) (by decide),
    (mode_selection_by_precedence fixtures.rt fixtures.ctl fixtures.inOrder
      (fixtures.request "btc" [("blockhash", fixtures.goodHash)]) (by decide)).2.2
      (by decide) (by decide) (by decide)⟩

/-- C22 on the code: when `NetworkInfo` reports the chain height 0, the implicit-latest
mode calls `BlockHeight` with the height 0, which is not strictly positive; the
explicit-height mode rejects the same height with 400 and makes no call. -/
theorem latest_mode_passes_height_zero :
    fixtures.emptyChain.NetworkInfo "btc" = (some { Data := { Blocks := 0 } }, none)
    ∧ (HandleGetBlock fixtures.rt (NewController fixtures.emptyChain) fixtures.inOrder
        (fixtures.request "btc" [])).calls
        = [.NetworkInfo "btc", .BlockHeight "btc" 0]
    ∧ ¬ ((0 : Int) < 0)
    ∧ (HandleGetBlock fixtures.rt (NewController fixtures.emptyChain) fixtures.inOrder
        (fixtures.request "btc" [("height", "0")])).calls = []
    ∧ (HandleGetBlock fixtures.rt (NewController fixtures.emptyChain) fixtures.inOrder
        (fixtures.request "btc" [("height", "0")])).replies.map Reply.code = [400] :=
  ⟨by decide, by decide, by decide, by decide, by decide⟩

/-- C23 on the code: a block lists the ids `1` and `2` and the lookup of `2` fails with a
`ClientError` that carries the status 503.  The entry logged for it is the entry of the
status-less branch (level `Info`, no `statuscode` field) in the explicit-height mode, and
in the block-hash mode the `Warn` entry of that branch, again without a `statuscode`
field. -/
theorem status_failure_logged_without_statuscode :
    fixtures.txUnavailable.Transaction "btc" "2"
        = (none, some (.ClientError (.errorString "some") 503))
    ∧ (HandleGetBlock fixtures.rt (NewController fixtures.txUnavailable) fixtures.inOrder
        (fixtures.request "btc" [("height", "1")])).logs
        = [⟨.Info, "unable to fetch transaction",
            [.String "txhash" "", .Error (some (.ClientError (.errorString "some") 503))]⟩]
    ∧ (HandleGetBlock fixtures.rt (NewController fixtures.txUnavailable) fixtures.inOrder
        (fixtures.request "btc" [("blockhash", fixtures.goodHash)])).logs
        = [⟨.Warn, "unable to fetch transaction",
            [.String "txhash" "", .Error (some (.ClientError (.errorString "some") 503))]⟩]
    ∧ ((HandleGetBlock fixtures.rt (NewController fixtures.txUnavailable) fixtures.inOrder
        (fixtures.request "btc" [("height", "1")])).logs.map hasStatuscode = [false])
    ∧ (HandleGetBlock fixtures.rt (NewController fixtures.txUnavailable) fixtures.inOrder
        (fixtures.request "btc" [("height", "1")])).logs
      ≠ [⟨.Warn, "unable to fetch transaction",
          [.String "txhash" "", .Int "statuscode" 503,
           .Error (some (.ClientError (.errorString "some") 503))]⟩] :=
  ⟨by decide, by decide, by decide, by decide, by decide⟩

end controller

/-! ## The logged hash and the network id of every call -/

namespace controller

open sochain

/-- C24: every value that a goroutine of `FetchTxAsync` sends has an empty `hash` field,
so every `txhash` that `HandleGetBlock` logs is the empty string; after a successful block
lookup the entries logged are those of the failed lookups among the first ten ids, each
with the `txhash` field empty. -/
theorem logged_txhash_is_empty (rt : Runtime) (c : Controller) (sched : Schedule)
    (ctx : gin.Context) :
    (∀ (f : String → String → Option Transaction × Option GoError) (n : String)
        (ids : List String), ∀ g ∈ FetchTxAsync f n ids, g.resp.hash = "")
    ∧ (∀ entry ∈ (HandleGetBlock rt c sched ctx).logs, ∀ v,
        Field.String "txhash" v ∈ entry.fields → v = "")
    ∧ (∀ block, FetchesBlock c ctx block →
        ∀ entry ∈ (HandleGetBlock rt c sched ctx).logs,
          ∃ id ∈ block.Data.Txs.take 10, ∃ lvl e,
            (c.client.Transaction (ctx.Param "id") id).2 = some e
            ∧ entry = ⟨lvl, "unable to fetch transaction",
                [.String "txhash" "", .Error (some e)]⟩) := by
  refine ⟨FetchTxAsync_hash, ?_, ?_⟩
  · intro entry hentry v hv
    rcases HandleGetBlock_logs_shape rt c sched ctx entry hentry with ⟨oe, h⟩ | ⟨w, h⟩
      | ⟨lvl, e, rfl⟩
    · rw [h] at hv
      simp at hv
    · rw [h] at hv
      simp at hv
    · simp only [List.mem_cons, Field.String.injEq, true_and, List.mem_singleton,
        List.not_mem_nil, or_false] at hv
      rcases hv with h | h
      · exact h
      · exact absurd h (by simp)
  · intro block hf entry hentry
    obtain ⟨lvl, before, heq, -⟩ := FetchesBlock_enrich rt c sched ctx block hf
    rw [heq] at hentry
    obtain ⟨id, hid, e, he, hentry⟩ :=
      enrich_logs_mem rt c sched lvl before (ctx.Param "id") block entry hentry
    exact ⟨id, hid, lvl, e, he, hentry⟩

theorem logged_txhash_is_empty_witness :
    FetchesBlock fixtures.ctl (fixtures.request "btc" [("height", "1")])
      (fixtures.blockOf 1 ["1", "2", "3", "4"])
    ∧ (HandleGetBlock fixtures.rt fixtures.ctl fixtures.inOrder
        (fixtures.request "btc" [("height", "1")])).logs
      = [⟨.Info, "unable to fetch transaction",
          [.String "txhash" "", .Error (some (.errorString "some"))]⟩,
         ⟨.Info, "unable to fetch transaction",
          [.String "txhash" "",
           .Error (some (NewClientErr (.errorString "some") 500))]⟩]
    ∧ ∀ entry ∈ (HandleGetBlock fixtures.rt fixtures.ctl fixtures.inOrder
        (fixtures.request "btc" [("height", "1")])).logs,
        ∃ id ∈ ["1", "2", "3", "4"], ∃ lvl e,
          (fixtures.ctl.client.Transaction "btc" id).2 = some e
          ∧ entry = ⟨lvl, "unable to fetch transaction",
              [.String "txhash" "", .Error (some e)]⟩ :=
  ⟨⟨by decide, Or.inr (Or.inl ⟨by decide, by decide, by decide, by decide⟩)⟩, by decide,
    (logged_txhash_is_empty fixtures.rt fixtures.ctl fixtures.inOrder
      (fixtures.request "btc" [("height", "1")])).2.2 (fixtures.blockOf 1 ["1", "2", "3", "4"])
      ⟨by decide, Or.inr (Or.inl ⟨by decide, by decide, by decide, by decide⟩)⟩⟩

end controller

namespace util

open sochain controller

/-- C27: network validation is case-sensitive.  `GetParamNetwork` rejects an id that is not
itself lower-case although its lower-case form is one of `btc`, `ltc`, `doge`; for an id it
accepts, `strings.ToLower` returns the id unchanged; and every upstream call of
`HandleGetBlock` and of `HandleGetTransaction` is made with a network id that is one of
`btc`, `ltc`, `doge`, the `id` of the request. -/
theorem network_validation_case_sensitive (ctx : gin.Context) :
    (∀ key, Supported (strings.ToLower (ctx.Param key)) →
      ctx.Param key ≠ strings.ToLower (ctx.Param key) → (GetParamNetwork ctx key).2 ≠ none)
    ∧ (∀ key, (GetParamNetwork ctx key).2 = none →
      strings.ToLower (GetParamNetwork ctx key).1 = (GetParamNetwork ctx key).1
      ∧ ((GetParamNetwork ctx key).1 = "btc" ∨ (GetParamNetwork ctx key).1 = "ltc"
          ∨ (GetParamNetwork ctx key).1 = "doge"))
    ∧ (∀ (rt : Runtime) (c : Controller) (sched : Schedule),
      ∀ call ∈ (HandleGetBlock rt c sched ctx).calls,
        (call.networkID = "btc" ∨ call.networkID = "ltc" ∨ call.networkID = "doge")
        ∧ call.networkID = ctx.Param "id")
    ∧ (∀ (rt : Runtime) (c : Controller),
      ∀ call ∈ (HandleGetTransaction rt c ctx).calls,
        (call.networkID = "btc" ∨ call.networkID = "ltc" ∨ call.networkID = "doge")
        ∧ call.networkID = ctx.Param "id") := by
  refine ⟨?_, ?_, ?_, ?_⟩
  · intro key hlow hne
    by_cases hn : Supported (ctx.Param key)
    · exact absurd (ToLower_supported _ hn).symm hne
    · obtain ⟨e, he⟩ := GetParamNetwork_reject ctx key hn
      rw [he]
      simp
  · intro key hacc
    by_cases hn : Supported (ctx.Param key)
    · rw [GetParamNetwork_accept ctx key hn]
      exact ⟨ToLower_supported _ hn, hn⟩
    · obtain ⟨e, he⟩ := GetParamNetwork_reject ctx key hn
      rw [he] at hacc
      exact absurd hacc (by simp)
  · intro rt c sched call hcall
    obtain ⟨hn, heq⟩ := HandleGetBlock_calls_network rt c sched ctx call hcall
    rw [heq]
    exact ⟨hn, rfl⟩
  · intro rt c call hcall
    obtain ⟨hn, heq⟩ := HandleGetTransaction_calls_network rt c ctx call hcall
    rw [heq]
    exact ⟨hn, rfl⟩

theorem network_validation_case_sensitive_witness :
    Supported (strings.ToLower ((fixtures.request "BTC" []).Param "id"))
    ∧ (fixtures.request "BTC" []).Param "id"
        ≠ strings.ToLower ((fixtures.request "BTC" []).Param "id")
    ∧ (GetParamNetwork (fixtures.request "BTC" []) "id").2 ≠ none
    ∧ (HandleGetBlock fixtures.rt fixtures.ctl fixtures.inOrder
        (fixtures.request "BTC" [])).calls = [] :=
  ⟨by decide, by decide,
    (network_validation_case_sensitive (fixtures.request "BTC" [])).1 "id" (by decide)
      (by decide),
    by decide⟩

end util

/-! ## The implicit-latest mode and the explicit-height mode -/

namespace controller

open sochain

theorem ReplyAgrees_refl (r : Reply) : ReplyAgrees r r := by
  refine ⟨rfl, ?_⟩
  cases r.obj with
  | block b => exact ⟨⟨rfl, rfl, rfl, rfl, rfl⟩, List.Perm.refl _⟩
  | text s => rfl
  | transaction t => rfl

/-- Two enrichments of the same block against the same upstream agree up to the order of
the transactions, whatever the schedules, the log levels and the calls made before. -/
theorem enrich_agree (rt : Runtime) (c : Controller) (s₁ s₂ : Schedule) (l₁ l₂ : Level)
    (b₁ b₂ : List Call) (n : String) (block : Block) :
    List.Forall₂ ReplyAgrees (enrich rt c s₁ l₁ none b₁ n block).replies
      (enrich rt c s₂ l₂ none b₂ n block).replies := by
  by_cases hnil : ∃ id ∈ block.Data.Txs.take 10, nilLookup c n id = true
  · have h₁ := enrich_replies_of_panicked rt c s₁ l₁ none b₁ n block
      ((enrich_panicked_iff rt c s₁ l₁ b₁ n block).mpr hnil)
    have h₂ := enrich_replies_of_panicked rt c s₂ l₂ none b₂ n block
      ((enrich_panicked_iff rt c s₂ l₂ b₂ n block).mpr hnil)
    rw [h₁, h₂]
    exact List.Forall₂.nil
  · have hwf : ∀ id ∈ block.Data.Txs.take 10,
        (c.client.Transaction n id).2 = none → (c.client.Transaction n id).1 ≠ none := by
      intro id hid he htx
      exact hnil ⟨id, hid, by simp [nilLookup, he, htx]⟩
    obtain ⟨t₁, hr₁, hp₁⟩ := enrich_reply rt c s₁ l₁ b₁ n block hwf
    obtain ⟨t₂, hr₂, hp₂⟩ := enrich_reply rt c s₂ l₂ b₂ n block hwf
    rw [hr₁, hr₂]
    refine List.Forall₂.cons ⟨rfl, ⟨rfl, rfl, rfl, rfl, rfl⟩, ?_⟩ List.Forall₂.nil
    exact (hp₁.trans hp₂.symm).map _

/-- C25: for a supported network and a stable upstream whose `NetworkInfo` succeeds with
`Data.Blocks = h`, where `h > 0`, a run of the request with neither `height` nor
`blockhash` and a run of the request whose `height` parses to `h` write replies that agree:
the same status and the same body up to the order of the transactions list, on the success
path, on every failure of `BlockHeight` (where the replies are identical), and also when
no reply is written. -/
theorem latest_mode_equals_explicit_height (rt : Runtime) (c : Controller)
    (s₁ s₂ : Schedule) (ctx₁ ctx₂ : gin.Context) (info : NetworkInfo)
    (hn : Supported (ctx₁.Param "id")) (hid : ctx₂.Param "id" = ctx₁.Param "id")
    (hh₁ : ctx₁.Query "height" = "") (hb₁ : ctx₁.Query "blockhash" = "")
    (hi : c.client.NetworkInfo (ctx₁.Param "id") = (some info, none))
    (hpos : 0 < info.Data.Blocks)
    (hparse : strconv.Atoi (ctx₂.Query "height") = (info.Data.Blocks, none)) :
    List.Forall₂ ReplyAgrees (HandleGetBlock rt c s₁ ctx₁).replies
        (HandleGetBlock rt c s₂ ctx₂).replies
    ∧ (∀ x e, c.client.BlockHeight (ctx₁.Param "id") info.Data.Blocks = (x, some e) →
        (HandleGetBlock rt c s₁ ctx₁).replies = (HandleGetBlock rt c s₂ ctx₂).replies) := by
  have hn₂ : Supported (ctx₂.Param "id") := by rw [hid]; exact hn
  have hh₂ : ctx₂.Query "height" ≠ "" := by
    intro h0
    rw [h0] at hparse
    have : (strconv.Atoi "").2 = none := by rw [hparse]
    exact absurd this (by decide)
  have hok : (strconv.Atoi (ctx₂.Query "height")).2 = none := by rw [hparse]
  have hval : (strconv.Atoi (ctx₂.Query "height")).1 = info.Data.Blocks := by rw [hparse]
  have hpos₂ : 0 < (strconv.Atoi (ctx₂.Query "height")).1 := by rw [hval]; exact hpos
  have hfail : ∀ x e, c.client.BlockHeight (ctx₁.Param "id") info.Data.Blocks = (x, some e) →
      (HandleGetBlock rt c s₁ ctx₁).replies = (HandleGetBlock rt c s₂ ctx₂).replies := by
    intro x e hblk
    have hblk₂ : c.client.BlockHeight (ctx₂.Param "id")
        (strconv.Atoi (ctx₂.Query "height")).1 = (x, some e) := by
      rw [hid, hval]; exact hblk
    rw [HandleGetBlock_latest_blockFail_replies rt c s₁ ctx₁ hn hh₁ hb₁ info hi x e hblk,
      HandleGetBlock_height_blockFail_replies rt c s₂ ctx₂ hn₂ hh₂ hok hpos₂ x e hblk₂]
  refine ⟨?_, hfail⟩
  rcases hblk : c.client.BlockHeight (ctx₁.Param "id") info.Data.Blocks with ⟨y, oe⟩
  cases oe with
  | some e =>
    rw [hfail y e hblk]
    exact List.forall₂_same.mpr fun r _ => ReplyAgrees_refl r
  | none =>
    have hblk₂ : c.client.BlockHeight (ctx₂.Param "id")
        (strconv.Atoi (ctx₂.Query "height")).1 = (y, none) := by
      rw [hid, hval]; exact hblk
    cases y with
    | none =>
      have h₁ : (HandleGetBlock rt c s₁ ctx₁).replies = [] := by
        simp [HandleGetBlock, GetParamNetwork_accept ctx₁ "id" hn, ToLower_supported _ hn,
          hh₁, hb₁, hi, hblk]
      have h₂ : (HandleGetBlock rt c s₂ ctx₂).replies = [] := by
        have hbad : ¬ ((strconv.Atoi (ctx₂.Query "height")).2 ≠ none
            ∨ (strconv.Atoi (ctx₂.Query "height")).1 ≤ 0) := by
          simp [hok, hpos₂]
        simp [HandleGetBlock, GetParamNetwork_accept ctx₂ "id" hn₂, ToLower_supported _ hn₂,
          hh₂, hbad, hblk₂]
      rw [h₁, h₂]
      exact List.Forall₂.nil
    | some block =>
      rw [HandleGetBlock_latest_ok rt c s₁ ctx₁ hn hh₁ hb₁ info hi block hblk,
        HandleGetBlock_height_ok rt c s₂ ctx₂ hn₂ hh₂ hok hpos₂ block hblk₂, hid]
      exact enrich_agree rt c s₁ s₂ _ _ _ _ _ block

theorem latest_mode_equals_explicit_height_witness :
    fixtures.ctl.client.NetworkInfo "btc" = (some { Data := { Blocks := 7 } }, none)
    ∧ strconv.Atoi ((fixtures.request "btc" [("height", "7")]).Query "height") = (7, none)
    ∧ List.Forall₂ ReplyAgrees
        (HandleGetBlock fixtures.rt fixtures.ctl fixtures.secondFirst
          (fixtures.request "btc" [])).replies
        (HandleGetBlock fixtures.rt fixtures.ctl fixtures.inOrder
          (fixtures.request "btc" [("height", "7")])).replies :=
  ⟨by decide, by decide,
    (latest_mode_equals_explicit_height fixtures.rt fixtures.ctl fixtures.secondFirst
      fixtures.inOrder (fixtures.request "btc" []) (fixtures.request "btc" [("height", "7")])
      { Data := { Blocks := 7 } } (by decide) (by decide) (by decide) (by decide) (by decide)
      (by decide) (by decide)).1⟩

end controller

/-! ## Exactly one reply -/

namespace controller

open sochain

theorem enrich_one_reply (rt : Runtime) (c : Controller) (sched : Schedule) (lvl : Level)
    (before : List Call) (n : String) (block : Block) (hwf : WellFormed c.client) :
    ∃ b, (enrich rt c sched lvl none before n block).replies = [⟨200, .block b⟩] := by
  have h : ∀ id ∈ block.Data.Txs.take 10,
      (c.client.Transaction n id).2 = none → (c.client.Transaction n id).1 ≠ none := by
    intro id _ he htx
    exact hwf.2.2.2 n id (Prod.ext htx he)
  obtain ⟨txs, hrep, -⟩ := enrich_reply rt c sched lvl before n block h
  exact ⟨_, by rw [hrep]⟩

/-- A run of `HandleGetBlock` that writes no reply has met an operation that returned a
nil result with a nil error. -/
theorem HandleGetBlock_replies_ne_nil (rt : Runtime) (c : Controller) (sched : Schedule)
    (ctx : gin.Context) (hwf : WellFormed c.client) :
    (HandleGetBlock rt c sched ctx).replies ≠ [] := by
  rcases HandleGetBlock_cases rt c sched ctx with h0 | ⟨code, s, -, -, h1⟩
    | ⟨block, lvl, before, hf, heq⟩
  · exfalso
    by_cases hn : Supported (ctx.Param "id")
    · simp only [HandleGetBlock, GetParamNetwork_accept ctx "id" hn, ToLower_supported _ hn]
        at h0
      repeat' split at h0
      all_goals first
        | (rename_i heq; exact absurd heq (hwf.1 _))
        | (rename_i heq; exact absurd heq (hwf.2.1 _ _))
        | (rename_i heq; exact absurd heq (hwf.2.2.1 _ _))
        | (exact absurd h0 (List.cons_ne_nil _ _))
        | (obtain ⟨b, hb⟩ := enrich_one_reply rt c sched _ _ _ _ hwf
           rw [hb] at h0
           exact absurd h0 (List.cons_ne_nil _ _))
        | (exfalso; simp_all)
    · obtain ⟨e, he⟩ := GetParamNetwork_reject ctx "id" hn
      simp [HandleGetBlock, he] at h0
  · rw [h1]
    simp
  · obtain ⟨b, hb⟩ := enrich_one_reply rt c sched lvl before (ctx.Param "id") block hwf
    rw [heq, hb]
    simp

theorem HandleGetTransaction_replies_ne_nil (rt : Runtime) (c : Controller)
    (ctx : gin.Context) (hwf : WellFormed c.client) :
    (HandleGetTransaction rt c ctx).replies ≠ [] := by
  rcases HandleGetTransaction_cases rt c ctx with h0 | ⟨code, s, -, -, h1⟩ | ⟨tx, -, -, -, h1⟩
  · exfalso
    by_cases hn : Supported (ctx.Param "id")
    · simp only [HandleGetTransaction, GetParamNetwork_accept ctx "id" hn] at h0
      repeat' split at h0
      all_goals first
        | (rename_i heq; exact absurd heq (hwf.2.2.2 _ _))
        | (exact absurd h0 (List.cons_ne_nil _ _))
    · obtain ⟨e, he⟩ := GetParamNetwork_reject ctx "id" hn
      simp [HandleGetTransaction, he] at h0
  · rw [h1]
    simp
  · rw [h1]
    simp

/-- C26: against an upstream none of whose operations returns a nil result together with a
nil error, `HandleGetBlock` (under every schedule) and `HandleGetTransaction` each write
exactly one reply, whose status is one of 200, 400, 404, 500; and a failed block or
transaction lookup whose error carries a status code other than 400 and 404 is answered
with 500 whatever that code is. -/
theorem one_reply_with_known_status (rt : Runtime) (c : Controller) (ctx : gin.Context)
    (hwf : WellFormed c.client) :
    (∀ sched : Schedule, ∃ r, (HandleGetBlock rt c sched ctx).replies = [r]
      ∧ (r.code = 200 ∨ r.code = 400 ∨ r.code = 404 ∨ r.code = 500))
    ∧ (∃ r, (HandleGetTransaction rt c ctx).replies = [r]
      ∧ (r.code = 200 ∨ r.code = 400 ∨ r.code = 404 ∨ r.code = 500))
    ∧ (∀ (e : GoError) (code : Int), carriedCode (some e) = some code → code ≠ 400 →
      code ≠ 404 →
        (∀ sched, BlockLookupFails c ctx e →
          (HandleGetBlock rt c sched ctx).replies.map Reply.code = [500])
        ∧ (TxLookupFails c ctx e →
          (HandleGetTransaction rt c ctx).replies.map Reply.code = [500])) := by
  refine ⟨?_, ?_, ?_⟩
  · intro sched
    have hne := HandleGetBlock_replies_ne_nil rt c sched ctx hwf
    rcases HandleGetBlock_cases rt c sched ctx with h0 | ⟨code, s, hc, -, h1⟩
      | ⟨block, lvl, before, hf, heq⟩
    · exact absurd h0 hne
    · exact ⟨_, h1, Or.inr hc⟩
    · obtain ⟨b, hb⟩ := enrich_one_reply rt c sched lvl before (ctx.Param "id") block hwf
      exact ⟨_, by rw [heq, hb], Or.inl rfl⟩
  · have hne := HandleGetTransaction_replies_ne_nil rt c ctx hwf
    rcases HandleGetTransaction_cases rt c ctx with h0 | ⟨code, s, hc, -, h1⟩
      | ⟨tx, -, -, -, h1⟩
    · exact absurd h0 hne
    · exact ⟨_, h1, Or.inr hc⟩
    · exact ⟨_, h1, Or.inl rfl⟩
  · intro e code hcode h400 h404
    have hst : statusForFailure e = 500 := by
      cases e with
      | ClientError e0 k =>
        have hk : k = code := by simpa [carriedCode, GoError.Code] using hcode
        subst hk
        exact statusForFailure_of_code_ne e0 k h404 h400
      | ptrClientError e0 k => rfl
      | errorString s => rfl
      | numError a b d => rfl
    refine ⟨fun sched h => ?_, fun h => ?_⟩
    · rw [(BlockLookupFails_status rt c sched ctx e h).1, hst]
    · rw [(TxLookupFails_status rt c ctx e h).1, hst]

theorem WellFormed_upstream : WellFormed fixtures.upstream := by
  refine ⟨fun n => ?_, fun n h => ?_, fun n x => ?_, fun n x => ?_⟩
  · simp [fixtures.upstream]
  · simp only [fixtures.upstream]
    split_ifs <;> simp
  · simp [fixtures.upstream]
  · simp only [fixtures.upstream]
    split_ifs <;> simp

theorem one_reply_with_known_status_witness :
    WellFormed fixtures.ctl.client
    ∧ (∃ r, (HandleGetBlock fixtures.rt fixtures.ctl fixtures.secondFirst
        (fixtures.request "btc" [("height", "1")])).replies = [r]
      ∧ (r.code = 200 ∨ r.code = 400 ∨ r.code = 404 ∨ r.code = 500))
    ∧ (HandleGetBlock fixtures.rt fixtures.ctl fixtures.secondFirst
        (fixtures.request "btc" [("height", "1")])).replies.map Reply.code = [200] :=
  ⟨WellFormed_upstream,
    (one_reply_with_known_status fixtures.rt fixtures.ctl
      (fixtures.request "btc" [("height", "1")]) WellFormed_upstream).1 fixtures.secondFirst,
    by decide⟩

end controller
